import Mathlib

/-!
Verification development for the HAR/Swagger → JMeter test-plan generation
engine.  The TypeScript edge functions (`har-to-jmeter`, the AI-driven HAR
function, the swagger AI function with its fallback serializer and repair
pass, and `ai-jmeter-generator`) are shallowly embedded over `List Char`:
pure template-building functions become Lean functions on character lists,
the throwing primitives (`new URL`, `new RegExp`, `JSON.parse`,
`response.json()`) become `Option`/`Except` valued functions, and the
JavaScript string/regex operations used by the code (`includes`,
`String.prototype.replace` with its `$`-substitution rules, the two global
regex replaces) are modelled explicitly below.  Every template literal is
transcribed byte-for-byte from the source.
-/

/-- Strings are modelled as lists of characters. -/
abbrev Str := List Char

namespace JsStr

/-- The apostrophe character (codepoint 39). -/
def aposChar : Char := Char.ofNat 39

/-- The backtick character (codepoint 96). -/
def btickChar : Char := Char.ofNat 96

/-- Index of the first occurrence of `pat` in `s` (JS `String.prototype.indexOf`,
`none` instead of `-1`). -/
def findSub (pat : Str) : Str → Option Nat
  | [] => if pat.isEmpty then some 0 else none
  | c :: t => if pat.isPrefixOf (c :: t) then some 0 else (findSub pat t).map (· + 1)

/-- JS `String.prototype.includes`. -/
def jsIncludes (s pat : Str) : Bool := (findSub pat s).isSome

/-- Number of start positions at which `pat` occurs in `s`. -/
def countSub (pat : Str) : Str → Nat
  | [] => 0
  | c :: t => (if pat.isPrefixOf (c :: t) then 1 else 0) + countSub pat t

/-- Occurrence count over a chunked string: occurrences are counted inside
each chunk extended by the next `pat.length - 1` characters, so occurrences
straddling a chunk boundary are attributed to the earlier chunk. -/
def countSubChunks (pat : Str) : List Str → Nat
  | [] => 0
  | x :: t => countSub pat (x ++ (t.flatten).take (pat.length - 1)) + countSubChunks pat t

/-- JS `$`-substitution inside a string replacement: `$$` is a literal `$`,
`$&` is the matched text, a `$` followed by a backtick is the text before the
match, `$` followed by an apostrophe the text after it; any other `$` is
literal and scanning resumes at the following character. -/
def jsExpandRepl (bef mat aft : Str) : Str → Str
  | [] => []
  | c :: r =>
    if c = '$' then
      match r with
      | [] => ['$']
      | c2 :: r2 =>
        if c2 = '$' then '$' :: jsExpandRepl bef mat aft r2
        else if c2 = '&' then mat ++ jsExpandRepl bef mat aft r2
        else if c2 = btickChar then bef ++ jsExpandRepl bef mat aft r2
        else if c2 = aposChar then aft ++ jsExpandRepl bef mat aft r2
        else '$' :: jsExpandRepl bef mat aft (c2 :: r2)
    else c :: jsExpandRepl bef mat aft r

/-- JS `s.replace(pat, repl)` with a plain string pattern: replace the first
occurrence of `pat`, applying the `$`-substitution rules to `repl`. -/
def jsReplaceFirst (s pat repl : Str) : Str :=
  match findSub pat s with
  | none => s
  | some i =>
    s.take i ++ jsExpandRepl (s.take i) pat (s.drop (i + pat.length)) repl
      ++ s.drop (i + pat.length)

/-- `Array.prototype.join` with separator `sep`. -/
def joinSep (sep : Str) : List Str → Str
  | [] => []
  | [x] => x
  | x :: y :: t => x ++ sep ++ joinSep sep (y :: t)

/-- ASCII lower-casing (JS `toLowerCase` on the ASCII inputs that occur here). -/
def lowerStr (s : Str) : Str := s.map Char.toLower

/-- ASCII upper-casing (JS `toUpperCase` on the ASCII inputs that occur here). -/
def upperStr (s : Str) : Str := s.map Char.toUpper

/-- Rendering of a JS integer-valued number into a string. -/
def intStr (i : Int) : Str := (toString i).data

/-- Rendering of a natural number. -/
def natStr (n : Nat) : Str := (toString n).data

/-- `[...new Set(xs)]`: deduplication keeping first occurrences. -/
def jsSetDedupGo (seen : List Str) : List Str → List Str
  | [] => []
  | x :: t => if x ∈ seen then jsSetDedupGo seen t else x :: jsSetDedupGo (x :: seen) t

/-- `[...new Set(xs)]` for string lists. -/
def jsSetDedup (xs : List Str) : List Str := jsSetDedupGo [] xs

/-- The single-character escaping map of the `escapeXml` helpers in
`har-to-jmeter/index.ts` and the swagger AI function: each of the five
characters becomes its XML entity, all other characters are unchanged. -/
def escChar (c : Char) : Str :=
  if c = '<' then ("&lt;").data
  else if c = '>' then ("&gt;").data
  else if c = '&' then ("&amp;").data
  else if c = aposChar then ("&apos;").data
  else if c = '"' then ("&quot;").data
  else [c]

/-- `text.replace(/[<>&'"]/g, c => ...)`: the shared `escapeXml` helper. -/
def escapeXml (t : Str) : Str := (t.map escChar).flatten

/-- `requestBody.replace(/"/g, '&quot;')` from `ai-jmeter-generator`'s sampler
generator: only double quotes are escaped. -/
def quotOnlyEscape (t : Str) : Str :=
  (t.map fun c => if c = '"' then ("&quot;").data else [c]).flatten

/-- Decoding of the five XML entities back to characters; used as the
specification-side inverse of `escapeXml`. -/
def unescapeXml : Str → Str
  | [] => []
  | c :: t =>
    if (("&lt;").data).isPrefixOf (c :: t) then '<' :: unescapeXml ((c :: t).drop 4)
    else if (("&gt;").data).isPrefixOf (c :: t) then '>' :: unescapeXml ((c :: t).drop 4)
    else if (("&amp;").data).isPrefixOf (c :: t) then '&' :: unescapeXml ((c :: t).drop 5)
    else if (("&apos;").data).isPrefixOf (c :: t) then aposChar :: unescapeXml ((c :: t).drop 6)
    else if (("&quot;").data).isPrefixOf (c :: t) then '"' :: unescapeXml ((c :: t).drop 6)
    else c :: unescapeXml t
termination_by s => s.length
decreasing_by all_goals (simp only [List.length_drop, List.length_cons]; omega)

end JsStr

namespace JsRegex

open JsStr

/-- JS `\s` on the ASCII range (the whitespace that occurs in these documents). -/
def isWsJs (c : Char) : Bool :=
  c = ' ' || c = '\t' || c = '\n' || c = '\r' || c = Char.ofNat 11 || c = Char.ofNat 12

/-- Literal head of the thread-group pattern. -/
def tgLit1 : Str := ("<ThreadGroup").data

/-- Literal tail of the thread-group pattern. -/
def hashTreeLit : Str := ("<hashTree>").data

/-- Attempt to match `<ThreadGroup[^>]*>\s*<hashTree>` at the head of `s`
(both greedy runs are forced: `[^>]*` stops at the first `>`, `\s*` at the
first non-whitespace).  Returns the matched text and the remainder. -/
def tryMatchTG (s : Str) : Option (Str × Str) :=
  if tgLit1.isPrefixOf s then
    let r1 := s.drop tgLit1.length
    let a := r1.takeWhile (· ≠ '>')
    match r1.drop a.length with
    | '>' :: r3 =>
      let w := r3.takeWhile isWsJs
      if hashTreeLit.isPrefixOf (r3.drop w.length) then
        some (tgLit1 ++ a ++ '>' :: (w ++ hashTreeLit), (r3.drop w.length).drop hashTreeLit.length)
      else none
    | _ => none
  else none

/-- `xml.replace(/<ThreadGroup[^>]*>\s*<hashTree>/g, m => m + ins)`: scan left
to right, appending `ins` after every match.  (The inner `if` only records the
length decrease used for termination; a successful match always consumes at
least one character, so the `else` branch is unreachable.) -/
def tgInsertAllF (ins : Str) : Nat → Str → Str
  | 0, s => s
  | fuel + 1, s =>
    match s with
    | [] => []
    | c :: t =>
      match tryMatchTG (c :: t) with
      | some (m, rest) =>
        if rest.length < t.length + 1 then m ++ ins ++ tgInsertAllF ins fuel rest
        else c :: tgInsertAllF ins fuel t
      | none => c :: tgInsertAllF ins fuel t

/-- The same scan at its actual fuel (a successful match always consumes at
least one character, so `s.length + 1` steps always suffice and the fuel is
never exhausted). -/
def tgInsertAll (ins s : Str) : Str := tgInsertAllF ins (s.length + 1) s

/-- `[n, n-1, ..., 0]`: the order in which a greedy quantifier tries lengths. -/
def descRange (n : Nat) : List Nat := (List.range (n + 1)).reverse

/-- Literal head of the sampler pattern. -/
def httpLit : Str := ("<HTTPSamplerProxy").data

/-- Literal `testname="` of the sampler pattern. -/
def tnLit : Str := ("testname=\"").data

/-- Literal closing tag of the sampler pattern. -/
def closeSamplerLit : Str := ("</HTTPSamplerProxy>").data

/-- Attempt to match
`<HTTPSamplerProxy[^>]*testname="[^"]*M[^"]*"[^>]*>([\s\S]*?)</HTTPSamplerProxy>`
(the repair pass's sampler pattern, `M` the interpolated method) at the head of
`s`, with JS backtracking order: greedy classes try longest first and the lazy
body stops at the first closing tag.  Returns the matched text and remainder. -/
def tryMatchSampler (method s : Str) : Option (Str × Str) :=
  if httpLit.isPrefixOf s then
    let u := s.drop httpLit.length
    let amax := (u.takeWhile (· ≠ '>')).length
    (descRange amax).findSome? fun a =>
      let u1 := u.drop a
      if tnLit.isPrefixOf u1 then
        let v := u1.drop tnLit.length
        let bmax := (v.takeWhile (· ≠ '"')).length
        (descRange bmax).findSome? fun b =>
          let v1 := v.drop b
          if method.isPrefixOf v1 then
            let w := v1.drop method.length
            let cmax := (w.takeWhile (· ≠ '"')).length
            (descRange cmax).findSome? fun cc =>
              match w.drop cc with
              | '"' :: x =>
                let dmax := (x.takeWhile (· ≠ '>')).length
                (descRange dmax).findSome? fun d =>
                  match x.drop d with
                  | '>' :: y =>
                    match findSub closeSamplerLit y with
                    | some k =>
                      let n := httpLit.length + a + tnLit.length + b + method.length
                        + cc + 1 + d + 1 + k + closeSamplerLit.length
                      some (s.take n, s.drop n)
                    | none => none
                  | _ => none
              | _ => none
          else none
      else none
  else none

/-- `xml.replace(samplerPattern, f)` with the global flag: scan left to right,
replacing every match `m` by `f m`.  (The `if` again only records the length
decrease for termination.) -/
def samplerReplaceAllF (method : Str) (f : Str → Str) : Nat → Str → Str
  | 0, s => s
  | fuel + 1, s =>
    match s with
    | [] => []
    | c :: t =>
      match tryMatchSampler method (c :: t) with
      | some (m, rest) =>
        if rest.length < t.length + 1 then f m ++ samplerReplaceAllF method f fuel rest
        else c :: samplerReplaceAllF method f fuel t
      | none => c :: samplerReplaceAllF method f fuel t

/-- The same scan at its actual fuel (a successful match always consumes at
least one character, so `s.length + 1` steps always suffice). -/
def samplerReplaceAll (method : Str) (f : Str → Str) (s : Str) : Str :=
  samplerReplaceAllF method f (s.length + 1) s

/-- Atom of the modelled regex subset used by AI-recommended group patterns. -/
inductive RxAtom where
  | dot
  | lit (c : Char)
deriving DecidableEq

/-- One piece of a pattern: an atom, optionally starred. -/
structure RxPiece where
  atom : RxAtom
  star : Bool
deriving DecidableEq

/-- Characters that are regex metacharacters outside the modelled subset
(`.` and postfix `*` are supported; anything else is rejected as unmodelled). -/
def rxMeta (c : Char) : Bool :=
  c = '(' || c = ')' || c = '[' || c = ']' || c = '\\' || c = '+' || c = '?'
    || c = '^' || c = '$' || c = '|' || c = Char.ofNat 123 || c = Char.ofNat 125

/-- Parse a pattern of the modelled subset (literals, `.`, postfix `*`).
`none` means the pattern is outside the subset; every pattern produced by this
repository's fallback analysis (`".*"`, literal path fragments) is inside. -/
def rxParse : Str → Option (List RxPiece)
  | [] => some []
  | c :: '*' :: t' =>
    if rxMeta c then none
    else if c = '*' then none
    else (rxParse t').map (⟨if c = '.' then RxAtom.dot else RxAtom.lit c, true⟩ :: ·)
  | c :: t =>
    if rxMeta c then none
    else if c = '*' then none
    else (rxParse t).map (⟨if c = '.' then RxAtom.dot else RxAtom.lit c, false⟩ :: ·)

/-- Character match for one atom (JS `.` does not match line terminators). -/
def atomMatch : RxAtom → Char → Bool
  | .dot, c => !(c = '\n' || c = '\r')
  | .lit c', c => c = c'

/-- Does the piece list match some prefix of `s`? -/
def rxAcceptF : Nat → List RxPiece → Str → Bool
  | 0, _, _ => false
  | _ + 1, [], _ => true
  | fuel + 1, ⟨a, false⟩ :: ps, s =>
    match s with
    | [] => false
    | c :: t => atomMatch a c && rxAcceptF fuel ps t
  | fuel + 1, ⟨a, true⟩ :: ps, s =>
    rxAcceptF fuel ps s ||
      match s with
      | [] => false
      | c :: t => atomMatch a c && rxAcceptF fuel (⟨a, true⟩ :: ps) t

/-- Does the piece list match some prefix of `s`?  Every recursive step of the
matcher decreases `(ps.length, s.length)` lexicographically, so
`(ps.length + 1) * (s.length + 1)` steps of fuel always suffice. -/
def rxAccept (ps : List RxPiece) (s : Str) : Bool :=
  rxAcceptF ((ps.length + 1) * (s.length + 1)) ps s

/-- Unanchored search (`RegExp.prototype.test`): match at some position. -/
def rxSearch (ps : List RxPiece) : Str → Bool
  | [] => rxAccept ps []
  | c :: t => rxAccept ps (c :: t) || rxSearch ps t

end JsRegex

/-- Failure modes of the modelled JS primitives. -/
inductive JsErr where
  /-- `new URL(...)` threw. -/
  | urlError
  /-- a group pattern lies outside the modelled regex subset. -/
  | rxUnmodelled
  /-- an AI provider responded with a non-success status (`statusText` kept). -/
  | apiError (statusText : Str)
  /-- `response.json()` threw on a non-JSON body. -/
  | jsonError
  /-- a string method was invoked on a non-string value. -/
  | typeError
  /-- a property of `undefined` was accessed. -/
  | undefinedAccess
deriving DecidableEq

namespace JsRegex

/-- `new RegExp(pattern).test(s)` on the modelled subset. -/
def regexTest (pattern s : Str) : Except JsErr Bool :=
  match rxParse pattern with
  | some ps => .ok (rxSearch ps s)
  | none => .error .rxUnmodelled

end JsRegex

namespace JsUrl

open JsStr

/-- The components of a parsed URL that the code reads. -/
structure URLParts where
  /-- scheme with trailing colon, lowercased (`url.protocol`). -/
  protocol : Str
  /-- lowercased host (`url.hostname`). -/
  hostname : Str
  /-- `url.port`: empty when absent or equal to the scheme default. -/
  port : Str
  /-- `url.pathname`: `/` when the URL has no path. -/
  pathname : Str
  /-- `url.origin`. -/
  origin : Str
deriving DecidableEq

/-- Characters allowed in a scheme after the first letter. -/
def schemeChar (c : Char) : Bool := c.isAlphanum || c = '+' || c = '-' || c = '.'

/-- Characters ending the host component. -/
def hostStop (c : Char) : Bool := c = ':' || c = '/' || c = '?' || c = '#'

/-- Characters ending the path component. -/
def pathStop (c : Char) : Bool := c = '?' || c = '#'

/-- Default port of the special schemes the repository uses. -/
def defaultPort (scheme : Str) : Str :=
  if scheme = ("https").data then ("443").data
  else if scheme = ("http").data then ("80").data
  else []

/-- Model of `new URL(u)` on the grammar `scheme://host[:port][/path][?q][#f]`
(no credentials, no percent-decoding, no dot-segment normalisation — none of
which occur in the inputs this development evaluates).  `none` models the
constructor throwing. -/
def newURL (u : Str) : Option URLParts :=
  let scheme := u.takeWhile (· ≠ ':')
  match scheme with
  | [] => none
  | c0 :: srest =>
    if ¬ c0.isAlpha then none
    else if ¬ srest.all schemeChar then none
    else if ¬ (("://").data).isPrefixOf (u.drop scheme.length) then none
    else
      let schemeL := lowerStr scheme
      let rest := u.drop (scheme.length + 3)
      let host := rest.takeWhile (fun c => ¬ hostStop c)
      if host = [] then none
      else
        let hostL := lowerStr host
        let rest2 := rest.drop host.length
        let portRes : Option (Str × Str) :=
          match rest2 with
          | ':' :: pr =>
            let ptok := pr.takeWhile (fun c => ¬ (c = '/' || c = '?' || c = '#'))
            if ptok = [] then some ([], pr)
            else if ¬ ptok.all Char.isDigit then none
            else
              let pnum := ptok.foldl (fun a c => a * 10 + (c.toNat - 48)) 0
              if pnum > 65535 then none
              else
                let pstr := natStr pnum
                some ((if pstr = defaultPort schemeL then [] else pstr), pr.drop ptok.length)
          | _ => some ([], rest2)
        match portRes with
        | none => none
        | some (port, rest3) =>
          let path := rest3.takeWhile (fun c => ¬ pathStop c)
          let pathname := if path = [] then ("/").data else path
          some { protocol := schemeL ++ (":").data
                 hostname := hostL
                 port := port
                 pathname := pathname
                 origin := schemeL ++ ("://").data ++ hostL
                   ++ (if port = [] then [] else (":").data ++ port) }

end JsUrl

/-- JSON values. -/
inductive Json where
  | null
  | bool (b : Bool)
  | num (q : ℚ)
  | str (s : Str)
  | arr (elems : List Json)
  | obj (fields : List (Str × Json))

namespace Json

open JsStr

/-- JS truthiness of a JSON value (`false`, `0`, `""` and `null` are falsy). -/
def jsTruthy : Json → Bool
  | .null => false
  | .bool b => b
  | .num q => q ≠ 0
  | .str s => s ≠ []
  | .arr _ => true
  | .obj _ => true

/-- `j?.k` on an object. -/
def jGet (j : Json) (k : Str) : Option Json :=
  match j with
  | .obj fields => (fields.find? (fun f => f.1 = k)).map (·.2)
  | _ => none

/-- `j?.[i]` on an array. -/
def jIdx (j : Json) (i : Nat) : Option Json :=
  match j with
  | .arr elems => elems[i]?
  | _ => none

/-- Opening brace character. -/
def lbrace : Char := Char.ofNat 123

/-- Closing brace character. -/
def rbrace : Char := Char.ofNat 125

/-- JSON string-character escaping as produced by `JSON.stringify`. -/
def escJsonChar (c : Char) : Str :=
  if c = '"' then ['\\', '"']
  else if c = '\\' then ['\\', '\\']
  else if c = '\n' then ['\\', 'n']
  else if c = '\t' then ['\\', 't']
  else if c = '\r' then ['\\', 'r']
  else if c = Char.ofNat 8 then ['\\', 'b']
  else if c = Char.ofNat 12 then ['\\', 'f']
  else if c.toNat < 32 then
    ('\\' :: 'u' :: ("00").data) ++ [(("0123456789abcdef").data).getD (c.toNat / 16) '0',
      (("0123456789abcdef").data).getD (c.toNat % 16) '0']
  else [c]

/-- A JSON string literal as printed by `JSON.stringify`. -/
def jsonQuote (s : Str) : Str := '"' :: (s.map escJsonChar).flatten ++ ['"']

/-- Fractional digits of `q ∈ [0,1)`, up to `fuel` digits, no trailing zeros. -/
def fracDigits (fuel : Nat) (q : ℚ) : Str :=
  match fuel with
  | 0 => []
  | fuel + 1 =>
    if q = 0 then []
    else
      let q10 := q * 10
      let d := q10.floor
      let c := Char.ofNat (48 + d.toNat)
      c :: fracDigits fuel (q10 - d)

/-- Decimal rendering of a JSON number: exact for integers and for the short
decimal fractions that occur in this repository (JS shortest-roundtrip float
printing is not modelled beyond that). -/
def numRender (q : ℚ) : Str :=
  if q.den = 1 then intStr q.num
  else
    let sign : Str := if q < 0 then ("-").data else []
    let aq := |q|
    let ip := aq.floor.toNat
    sign ++ natStr ip ++ (".").data ++ fracDigits 17 (aq - aq.floor)

/-- `n` spaces. -/
def indentSp (n : Nat) : Str := List.replicate n ' '

mutual

/-- `JSON.stringify(v, null, 2)` at indentation level `ind`. -/
def stringify2 (ind : Nat) : Json → Str
  | .null => ("null").data
  | .bool true => ("true").data
  | .bool false => ("false").data
  | .num q => numRender q
  | .str s => jsonQuote s
  | .arr [] => ("[]").data
  | .arr (x :: xs) =>
    ('[' :: ("\n").data) ++ joinSep (",\n").data (stringifyItems (ind + 2) (x :: xs))
      ++ ("\n").data ++ indentSp ind ++ (("]").data)
  | .obj [] => [lbrace, rbrace]
  | .obj (f :: fs) =>
    (lbrace :: ("\n").data) ++ joinSep (",\n").data (stringifyFields (ind + 2) (f :: fs))
      ++ ("\n").data ++ indentSp ind ++ [rbrace]

/-- Rendered, indented array items. -/
def stringifyItems (ind : Nat) : List Json → List Str
  | [] => []
  | v :: vs => (indentSp ind ++ stringify2 ind v) :: stringifyItems ind vs

/-- Rendered, indented object fields. -/
def stringifyFields (ind : Nat) : List (Str × Json) → List Str
  | [] => []
  | (k, v) :: fs =>
    (indentSp ind ++ jsonQuote k ++ (": ").data ++ stringify2 ind v) :: stringifyFields ind fs

end

/-- `JSON.stringify(v, null, 2)`. -/
def jsonStringify2 (v : Json) : Str := stringify2 0 v

/-- JSON whitespace. -/
def jsonWs (c : Char) : Bool := c = ' ' || c = '\t' || c = '\n' || c = '\r'

/-- Hexadecimal digit test. -/
def hexDigit (c : Char) : Bool :=
  c.isDigit || ('a' ≤ c && c ≤ 'f') || ('A' ≤ c && c ≤ 'F')

/-- Body of a JSON string literal (after the opening quote): returns the
decoded content and the remainder after the closing quote. -/
def parseStringBody : Str → Option (Str × Str)
  | [] => none
  | '"' :: t => some ([], t)
  | '\\' :: e :: t =>
    if e = 'u' then
      match t with
      | h1 :: h2 :: h3 :: h4 :: t' =>
        if hexDigit h1 && hexDigit h2 && hexDigit h3 && hexDigit h4 then
          let v := [h1, h2, h3, h4].foldl (fun a c =>
            a * 16 + (if c.isDigit then c.toNat - 48 else c.toLower.toNat - 87)) 0
          (parseStringBody t').map (fun r => (Char.ofNat v :: r.1, r.2))
        else none
      | _ => none
    else
      let dec : Option Char :=
        if e = '"' then some '"'
        else if e = '\\' then some '\\'
        else if e = '/' then some '/'
        else if e = 'b' then some (Char.ofNat 8)
        else if e = 'f' then some (Char.ofNat 12)
        else if e = 'n' then some '\n'
        else if e = 'r' then some '\r'
        else if e = 't' then some '\t'
        else none
      match dec with
      | some c => (parseStringBody t).map (fun r => (c :: r.1, r.2))
      | none => none
  | c :: t =>
    if c.toNat < 32 then none
    else (parseStringBody t).map (fun r => (c :: r.1, r.2))

/-- Value of a digit run. -/
def digitsVal (ds : Str) : Nat := ds.foldl (fun a c => a * 10 + (c.toNat - 48)) 0

/-- A JSON number token starting at `s`; returns its rational value and the
remainder. -/
def parseNumberTok (s : Str) : Option (ℚ × Str) :=
  let (neg, s1) : Bool × Str := match s with | '-' :: t => (true, t) | _ => (false, s)
  let ip := s1.takeWhile Char.isDigit
  if ip = [] then none
  else if 1 < ip.length ∧ ip.headD '0' = '0' then none
  else
    let s2 := s1.drop ip.length
    let fracRes : Option (Str × Str) :=
      match s2 with
      | '.' :: t =>
        let fp := t.takeWhile Char.isDigit
        if fp = [] then none else some (fp, t.drop fp.length)
      | _ => some ([], s2)
    match fracRes with
    | none => none
    | some (fp, s3) =>
      let expRes : Option (Bool × Str × Str) :=
        match s3 with
        | c :: t =>
          if c = 'e' ∨ c = 'E' then
            let (eneg, t1) : Bool × Str :=
              match t with
              | '-' :: t' => (true, t')
              | '+' :: t' => (false, t')
              | _ => (false, t)
            let ed := t1.takeWhile Char.isDigit
            if ed = [] then none else some (eneg, ed, t1.drop ed.length)
          else some (false, [], s3)
        | [] => some (false, [], s3)
      match expRes with
      | none => none
      | some (eneg, ed, s4) =>
        let base : ℚ := (digitsVal ip : ℚ) + (digitsVal fp : ℚ) / ((10 : ℚ) ^ fp.length)
        let scaled : ℚ :=
          if ed = [] then base
          else if eneg then base / ((10 : ℚ) ^ digitsVal ed)
          else base * ((10 : ℚ) ^ digitsVal ed)
        some ((if neg then -scaled else scaled), s4)

/-- The three states of the fuel-driven JSON parser: a value, the elements of
an array (after `[`), or the members of an object (after the opening brace),
the latter two accumulating in order. -/
inductive ParseJob where
  | value (s : Str)
  | elems (s : Str) (acc : List Json)
  | members (s : Str) (acc : List (Str × Json))

/-- Fuel-driven JSON parser (the fuel is an upper bound on nesting and always
suffices at `s.length + 1`). -/
def parseF : Nat → ParseJob → Option (Json × Str)
  | 0, _ => none
  | fuel + 1, .value s =>
    let s := s.dropWhile jsonWs
    match s with
    | [] => none
    | c :: t =>
      if c = 'n' then
        if (("ull").data).isPrefixOf t then some (.null, t.drop 3) else none
      else if c = 't' then
        if (("rue").data).isPrefixOf t then some (.bool true, t.drop 3) else none
      else if c = 'f' then
        if (("alse").data).isPrefixOf t then some (.bool false, t.drop 4) else none
      else if c = '"' then
        (parseStringBody t).map (fun r => (.str r.1, r.2))
      else if c = '[' then
        let t1 := t.dropWhile jsonWs
        match t1 with
        | ']' :: t2 => some (.arr [], t2)
        | _ => parseF fuel (.elems t [])
      else if c = lbrace then
        let t1 := t.dropWhile jsonWs
        match t1 with
        | c2 :: t2 => if c2 = rbrace then some (.obj [], t2) else parseF fuel (.members t [])
        | [] => none
      else
        (parseNumberTok (c :: t)).map (fun r => (.num r.1, r.2))
  | fuel + 1, .elems s acc =>
    match parseF fuel (.value s) with
    | none => none
    | some (v, r) =>
      let r1 := r.dropWhile jsonWs
      match r1 with
      | ',' :: r2 => parseF fuel (.elems r2 (acc ++ [v]))
      | ']' :: r2 => some (.arr (acc ++ [v]), r2)
      | _ => none
  | fuel + 1, .members s acc =>
    let s1 := s.dropWhile jsonWs
    match s1 with
    | '"' :: t =>
      match parseStringBody t with
      | none => none
      | some (k, r) =>
        let r1 := r.dropWhile jsonWs
        match r1 with
        | ':' :: r2 =>
          match parseF fuel (.value r2) with
          | none => none
          | some (v, r3) =>
            let r4 := r3.dropWhile jsonWs
            match r4 with
            | ',' :: r5 => parseF fuel (.members r5 (acc ++ [(k, v)]))
            | c :: r5 => if c = rbrace then some (.obj (acc ++ [(k, v)]), r5) else none
            | [] => none
        | _ => none
    | _ => none

/-- JSON value parser. -/
def parseValue (fuel : Nat) (s : Str) : Option (Json × Str) := parseF fuel (.value s)

/-- `JSON.parse`: `none` models the exception. -/
def jsonParse (s : Str) : Option Json :=
  match parseValue (s.length + 1) s with
  | some (v, rest) => if rest.dropWhile jsonWs = [] then some v else none
  | none => none

end Json

/-- JS numbers as needed by the average-latency computation: a rational with
the IEEE special values. -/
inductive JsNum where
  | nan
  | inf
  | negInf
  | num (q : ℚ)
deriving DecidableEq

namespace JsNum

/-- JS division on the modelled values (`0/0` is `NaN`, `x/0` is signed
infinity; the special operands, which never occur here, propagate `NaN`). -/
def jsDiv : JsNum → JsNum → JsNum
  | .num a, .num b =>
    if b = 0 then (if a = 0 then .nan else if 0 < a then .inf else .negInf)
    else .num (a / b)
  | _, _ => .nan

/-- `JSON.stringify` of a number: non-finite values serialise as `null`. -/
def jsonOfJsNum : JsNum → Json
  | .num q => .num q
  | _ => .null

end JsNum

namespace Tpl

/-! Byte-exact template-literal segments extracted from the TypeScript
sources.  For each template, `name_k` is the literal text before the k-th
interpolation hole (holes are recorded in the accompanying comments). -/

-- ===== template harSampler =====
def harSampler_0 : Str := ("\n      <HTTPSamplerProxy guiclass=\"HttpTestSampleGui\" testclass=\"HTTPSamplerProxy\" testname=\"").data
-- HOLE 1: escapeXml(entry.request.method + + url.pathname)
def harSampler_1 : Str := ("\" enabled=\"true\">\n        <elementProp name=\"HTTPsampler.Arguments\" elementType=\"Arguments\" guiclass=\"HTTPArgumentsPanel\" testclass=\"Arguments\" enabled=\"true\">\n          <collectionProp name=\"Arguments.arguments\">\n            ").data
-- HOLE 2: entry.request.queryString.map(param => <nested template>).join()
def harSampler_2 : Str := ("\n          </collectionProp>\n        </elementProp>\n        <stringProp name=\"HTTPSampler.domain\">").data
-- HOLE 3: escapeXml(url.hostname)
def harSampler_3 : Str := ("</stringProp>\n        <stringProp name=\"HTTPSampler.port\">").data
-- HOLE 4: url.port || (url.protocol === https: ? 443 : 80)
def harSampler_4 : Str := ("</stringProp>\n        <stringProp name=\"HTTPSampler.protocol\">").data
-- HOLE 5: url.protocol.replace(:, )
def harSampler_5 : Str := ("</stringProp>\n        <stringProp name=\"HTTPSampler.contentEncoding\"></stringProp>\n        <stringProp name=\"HTTPSampler.path\">").data
-- HOLE 6: escapeXml(url.pathname)
def harSampler_6 : Str := ("</stringProp>\n        <stringProp name=\"HTTPSampler.method\">").data
-- HOLE 7: entry.request.method
def harSampler_7 : Str := ("</stringProp>\n        <boolProp name=\"HTTPSampler.follow_redirects\">true</boolProp>\n        <boolProp name=\"HTTPSampler.auto_redirects\">false</boolProp>\n        <boolProp name=\"HTTPSampler.use_keepalive\">true</boolProp>\n        <boolProp name=\"HTTPSampler.DO_MULTIPART_POST\">false</boolProp>\n        <stringProp name=\"HTTPSampler.embedded_url_re\"></stringProp>\n        <stringProp name=\"HTTPSampler.connect_timeout\"></stringProp>\n        <stringProp name=\"HTTPSampler.response_timeout\"></stringProp>\n        ").data
-- HOLE 8: hasBody ? <nested template> : 
def harSampler_8 : Str := ("\n      </HTTPSamplerProxy>\n      \n      ").data
-- HOLE 9: headers.length > 0 ? <nested template> : 
def harSampler_9 : Str := ("\n      \n      <!-- Response Code Assertions -->\n      <ResponseAssertion guiclass=\"AssertionGui\" testclass=\"ResponseAssertion\" testname=\"Response Code Assertion\" enabled=\"true\">\n        <collectionProp name=\"Asserion.test_strings\">\n          <stringProp name=\"49586\">200</stringProp>\n          <stringProp name=\"49587\">201</stringProp>\n          <stringProp name=\"49588\">202</stringProp>\n        </collectionProp>\n        <stringProp name=\"Assertion.custom_message\"></stringProp>\n        <stringProp name=\"Assertion.test_field\">Assertion.response_code</stringProp>\n        <boolProp name=\"Assertion.assume_success\">false</boolProp>\n        <intProp name=\"Assertion.test_type\">8</intProp>\n      </ResponseAssertion>\n      \n      <!-- Response Time Assertion -->\n      <DurationAssertion guiclass=\"DurationAssertionGui\" testclass=\"DurationAssertion\" testname=\"Duration Assertion\" enabled=\"true\">\n        <stringProp name=\"DurationAssertion.duration\">5000</stringProp>\n      </DurationAssertion>\n      \n      <!-- JSON Extractor for correlation -->\n      ").data
-- HOLE 10: analysis.correlationFields && analysis.correlationFields.length > 0 ? <nested template> : 
def harSampler_10 : Str := ("\n    ").data

-- ===== template harTG =====
def harTG_0 : Str := ("\n    <ThreadGroup guiclass=\"ThreadGroupGui\" testclass=\"ThreadGroup\" testname=\"").data
-- HOLE 1: escapeXml(groupName)
def harTG_1 : Str := (" Thread Group\" enabled=\"true\">\n      <stringProp name=\"ThreadGroup.on_sample_error\">continue</stringProp>\n      <elementProp name=\"ThreadGroup.main_controller\" elementType=\"LoopController\" guiclass=\"LoopControlPanel\" testclass=\"LoopController\" testname=\"Loop Controller\" enabled=\"true\">\n        <boolProp name=\"LoopController.continue_forever\">false</boolProp>\n        <stringProp name=\"LoopController.loops\">").data
-- HOLE 2: loadConfig.loopCount
def harTG_2 : Str := ("</stringProp>\n      </elementProp>\n      <stringProp name=\"ThreadGroup.num_threads\">").data
-- HOLE 3: loadConfig.threadCount
def harTG_3 : Str := ("</stringProp>\n      <stringProp name=\"ThreadGroup.ramp_time\">").data
-- HOLE 4: loadConfig.rampUpTime
def harTG_4 : Str := ("</stringProp>\n      <boolProp name=\"ThreadGroup.scheduler\">true</boolProp>\n      <stringProp name=\"ThreadGroup.duration\">").data
-- HOLE 5: loadConfig.duration
def harTG_5 : Str := ("</stringProp>\n      <stringProp name=\"ThreadGroup.delay\"></stringProp>\n      <boolProp name=\"ThreadGroup.same_user_on_next_iteration\">true</boolProp>\n      \n      <!-- Cookie Manager -->\n      <CookieManager guiclass=\"CookiePanel\" testclass=\"CookieManager\" testname=\"HTTP Cookie Manager\" enabled=\"true\">\n        <collectionProp name=\"CookieManager.cookies\"/>\n        <boolProp name=\"CookieManager.clearEachIteration\">false</boolProp>\n        <boolProp name=\"CookieManager.controlledByThreadGroup\">false</boolProp>\n      </CookieManager>\n      \n      <!-- HTTP Cache Manager -->\n      <CacheManager guiclass=\"CacheManagerGui\" testclass=\"CacheManager\" testname=\"HTTP Cache Manager\" enabled=\"true\">\n        <boolProp name=\"clearEachIteration\">true</boolProp>\n        <boolProp name=\"useExpires\">true</boolProp>\n        <boolProp name=\"CacheManager.controlledByThread\">false</boolProp>\n      </CacheManager>\n      \n      ").data
-- HOLE 6: groupEntries.map((entry, index) => generateHTTPSampler(entry, index)).join(\n)
def harTG_6 : Str := ("\n    </ThreadGroup>\n  ").data

-- ===== template harDoc =====
def harDoc_0 : Str := ("<?xml version=\"1.0\" encoding=\"UTF-8\"?>\n<jmeterTestPlan version=\"1.2\" properties=\"5.0\" jmeter=\"5.4.1\">\n  <hashTree>\n    <TestPlan guiclass=\"TestPlanGui\" testclass=\"TestPlan\" testname=\"").data
-- HOLE 1: escapeXml(testPlanName)
def harDoc_1 : Str := ("\" enabled=\"true\">\n      <stringProp name=\"TestPlan.comments\">Generated from HAR file using AI analysis on ").data
-- HOLE 2: new Date().toISOString()
def harDoc_2 : Str := ("</stringProp>\n      <boolProp name=\"TestPlan.functional_mode\">false</boolProp>\n      <boolProp name=\"TestPlan.tearDown_on_shutdown\">true</boolProp>\n      <boolProp name=\"TestPlan.serialize_threadgroups\">false</boolProp>\n      <elementProp name=\"TestPlan.arguments\" elementType=\"Arguments\" guiclass=\"ArgumentsPanel\" testclass=\"Arguments\" testname=\"User Defined Variables\" enabled=\"true\">\n        <collectionProp name=\"Arguments.arguments\">\n          <elementProp name=\"BASE_URL\" elementType=\"Argument\">\n            <stringProp name=\"Argument.name\">BASE_URL</stringProp>\n            <stringProp name=\"Argument.value\">").data
-- HOLE 3: entries.length > 0 ? new URL(entries[0].request.url).origin : https://example.com
def harDoc_3 : Str := ("</stringProp>\n            <stringProp name=\"Argument.metadata\">=</stringProp>\n          </elementProp>\n        </collectionProp>\n      </elementProp>\n      <stringProp name=\"TestPlan.user_define_classpath\"></stringProp>\n    </TestPlan>\n    <hashTree>\n      ").data
-- HOLE 4: threadGroups
def harDoc_4a : Str := ("\n      \n      <!-- Listeners -->\n      <ResultCollector guiclass=\"ViewResultsFullVisualizer\" testclass=\"ResultCollector\" testname=\"View Results Tree\" enabled=\"true\">\n        <boolProp name=\"ResultCollector.error_logging\">false</boolProp>\n        <objProp>\n          <name>saveConfig</name>\n          <value class=\"SampleSaveConfiguration\">\n            <time>true</time>\n            <latency>true</latency>\n            <timestamp>true</timestamp>\n            <success>true</success>\n            <label>true</label>\n            <code>true</code>\n            <message>true</message>\n            <threadName>true</threadName>\n            <dataType>true</dataType>\n            <encoding>false</encoding>\n            <assertions>true</assertions>\n            <subresults>true</subresults>\n            <responseData>false</responseData>\n            <samplerData>false</samplerData>\n            <xml>false</xml>\n            <fieldNames>true</fieldNames>\n            <responseHeaders>false</responseHeaders>\n            <requestHeaders>false</requestHeaders>\n            <responseDataOnError>false</responseDataOnError>\n            <saveAssertionResultsFailureMessage>true</saveAssertionResultsFailureMessage>\n            <assertionsResultsToSave>0</assertionsResultsToSave>\n            <bytes>true</bytes>\n            <sentBytes>true</sentBytes>\n            <url>true</url>\n            <threadCounts>true</threadCounts>\n            <idleTime>true</idleTime>\n            <connectTime>true</connectTime>\n          </value>\n        </objProp>\n        <stringProp name=\"filename\"></stringProp>\n      </ResultCollector>").data

def harDoc_4b : Str := ("\n      \n      <ResultCollector guiclass=\"SummaryReport\" testclass=\"ResultCollector\" testname=\"Summary Report\" enabled=\"true\">\n        <boolProp name=\"ResultCollector.error_logging\">false</boolProp>\n        <objProp>\n          <name>saveConfig</name>\n          <value class=\"SampleSaveConfiguration\">\n            <time>true</time>\n            <latency>true</latency>\n            <timestamp>true</timestamp>\n            <success>true</success>\n            <label>true</label>\n            <code>true</code>\n            <message>true</message>\n            <threadName>true</threadName>\n            <dataType>true</dataType>\n            <encoding>false</encoding>\n            <assertions>true</assertions>\n            <subresults>true</subresults>\n            <responseData>false</responseData>\n            <samplerData>false</samplerData>\n            <xml>false</xml>\n            <fieldNames>true</fieldNames>\n            <responseHeaders>false</responseHeaders>\n            <requestHeaders>false</requestHeaders>\n            <responseDataOnError>false</responseDataOnError>\n            <saveAssertionResultsFailureMessage>true</saveAssertionResultsMessage>\n            <assertionsResultsToSave>0</assertionsResultsToSave>\n            <bytes>true</bytes>\n            <sentBytes>true</sentBytes>\n            <url>true</url>\n            <threadCounts>true</threadCounts>\n            <idleTime>true</idleTime>\n            <connectTime>true</connectTime>\n          </value>\n        </objProp>\n        <stringProp name=\"filename\"></stringProp>\n      </ResultCollector>\n    </hashTree>\n  </hashTree>\n</jmeterTestPlan>").data

def harDoc_4 : Str := harDoc_4a ++ harDoc_4b

-- ===== template harQP =====
def harQP_0 : Str := ("\n            <elementProp name=\"").data
-- HOLE 1: escapeXml(param.name)
def harQP_1 : Str := ("\" elementType=\"HTTPArgument\">\n              <boolProp name=\"HTTPArgument.always_encode\">false</boolProp>\n              <stringProp name=\"Argument.value\">").data
-- HOLE 2: escapeXml(param.value)
def harQP_2 : Str := ("</stringProp>\n              <stringProp name=\"Argument.metadata\">=</stringProp>\n              <boolProp name=\"HTTPArgument.use_equals\">true</boolProp>\n              <stringProp name=\"Argument.name\">").data
-- HOLE 3: escapeXml(param.name)
def harQP_3 : Str := ("</stringProp>\n            </elementProp>\n            ").data

-- ===== template harHdr =====
def harHdr_0 : Str := ("\n          <elementProp name=\"\" elementType=\"Header\">\n            <stringProp name=\"Header.name\">").data
-- HOLE 1: escapeXml(header.name)
def harHdr_1 : Str := ("</stringProp>\n            <stringProp name=\"Header.value\">").data
-- HOLE 2: escapeXml(header.value)
def harHdr_2 : Str := ("</stringProp>\n          </elementProp>\n          ").data

-- ===== template swSampler =====
def swSampler_0 : Str := ("\n      <HTTPSamplerProxy guiclass=\"HttpTestSampleGui\" testclass=\"HTTPSamplerProxy\" testname=\"").data
-- HOLE 1: escapeXml(method + + path)
def swSampler_1 : Str := ("\" enabled=\"true\">\n        <elementProp name=\"HTTPsampler.Arguments\" elementType=\"Arguments\" guiclass=\"HTTPArgumentsPanel\" testclass=\"Arguments\" enabled=\"true\">\n          <collectionProp name=\"Arguments.arguments\"/>\n        </elementProp>\n        <stringProp name=\"HTTPSampler.domain\">$\x7bHOST\x7d</stringProp>\n        <stringProp name=\"HTTPSampler.port\">$\x7bPORT\x7d</stringProp>\n        <stringProp name=\"HTTPSampler.protocol\">$\x7bPROTOCOL\x7d</stringProp>\n        <stringProp name=\"HTTPSampler.contentEncoding\"></stringProp>\n        <stringProp name=\"HTTPSampler.path\">").data
-- HOLE 2: escapeXml(path)
def swSampler_2 : Str := ("</stringProp>\n        <stringProp name=\"HTTPSampler.method\">").data
-- HOLE 3: method
def swSampler_3 : Str := ("</stringProp>\n        <boolProp name=\"HTTPSampler.follow_redirects\">true</boolProp>\n        <boolProp name=\"HTTPSampler.auto_redirects\">false</boolProp>\n        <boolProp name=\"HTTPSampler.use_keepalive\">true</boolProp>\n        <boolProp name=\"HTTPSampler.DO_MULTIPART_POST\">false</boolProp>\n        ").data
-- HOLE 4: hasBody ? <nested template> : 
def swSampler_4 : Str := ("\n      </HTTPSamplerProxy>\n      <hashTree>\n        ").data
-- HOLE 5: loadConfig.addAssertions ? <nested template> : 
def swSampler_5 : Str := ("\n        ").data
-- HOLE 6: loadConfig.addCorrelation && aiAnalysis.correlations?.length > 0 ? <nested template> : 
def swSampler_6 : Str := ("\n      </hashTree>").data

-- ===== template swTG =====
def swTG_0 : Str := ("\n      <ThreadGroup guiclass=\"ThreadGroupGui\" testclass=\"ThreadGroup\" testname=\"").data
-- HOLE 1: escapeXml(groupName)
def swTG_1 : Str := (" Tests\" enabled=\"true\">\n        <stringProp name=\"ThreadGroup.on_sample_error\">continue</stringProp>\n        <elementProp name=\"ThreadGroup.main_controller\" elementType=\"LoopController\" guiclass=\"LoopControlPanel\" testclass=\"LoopController\" testname=\"Loop Controller\" enabled=\"true\">\n          <boolProp name=\"LoopController.continue_forever\">false</boolProp>\n          <stringProp name=\"LoopController.loops\">").data
-- HOLE 2: loadConfig.loopCount
def swTG_2 : Str := ("</stringProp>\n        </elementProp>\n        <stringProp name=\"ThreadGroup.num_threads\">").data
-- HOLE 3: loadConfig.threadCount
def swTG_3 : Str := ("</stringProp>\n        <stringProp name=\"ThreadGroup.ramp_time\">").data
-- HOLE 4: loadConfig.rampUpTime
def swTG_4 : Str := ("</stringProp>\n        <boolProp name=\"ThreadGroup.scheduler\">true</boolProp>\n        <stringProp name=\"ThreadGroup.duration\">").data
-- HOLE 5: loadConfig.duration
def swTG_5 : Str := ("</stringProp>\n        <stringProp name=\"ThreadGroup.delay\"></stringProp>\n        <boolProp name=\"ThreadGroup.same_user_on_next_iteration\">true</boolProp>\n      </ThreadGroup>\n      <hashTree>\n        ").data
-- HOLE 6: loadConfig.addCsvConfig ? <nested template> : 
def swTG_6 : Str := ("\n        <HeaderManager guiclass=\"HeaderPanel\" testclass=\"HeaderManager\" testname=\"HTTP Header Manager\" enabled=\"true\">\n          <collectionProp name=\"HeaderManager.headers\">\n            <elementProp name=\"\" elementType=\"Header\">\n              <stringProp name=\"Header.name\">Content-Type</stringProp>\n              <stringProp name=\"Header.value\">application/json</stringProp>\n            </elementProp>\n            <elementProp name=\"\" elementType=\"Header\">\n              <stringProp name=\"Header.name\">Accept</stringProp>\n              <stringProp name=\"Header.value\">application/json</stringProp>\n            </elementProp>\n          </collectionProp>\n        </HeaderManager>\n        <hashTree/>\n        ").data
-- HOLE 7: samplers
def swTG_7 : Str := ("\n      </hashTree>").data

-- ===== template swDoc =====
def swDoc_0 : Str := ("<?xml version=\"1.0\" encoding=\"UTF-8\"?>\n<jmeterTestPlan version=\"1.2\" properties=\"5.0\" jmeter=\"5.4.1\">\n  <hashTree>\n    <TestPlan guiclass=\"TestPlanGui\" testclass=\"TestPlan\" testname=\"").data
-- HOLE 1: escapeXml(loadConfig.testPlanName)
def swDoc_1 : Str := ("\" enabled=\"true\">\n      <stringProp name=\"TestPlan.comments\">AI-Generated JMeter Test Plan - Created on ").data
-- HOLE 2: new Date().toISOString()
def swDoc_2 : Str := ("</stringProp>\n      <boolProp name=\"TestPlan.functional_mode\">false</boolProp>\n      <boolProp name=\"TestPlan.tearDown_on_shutdown\">true</boolProp>\n      <boolProp name=\"TestPlan.serialize_threadgroups\">false</boolProp>\n      <elementProp name=\"TestPlan.arguments\" elementType=\"Arguments\" guiclass=\"ArgumentsPanel\" testclass=\"Arguments\" testname=\"User Defined Variables\" enabled=\"true\">\n        <collectionProp name=\"Arguments.arguments\">\n          <elementProp name=\"PROTOCOL\" elementType=\"Argument\">\n            <stringProp name=\"Argument.name\">PROTOCOL</stringProp>\n            <stringProp name=\"Argument.value\">").data
-- HOLE 3: urlParts.protocol
def swDoc_3 : Str := ("</stringProp>\n            <stringProp name=\"Argument.metadata\">=</stringProp>\n          </elementProp>\n          <elementProp name=\"HOST\" elementType=\"Argument\">\n            <stringProp name=\"Argument.name\">HOST</stringProp>\n            <stringProp name=\"Argument.value\">").data
-- HOLE 4: urlParts.host
def swDoc_4 : Str := ("</stringProp>\n            <stringProp name=\"Argument.metadata\">=</stringProp>\n          </elementProp>\n          <elementProp name=\"PORT\" elementType=\"Argument\">\n            <stringProp name=\"Argument.name\">PORT</stringProp>\n            <stringProp name=\"Argument.value\">").data
-- HOLE 5: urlParts.port
def swDoc_5 : Str := ("</stringProp>\n            <stringProp name=\"Argument.metadata\">=</stringProp>\n          </elementProp>\n        </collectionProp>\n      </elementProp>\n      <stringProp name=\"TestPlan.user_define_classpath\"></stringProp>\n    </TestPlan>\n    <hashTree>\n      ").data
-- HOLE 6: threadGroups
def swDoc_6 : Str := ("\n      \n      <!-- Listeners -->\n      <ResultCollector guiclass=\"ViewResultsFullVisualizer\" testclass=\"ResultCollector\" testname=\"View Results Tree\" enabled=\"true\">\n        <boolProp name=\"ResultCollector.error_logging\">false</boolProp>\n        <objProp>\n          <name>saveConfig</name>\n          <value class=\"SampleSaveConfiguration\">\n            <time>true</time>\n            <latency>true</latency>\n            <timestamp>true</timestamp>\n            <success>true</success>\n            <label>true</label>\n            <code>true</code>\n            <message>true</message>\n            <threadName>true</threadName>\n            <dataType>true</dataType>\n            <encoding>false</encoding>\n            <assertions>true</assertions>\n            <subresults>true</subresults>\n            <responseData>false</responseData>\n            <samplerData>false</samplerData>\n            <xml>false</xml>\n            <fieldNames>true</fieldNames>\n            <responseHeaders>false</responseHeaders>\n            <requestHeaders>false</requestHeaders>\n            <responseDataOnError>false</responseDataOnError>\n            <saveAssertionResultsFailureMessage>true</saveAssertionResultsFailureMessage>\n            <assertionsResultsToSave>0</assertionsResultsToSave>\n            <bytes>true</bytes>\n            <sentBytes>true</sentBytes>\n            <url>true</url>\n            <threadCounts>true</threadCounts>\n            <idleTime>true</idleTime>\n            <connectTime>true</connectTime>\n          </value>\n        </objProp>\n        <stringProp name=\"filename\"></stringProp>\n      </ResultCollector>\n      <hashTree/>\n    </hashTree>\n  </hashTree>\n</jmeterTestPlan>").data

-- ===== template insSummary =====
def insSummary_0a : Str := ("\n      <!-- Summary Report -->\n      <ResultCollector guiclass=\"").data

def insSummary_0b : Str := ("\" testclass=\"ResultCollector\" testname=\"Summary Report\" enabled=\"true\">\n        <boolProp name=\"ResultCollector.error_logging\">false</boolProp>\n        <objProp>\n          <name>saveConfig</name>\n          <value class=\"SampleSaveConfiguration\">\n            <time>true</time>\n            <latency>true</latency>\n            <timestamp>true</timestamp>\n            <success>true</success>\n            <label>true</label>\n            <code>true</code>\n            <message>true</message>\n            <threadName>true</threadName>\n            <dataType>true</dataType>\n            <encoding>false</encoding>\n            <assertions>true</assertions>\n            <subresults>true</subresults>\n            <responseData>false</responseData>\n            <samplerData>false</samplerData>\n            <xml>false</xml>\n            <fieldNames>true</fieldNames>\n            <responseHeaders>false</responseHeaders>\n            <requestHeaders>false</requestHeaders>\n            <responseDataOnError>false</responseDataOnError>\n            <saveAssertionResultsFailureMessage>true</saveAssertionResultsFailureMessage>\n            <assertionsResultsToSave>0</assertionsResultsToSave>\n            <bytes>true</bytes>\n            <sentBytes>true</sentBytes>\n            <url>true</url>\n            <threadCounts>true</threadCounts>\n            <idleTime>true</idleTime>\n            <connectTime>true</connectTime>\n          </value>\n        </objProp>\n        <stringProp name=\"filename\"></stringProp>\n      </ResultCollector>\n      <hashTree/>").data

def insSummary_0 : Str := insSummary_0a ++ (("SummaryReport").data) ++ insSummary_0b

-- ===== template insVrt =====
def insVrt_0a : Str := ("\n      <!-- View Results Tree -->\n      <ResultCollector guiclass=\"").data

def insVrt_0b : Str := ("\" testclass=\"ResultCollector\" testname=\"View Results Tree\" enabled=\"true\">\n        <boolProp name=\"ResultCollector.error_logging\">false</boolProp>\n        <objProp>\n          <name>saveConfig</name>\n          <value class=\"SampleSaveConfiguration\">\n            <time>true</time>\n            <latency>true</latency>\n            <timestamp>true</timestamp>\n            <success>true</success>\n            <label>true</label>\n            <code>true</code>\n            <message>true</message>\n            <threadName>true</threadName>\n            <dataType>true</dataType>\n            <encoding>false</encoding>\n            <assertions>true</assertions>\n            <subresults>true</subresults>\n            <responseData>true</responseData>\n            <samplerData>true</samplerData>\n            <xml>false</xml>\n            <fieldNames>true</fieldNames>\n            <responseHeaders>true</responseHeaders>\n            <requestHeaders>true</requestHeaders>\n            <responseDataOnError>false</responseDataOnError>\n            <saveAssertionResultsFailureMessage>true</saveAssertionResultsFailureMessage>\n            <assertionsResultsToSave>0</assertionsResultsToSave>\n            <bytes>true</bytes>\n            <sentBytes>true</sentBytes>\n            <url>true</url>\n            <threadCounts>true</threadCounts>\n            <idleTime>true</idleTime>\n            <connectTime>true</connectTime>\n          </value>\n        </objProp>\n        <stringProp name=\"filename\"></stringProp>\n      </ResultCollector>\n      <hashTree/>").data

def insVrt_0 : Str := insVrt_0a ++ (("ViewResultsFullVisualizer").data) ++ insVrt_0b

-- ===== template insCsv =====
/-- Head of the CSV block, up to the `CSVDataSet` marker. -/
def insCsv_0a : Str := ("\n        <").data

/-- Tail of the CSV block, after the first `CSVDataSet` marker. -/
def insCsv_0b : Str := (" guiclass=\"TestBeanGUI\" testclass=\"CSVDataSet\" testname=\"CSV Data Set Config\" enabled=\"true\">\n          <stringProp name=\"delimiter\">,</stringProp>\n          <stringProp name=\"fileEncoding\">UTF-8</stringProp>\n          <stringProp name=\"filename\">test_data.csv</stringProp>\n          <boolProp name=\"ignoreFirstLine\">true</boolProp>\n          <boolProp name=\"quotedData\">false</boolProp>\n          <boolProp name=\"recycle\">true</boolProp>\n          <stringProp name=\"shareMode\">shareMode.all</stringProp>\n          <boolProp name=\"stopThread\">false</boolProp>\n          <stringProp name=\"variableNames\">userId,userEmail,authToken,testData</stringProp>\n        </CSVDataSet>\n        <hashTree/>").data

def insCsv_0 : Str := insCsv_0a ++ (("CSVDataSet").data) ++ insCsv_0b

-- ===== template insCookie =====
def insCookie_0 : Str := ("\n        <CookieManager guiclass=\"CookiePanel\" testclass=\"CookieManager\" testname=\"HTTP Cookie Manager\" enabled=\"true\">\n          <collectionProp name=\"CookieManager.cookies\"/>\n          <boolProp name=\"CookieManager.clearEachIteration\">false</boolProp>\n          <boolProp name=\"CookieManager.controlledByThreadGroup\">false</boolProp>\n        </CookieManager>\n        <hashTree/>").data

-- ===== template insCache =====
def insCache_0 : Str := ("\n        <CacheManager guiclass=\"CacheManagerGui\" testclass=\"CacheManager\" testname=\"HTTP Cache Manager\" enabled=\"true\">\n          <boolProp name=\"clearEachIteration\">true</boolProp>\n          <boolProp name=\"useExpires\">true</boolProp>\n          <boolProp name=\"CacheManager.controlledByThread\">false</boolProp>\n        </CacheManager>\n        <hashTree/>").data

-- ===== template insBody =====
def insBody_0 : Str := ("\n        <boolProp name=\"HTTPSampler.postBodyRaw\">true</boolProp>\n        <elementProp name=\"HTTPsampler.postBodyRaw\" elementType=\"Arguments\">\n          <collectionProp name=\"Arguments.arguments\">\n            <elementProp name=\"\" elementType=\"HTTPArgument\">\n              <boolProp name=\"HTTPArgument.always_encode\">false</boolProp>\n              <stringProp name=\"Argument.value\">").data
-- HOLE 1: bodyData.replace(ESCRX, (c) => switch (c) case <: return &lt;; case >: return &gt;; case &: return &amp;; case "": return &apos;; case ": return &quot;; default: return c; )
def insBody_1 : Str := ("</stringProp>\n              <stringProp name=\"Argument.metadata\">=</stringProp>\n            </elementProp>\n          </collectionProp>\n        </elementProp>").data

-- ===== template aiCsv =====
def aiCsv_0 : Str := ("\n      <CSVDataSet guiclass=\"TestBeanGUI\" testclass=\"CSVDataSet\" testname=\"").data
-- HOLE 1: param.parameter
def aiCsv_1 : Str := (" CSV Config\" enabled=\"true\">\n        <stringProp name=\"delimiter\">,</stringProp>\n        <stringProp name=\"fileEncoding\">UTF-8</stringProp>\n        <stringProp name=\"filename\">").data
-- HOLE 2: param.parameter
def aiCsv_2 : Str := ("_data.csv</stringProp>\n        <boolProp name=\"ignoreFirstLine\">true</boolProp>\n        <boolProp name=\"quotedData\">false</boolProp>\n        <boolProp name=\"recycle\">true</boolProp>\n        <stringProp name=\"shareMode\">shareMode.all</stringProp>\n        <boolProp name=\"stopThread\">false</boolProp>\n        <stringProp name=\"variableNames\">").data
-- HOLE 3: param.parameter
def aiCsv_3 : Str := ("</stringProp>\n      </CSVDataSet>\n      <hashTree/>").data

-- ===== template aiCorr =====
def aiCorr_0 : Str := ("\n      <JSONPostProcessor guiclass=\"JSONPostProcessorGui\" testclass=\"JSONPostProcessor\" testname=\"Extract ").data
-- HOLE 1: field.field
def aiCorr_1 : Str := ("\" enabled=\"true\">\n        <stringProp name=\"JSONPostProcessor.referenceNames\">").data
-- HOLE 2: field.field
def aiCorr_2 : Str := ("</stringProp>\n        <stringProp name=\"JSONPostProcessor.jsonPathExprs\">").data
-- HOLE 3: field.jsonPath
def aiCorr_3 : Str := ("</stringProp>\n        <stringProp name=\"JSONPostProcessor.match_numbers\">1</stringProp>\n        <stringProp name=\"JSONPostProcessor.defaultValues\">default_").data
-- HOLE 4: field.field
def aiCorr_4 : Str := ("</stringProp>\n      </JSONPostProcessor>\n      <hashTree/>").data

-- ===== template aiDur =====
def aiDur_0 : Str := ("\n          <DurationAssertion guiclass=\"DurationAssertionGui\" testclass=\"DurationAssertion\" testname=\"Response Time Assertion\" enabled=\"true\">\n            <stringProp name=\"DurationAssertion.duration\">").data
-- HOLE 1: assertion.threshold
def aiDur_1 : Str := ("</stringProp>\n          </DurationAssertion>\n          <hashTree/>").data

-- ===== template aiResp =====
def aiResp_0 : Str := ("\n          <ResponseAssertion guiclass=\"AssertionGui\" testclass=\"ResponseAssertion\" testname=\"Status Code Assertion\" enabled=\"true\">\n            <collectionProp name=\"Asserion.test_strings\">\n              <stringProp name=\"49586\">200</stringProp>\n              <stringProp name=\"49587\">201</stringProp>\n              <stringProp name=\"49588\">202</stringProp>\n              <stringProp name=\"49589\">204</stringProp>\n            </collectionProp>\n            <stringProp name=\"Assertion.test_field\">Assertion.response_code</stringProp>\n            <boolProp name=\"Assertion.assume_success\">false</boolProp>\n            <intProp name=\"Assertion.test_type\">33</intProp>\n          </ResponseAssertion>\n          <hashTree/>").data

-- ===== template aiSampler =====
def aiSampler_0 : Str := ("\n          <HTTPSamplerProxy guiclass=\"HttpTestSampleGui\" testclass=\"HTTPSamplerProxy\" testname=\"").data
-- HOLE 1: method.toUpperCase()
def aiSampler_1 : Str := (" ").data
-- HOLE 2: path
def aiSampler_2 : Str := ("\" enabled=\"true\">\n            <elementProp name=\"HTTPsampler.Arguments\" elementType=\"Arguments\" guiclass=\"HTTPArgumentsPanel\" testclass=\"Arguments\" enabled=\"true\">\n              <collectionProp name=\"Arguments.arguments\"/>\n            </elementProp>\n            <stringProp name=\"HTTPSampler.domain\">$\x7bHOST\x7d</stringProp>\n            <stringProp name=\"HTTPSampler.port\">$\x7bPORT\x7d</stringProp>\n            <stringProp name=\"HTTPSampler.protocol\">$\x7bPROTOCOL\x7d</stringProp>\n            <stringProp name=\"HTTPSampler.contentEncoding\"></stringProp>\n            <stringProp name=\"HTTPSampler.path\">").data
-- HOLE 3: path
def aiSampler_3 : Str := ("</stringProp>\n            <stringProp name=\"HTTPSampler.method\">").data
-- HOLE 4: method.toUpperCase()
def aiSampler_4 : Str := ("</stringProp>\n            <boolProp name=\"HTTPSampler.follow_redirects\">true</boolProp>\n            <boolProp name=\"HTTPSampler.auto_redirects\">false</boolProp>\n            <boolProp name=\"HTTPSampler.use_keepalive\">true</boolProp>\n            <boolProp name=\"HTTPSampler.DO_MULTIPART_POST\">false</boolProp>\n            ").data
-- HOLE 5: hasBody ? <nested template> : 
def aiSampler_5 : Str := ("\n          </HTTPSamplerProxy>\n          <hashTree>\n            ").data
-- HOLE 6: generatePerformanceAssertions()
def aiSampler_6 : Str := ("\n            ").data
-- HOLE 7: generateCorrelationExtractors()
def aiSampler_7 : Str := ("\n          </hashTree>").data

-- ===== template aiTGdefault =====
def aiTGdefault_0 : Str := ("\n        <ThreadGroup guiclass=\"ThreadGroupGui\" testclass=\"ThreadGroup\" testname=\"Default Tests\" enabled=\"true\">\n          <stringProp name=\"ThreadGroup.on_sample_error\">continue</stringProp>\n          <elementProp name=\"ThreadGroup.main_controller\" elementType=\"LoopController\" guiclass=\"LoopControlPanel\" testclass=\"LoopController\" testname=\"Loop Controller\" enabled=\"true\">\n            <boolProp name=\"LoopController.continue_forever\">false</boolProp>\n            <stringProp name=\"LoopController.loops\">").data
-- HOLE 1: loadConfig.loopCount || 1
def aiTGdefault_1 : Str := ("</stringProp>\n          </elementProp>\n          <stringProp name=\"ThreadGroup.num_threads\">").data
-- HOLE 2: loadConfig.threadCount || 10
def aiTGdefault_2 : Str := ("</stringProp>\n          <stringProp name=\"ThreadGroup.ramp_time\">").data
-- HOLE 3: loadConfig.rampUpTime || 60
def aiTGdefault_3 : Str := ("</stringProp>\n          <boolProp name=\"ThreadGroup.scheduler\">true</boolProp>\n          <stringProp name=\"ThreadGroup.duration\">").data
-- HOLE 4: loadConfig.duration || 300
def aiTGdefault_4 : Str := ("</stringProp>\n          <stringProp name=\"ThreadGroup.delay\">0</stringProp>\n          <boolProp name=\"ThreadGroup.same_user_on_next_iteration\">true</boolProp>\n        </ThreadGroup>\n        <hashTree>\n          ").data
-- HOLE 5: generateCsvConfigs()
def aiTGdefault_5 : Str := ("\n          ").data
-- HOLE 6: generateHttpSamplers(allEndpoints)
def aiTGdefault_6 : Str := ("\n        </hashTree>").data

-- ===== template aiTG =====
def aiTG_0 : Str := ("\n      <ThreadGroup guiclass=\"ThreadGroupGui\" testclass=\"ThreadGroup\" testname=\"").data
-- HOLE 1: group.name
def aiTG_1 : Str := ("\" enabled=\"true\">\n        <stringProp name=\"ThreadGroup.on_sample_error\">continue</stringProp>\n        <elementProp name=\"ThreadGroup.main_controller\" elementType=\"LoopController\" guiclass=\"LoopControlPanel\" testclass=\"LoopController\" testname=\"Loop Controller\" enabled=\"true\">\n          <boolProp name=\"LoopController.continue_forever\">false</boolProp>\n          <stringProp name=\"LoopController.loops\">").data
-- HOLE 2: loadConfig.loopCount || 1
def aiTG_2 : Str := ("</stringProp>\n        </elementProp>\n        <stringProp name=\"ThreadGroup.num_threads\">").data
-- HOLE 3: group.recommendedThreads || loadConfig.threadCount || 10
def aiTG_3 : Str := ("</stringProp>\n        <stringProp name=\"ThreadGroup.ramp_time\">").data
-- HOLE 4: group.rampUpTime || loadConfig.rampUpTime || 60
def aiTG_4 : Str := ("</stringProp>\n        <boolProp name=\"ThreadGroup.scheduler\">true</boolProp>\n        <stringProp name=\"ThreadGroup.duration\">").data
-- HOLE 5: loadConfig.duration || 300
def aiTG_5 : Str := ("</stringProp>\n        <stringProp name=\"ThreadGroup.delay\">0</stringProp>\n        <boolProp name=\"ThreadGroup.same_user_on_next_iteration\">true</boolProp>\n      </ThreadGroup>\n      <hashTree>\n        ").data
-- HOLE 6: generateCsvConfigs()
def aiTG_6 : Str := ("\n        ").data
-- HOLE 7: generateHttpSamplers(group.endpoints)
def aiTG_7 : Str := ("\n      </hashTree>").data

-- ===== template aiDoc =====
def aiDoc_0 : Str := ("<?xml version=\"1.0\" encoding=\"UTF-8\"?>\n<jmeterTestPlan version=\"1.2\" properties=\"5.0\" jmeter=\"5.6\">\n  <hashTree>\n    <TestPlan guiclass=\"TestPlanGui\" testclass=\"TestPlan\" testname=\"").data
-- HOLE 1: loadConfig.testPlanName || AI-Enhanced Performance Test
def aiDoc_1 : Str := ("\" enabled=\"true\">\n      <stringProp name=\"TestPlan.comments\">AI-Enhanced JMeter Test Plan generated from OpenAPI/Swagger specification</stringProp>\n      <boolProp name=\"TestPlan.functional_mode\">false</boolProp>\n      <boolProp name=\"TestPlan.tearDown_on_shutdown\">true</boolProp>\n      <boolProp name=\"TestPlan.serialize_threadgroups\">false</boolProp>\n      <elementProp name=\"TestPlan.arguments\" elementType=\"Arguments\" guiclass=\"ArgumentsPanel\" testclass=\"Arguments\" testname=\"User Defined Variables\" enabled=\"true\">\n        <collectionProp name=\"Arguments.arguments\">\n          <elementProp name=\"PROTOCOL\" elementType=\"Argument\">\n            <stringProp name=\"Argument.name\">PROTOCOL</stringProp>\n            <stringProp name=\"Argument.value\">").data
-- HOLE 2: baseUrlInfo.protocol
def aiDoc_2 : Str := ("</stringProp>\n            <stringProp name=\"Argument.metadata\">=</stringProp>\n          </elementProp>\n          <elementProp name=\"HOST\" elementType=\"Argument\">\n            <stringProp name=\"Argument.name\">HOST</stringProp>\n            <stringProp name=\"Argument.value\">").data
-- HOLE 3: baseUrlInfo.host
def aiDoc_3 : Str := ("</stringProp>\n            <stringProp name=\"Argument.metadata\">=</stringProp>\n          </elementProp>\n          <elementProp name=\"PORT\" elementType=\"Argument\">\n            <stringProp name=\"Argument.name\">PORT</stringProp>\n            <stringProp name=\"Argument.value\">").data
-- HOLE 4: baseUrlInfo.port
def aiDoc_4 : Str := ("</stringProp>\n            <stringProp name=\"Argument.metadata\">=</stringProp>\n          </elementProp>\n        </collectionProp>\n      </elementProp>\n    </TestPlan>\n    <hashTree>\n      ").data
-- HOLE 5: generateThreadGroups()
def aiDoc_5a : Str := ("\n      \n      <!-- Enhanced Listeners -->\n      <ResultCollector guiclass=\"ViewResultsFullVisualizer\" testclass=\"ResultCollector\" testname=\"View Results Tree\" enabled=\"true\">\n        <boolProp name=\"ResultCollector.error_logging\">false</boolProp>\n        <objProp>\n          <name>saveConfig</name>\n          <value class=\"SampleSaveConfiguration\">\n            <time>true</time>\n            <latency>true</latency>\n            <timestamp>true</timestamp>\n            <success>true</success>\n            <label>true</label>\n            <code>true</code>\n            <message>true</message>\n            <threadName>true</threadName>\n            <dataType>true</dataType>\n            <encoding>false</encoding>\n            <assertions>true</assertions>\n            <subresults>true</subresults>\n            <responseData>false</responseData>\n            <samplerData>false</samplerData>\n            <xml>false</xml>\n            <fieldNames>true</fieldNames>\n            <responseHeaders>false</responseHeaders>\n            <requestHeaders>false</requestHeaders>\n            <responseDataOnError>false</responseDataOnError>\n            <saveAssertionResultsFailureMessage>true</saveAssertionResultsFailureMessage>\n            <assertionsResultsToSave>0</assertionsResultsToSave>\n            <bytes>true</bytes>\n            <sentBytes>true</sentBytes>\n            <url>true</url>\n            <threadCounts>true</threadCounts>\n            <idleTime>true</idleTime>\n            <connectTime>true</connectTime>\n          </value>\n        </objProp>\n        <stringProp name=\"filename\"></stringProp>\n      </ResultCollector>\n      <hashTree/").data

def aiDoc_5b : Str := (">\n      \n      <ResultCollector guiclass=\"SummaryReport\" testclass=\"ResultCollector\" testname=\"Summary Report\" enabled=\"true\">\n        <boolProp name=\"ResultCollector.error_logging\">false</boolProp>\n        <objProp>\n          <name>saveConfig</name>\n          <value class=\"SampleSaveConfiguration\">\n            <time>true</time>\n            <latency>true</latency>\n            <timestamp>true</timestamp>\n            <success>true</success>\n            <label>true</label>\n            <code>true</code>\n            <message>true</message>\n            <threadName>true</threadName>\n            <dataType>true</dataType>\n            <encoding>false</encoding>\n            <assertions>true</assertions>\n            <subresults>true</subresults>\n            <responseData>false</responseData>\n            <samplerData>false</samplerData>\n            <xml>false</xml>\n            <fieldNames>true</fieldNames>\n            <responseHeaders>false</responseHeaders>\n            <requestHeaders>false</requestHeaders>\n            <responseDataOnError>false</responseDataOnError>\n            <saveAssertionResultsFailureMessage>true</saveAssertionResultsFailureMessage>\n            <assertionsResultsToSave>0</assertionsResultsToSave>\n            <bytes>true</bytes>\n            <sentBytes>true</sentBytes>\n            <url>true</url>\n            <threadCounts>true</threadCounts>\n            <idleTime>true</idleTime>\n            <connectTime>true</connectTime>\n          </value>\n        </objProp>\n        <stringProp name=\"filename\"></stringProp>\n      </ResultCollector>\n      <hashTree/>\n    </hashTree>\n  </hashTree>\n</jmeterTestPlan>").data

def aiDoc_5 : Str := aiDoc_5a ++ aiDoc_5b

-- ===== template harBody =====
def harBody_0 : Str := ("\n        <boolProp name=\"HTTPSampler.postBodyRaw\">true</boolProp>\n        <elementProp name=\"HTTPsampler.postBodyRaw\" elementType=\"Arguments\">\n          <collectionProp name=\"Arguments.arguments\">\n            <elementProp name=\"\" elementType=\"HTTPArgument\">\n              <boolProp name=\"HTTPArgument.always_encode\">false</boolProp>\n              <stringProp name=\"Argument.value\">").data
-- HOLE 1: escapeXml(postData)
def harBody_1 : Str := ("</stringProp>\n              <stringProp name=\"Argument.metadata\">=</stringProp>\n            </elementProp>\n          </collectionProp>\n        </elementProp>\n        ").data

-- ===== template harHM =====
def harHM_0 : Str := ("\n      <HeaderManager guiclass=\"HeaderPanel\" testclass=\"HeaderManager\" testname=\"HTTP Header Manager\" enabled=\"true\">\n        <collectionProp name=\"HeaderManager.headers\">\n          ").data
-- HOLE 1: headers.map(header => <nested template>).join()
def harHM_1 : Str := ("\n        </collectionProp>\n      </HeaderManager>\n      ").data

-- ===== template harCorr =====
def harCorr_0 : Str := ("\n      <com.atlantbh.jmeter.plugins.jsonutils.jsonpathextractor.JSONPathExtractor guiclass=\"com.atlantbh.jmeter.plugins.jsonutils.jsonpathextractor.gui.JSONPathExtractorGui\" testclass=\"com.atlantbh.jmeter.plugins.jsonutils.jsonpathextractor.JSONPathExtractor\" testname=\"JSON Extractor\" enabled=\"true\">\n        <stringProp name=\"JSONPATH\">$..token</stringProp>\n        <stringProp name=\"VAR\">authToken</stringProp>\n        <stringProp name=\"DEFAULT\">NOT_FOUND</stringProp>\n        <stringProp name=\"VARIABLE\">authToken</stringProp>\n        <stringProp name=\"SUBJECT\">BODY</stringProp>\n      </com.atlantbh.jmeter.plugins.jsonutils.jsonpathextractor.JSONPathExtractor>\n      ").data

-- ===== template swBody =====
def swBody_0 : Str := ("<boolProp name=\"HTTPSampler.postBodyRaw\">true</boolProp>\n        <elementProp name=\"HTTPsampler.Arguments\" elementType=\"Arguments\">\n          <collectionProp name=\"Arguments.arguments\">\n            <elementProp name=\"\" elementType=\"HTTPArgument\">\n              <boolProp name=\"HTTPArgument.always_encode\">false</boolProp>\n              <stringProp name=\"Argument.value\">\x7b\"sample\": \"data\"\x7d</stringProp>\n              <stringProp name=\"Argument.metadata\">=</stringProp>\n            </elementProp>\n          </collectionProp>\n        </elementProp>").data

-- ===== template swAssert =====
def swAssert_0 : Str := ("\n        <ResponseAssertion guiclass=\"AssertionGui\" testclass=\"ResponseAssertion\" testname=\"Status Code Assertion\" enabled=\"true\">\n          <collectionProp name=\"Asserion.test_strings\">\n            ").data
-- HOLE 1: aiAnalysis.assertions?.find((a: any) => a.type === statusCode)?.values?.map((code: number) => <nested template>).join() || <stringProp name="200">200</stringProp><stringProp name="201">201</stringProp>
def swAssert_1 : Str := ("\n          </collectionProp>\n          <stringProp name=\"Assertion.test_field\">Assertion.response_code</stringProp>\n          <boolProp name=\"Assertion.assume_success\">false</boolProp>\n          <intProp name=\"Assertion.test_type\">33</intProp>\n        </ResponseAssertion>\n        <hashTree/>\n        <DurationAssertion guiclass=\"DurationAssertionGui\" testclass=\"DurationAssertion\" testname=\"Response Time Assertion\" enabled=\"true\">\n          <stringProp name=\"DurationAssertion.duration\">").data
-- HOLE 2: aiAnalysis.assertions?.find((a: any) => a.type === responseTime)?.threshold || 5000
def swAssert_2 : Str := ("</stringProp>\n        </DurationAssertion>\n        <hashTree/>").data

-- ===== template swCorr =====
def swCorr_0 : Str := ("\n        <JSONPostProcessor guiclass=\"JSONPostProcessorGui\" testclass=\"JSONPostProcessor\" testname=\"JSON Extractor\" enabled=\"true\">\n          <stringProp name=\"JSONPostProcessor.referenceNames\">").data
-- HOLE 1: aiAnalysis.correlations[0]
def swCorr_1 : Str := ("</stringProp>\n          <stringProp name=\"JSONPostProcessor.jsonPathExprs\">$..").data
-- HOLE 2: aiAnalysis.correlations[0]
def swCorr_2 : Str := ("</stringProp>\n          <stringProp name=\"JSONPostProcessor.match_numbers\">1</stringProp>\n          <stringProp name=\"JSONPostProcessor.defaultValues\">default_value</stringProp>\n        </JSONPostProcessor>\n        <hashTree/>").data

-- ===== template swCsv =====
def swCsv_0 : Str := ("\n        <CSVDataSet guiclass=\"TestBeanGUI\" testclass=\"CSVDataSet\" testname=\"CSV Data Set Config\" enabled=\"true\">\n          <stringProp name=\"delimiter\">,</stringProp>\n          <stringProp name=\"fileEncoding\">UTF-8</stringProp>\n          <stringProp name=\"filename\">test_data.csv</stringProp>\n          <boolProp name=\"ignoreFirstLine\">true</boolProp>\n          <boolProp name=\"quotedData\">false</boolProp>\n          <boolProp name=\"recycle\">true</boolProp>\n          <stringProp name=\"shareMode\">shareMode.all</stringProp>\n          <boolProp name=\"stopThread\">false</boolProp>\n          <stringProp name=\"variableNames\">test_variable</stringProp>\n        </CSVDataSet>\n        <hashTree/>").data

-- ===== template swCode =====
def swCode_0 : Str := ("<stringProp name=\"").data
-- HOLE 1: code
def swCode_1 : Str := ("\">").data
-- HOLE 2: code
def swCode_2 : Str := ("</stringProp>").data

-- ===== template aiBody =====
def aiBody_0 : Str := ("<boolProp name=\"HTTPSampler.postBodyRaw\">true</boolProp>\n            <elementProp name=\"HTTPsampler.Arguments\" elementType=\"Arguments\">\n              <collectionProp name=\"Arguments.arguments\">\n                <elementProp name=\"\" elementType=\"HTTPArgument\">\n                  <boolProp name=\"HTTPArgument.always_encode\">false</boolProp>\n                  <stringProp name=\"Argument.value\">").data
-- HOLE 1: requestBody.replace(QRX, &quot;)
def aiBody_1 : Str := ("</stringProp>\n                  <stringProp name=\"Argument.metadata\">=</stringProp>\n                </elementProp>\n              </collectionProp>\n            </elementProp>").data


end Tpl

/-- A name/value pair as used for HAR headers and query parameters. -/
structure HarPair where
  name : Str
  value : Str
deriving DecidableEq

/-- `postData` of a HAR request. -/
structure HarPostData where
  mimeType : Str
  text : Str
deriving DecidableEq

/-- The request half of a HAR entry. -/
structure HarRequest where
  method : Str
  url : Str
  headers : List HarPair
  queryString : List HarPair
  postData : Option HarPostData
deriving DecidableEq

/-- The response half of a HAR entry (only the fields the code reads). -/
structure HarResponse where
  status : Int
  headers : List HarPair
deriving DecidableEq

/-- One HAR entry. -/
structure HarEntry where
  request : HarRequest
  response : HarResponse
  time : ℚ
  startedDateTime : Str
deriving DecidableEq

/-- The `LoadConfig` interface of the two HAR functions. -/
structure LoadConfig where
  threadCount : Int
  rampUpTime : Int
  duration : Int
  loopCount : Int
deriving DecidableEq

/-- One entry of `analysis.requestGroups`. -/
structure ReqGroup where
  name : Str
  pattern : Str
deriving DecidableEq

/-- The fields of the HAR AI analysis that `generateJMeterXML` reads
(`requestGroups` for grouping, `correlationFields` for the extractor block);
each is optional because the analysis is arbitrary parsed JSON. -/
structure HarAnalysis where
  correlationFields : Option (List Str)
  requestGroups : Option (List ReqGroup)
deriving DecidableEq

/-- The slice of a `fetch` response that the adapters inspect. -/
structure FetchResponse where
  ok : Bool
  statusText : Str
  bodyText : Str
deriving DecidableEq

namespace JsObj

/-- `obj[k] = (obj[k] ?? []).concat([x])` over an insertion-ordered object:
append `x` to the bucket of `k`, creating the bucket at the end on first use
(JS object string keys preserve insertion order). -/
def pushGroup {α : Type} (acc : List (Str × List α)) (k : Str) (x : α) : List (Str × List α) :=
  match acc with
  | [] => [(k, [x])]
  | (k', xs) :: t => if k' = k then (k', xs ++ [x]) :: t else (k', xs) :: pushGroup t k x

/-- Bucket lookup. -/
def groupLookup {α : Type} (k : Str) (acc : List (Str × List α)) : Option (List α) :=
  (acc.find? (fun g => g.1 = k)).map (·.2)

end JsObj

namespace HarToJmeter

open JsStr

/-- `url.includes(pattern) || new RegExp(pattern).test(url)` from the grouping
loop of `generateJMeterXML` (har-to-jmeter/index.ts, line 225). -/
def matchesGroup (g : ReqGroup) (url : Str) : Except JsErr Bool :=
  if jsIncludes url g.pattern then .ok true else JsRegex.regexTest g.pattern url

/-- The `for … break` loop assigning a group name to one entry: the first
matching recommended group wins, otherwise the literal `Default`. -/
def entryGroupName (gs : List ReqGroup) (e : HarEntry) : Except JsErr Str :=
  match gs with
  | [] => .ok (("Default").data)
  | g :: rest =>
    match matchesGroup g e.request.url with
    | .error err => .error err
    | .ok true => .ok g.name
    | .ok false => entryGroupName rest e

/-- Group name with the `if (analysis.requestGroups)` guard. -/
def groupNameOf (rgs : Option (List ReqGroup)) (e : HarEntry) : Except JsErr Str :=
  match rgs with
  | none => .ok (("Default").data)
  | some gs => entryGroupName gs e

/-- The `entries.forEach` accumulation into the `requestGroups` object
(har-to-jmeter/index.ts, lines 218–236). -/
def requestGroupsOf (rgs : Option (List ReqGroup)) (entries : List HarEntry) :
    Except JsErr (List (Str × List HarEntry)) :=
  entries.foldlM (fun acc e => (groupNameOf rgs e).map (fun n => JsObj.pushGroup acc n e)) []

/-- Header names dropped from each sampler's header manager. -/
def droppedHeaders : List Str := [("host").data, ("content-length").data, ("connection").data]

/-- `generateHTTPSampler` (har-to-jmeter/index.ts, lines 239–331); the `new
URL(entry.request.url)` call may throw. -/
def generateHTTPSampler (analysis : HarAnalysis) (entry : HarEntry) : Except JsErr Str :=
  match JsUrl.newURL entry.request.url with
  | none => .error .urlError
  | some url =>
    let headers := entry.request.headers.filter fun h => ¬ droppedHeaders.contains (lowerStr h.name)
    let postData := match entry.request.postData with | some pd => pd.text | none => []
    let hasBody := [("POST").data, ("PUT").data, ("PATCH").data].contains entry.request.method
      && !postData.isEmpty
    .ok (Tpl.harSampler_0 ++ escapeXml (entry.request.method ++ (" ").data ++ url.pathname)
      ++ Tpl.harSampler_1
      ++ (entry.request.queryString.map fun p =>
            Tpl.harQP_0 ++ escapeXml p.name ++ Tpl.harQP_1 ++ escapeXml p.value
              ++ Tpl.harQP_2 ++ escapeXml p.name ++ Tpl.harQP_3).flatten
      ++ Tpl.harSampler_2 ++ escapeXml url.hostname
      ++ Tpl.harSampler_3
      ++ (if url.port ≠ [] then url.port
          else if url.protocol = ("https:").data then ("443").data else ("80").data)
      ++ Tpl.harSampler_4 ++ jsReplaceFirst url.protocol ((":").data) []
      ++ Tpl.harSampler_5 ++ escapeXml url.pathname
      ++ Tpl.harSampler_6 ++ entry.request.method
      ++ Tpl.harSampler_7
      ++ (if hasBody then Tpl.harBody_0 ++ escapeXml postData ++ Tpl.harBody_1 else [])
      ++ Tpl.harSampler_8
      ++ (if headers.length > 0 then
            Tpl.harHM_0
              ++ (headers.map fun h =>
                   Tpl.harHdr_0 ++ escapeXml h.name ++ Tpl.harHdr_1 ++ escapeXml h.value
                     ++ Tpl.harHdr_2).flatten
              ++ Tpl.harHM_1
          else [])
      ++ Tpl.harSampler_9
      ++ (match analysis.correlationFields with
          | some cf => if cf.length > 0 then Tpl.harCorr_0 else []
          | none => [])
      ++ Tpl.harSampler_10)

/-- One thread group of the HAR serializer (lines 335–365). -/
def generateThreadGroup (loadConfig : LoadConfig) (groupName : Str) (samplers : List Str) : Str :=
  Tpl.harTG_0 ++ escapeXml groupName ++ Tpl.harTG_1 ++ intStr loadConfig.loopCount
    ++ Tpl.harTG_2 ++ intStr loadConfig.threadCount ++ Tpl.harTG_3 ++ intStr loadConfig.rampUpTime
    ++ Tpl.harTG_4 ++ intStr loadConfig.duration ++ Tpl.harTG_5
    ++ joinSep (("\n").data) samplers ++ Tpl.harTG_6

/-- `generateJMeterXML` (har-to-jmeter/index.ts, lines 205–465).  `nowIso`
stands for `new Date().toISOString()`; the unused `timestamp = Date.now()` of
line 206 is omitted. -/
def generateJMeterXML (entries : List HarEntry) (loadConfig : LoadConfig) (testPlanName : Str)
    (analysis : HarAnalysis) (nowIso : Str) : Except JsErr Str :=
  match requestGroupsOf analysis.requestGroups entries with
  | .error e => .error e
  | .ok rgs =>
    match rgs.mapM (fun g =>
        (g.2.mapM (generateHTTPSampler analysis)).map (generateThreadGroup loadConfig g.1)) with
    | .error e => .error e
    | .ok tgs =>
      match (match entries with
             | [] => Except.ok (("https://example.com").data)
             | e0 :: _ =>
               match JsUrl.newURL e0.request.url with
               | some u => Except.ok u.origin
               | none => Except.error JsErr.urlError) with
      | .error e => .error e
      | .ok baseUrl =>
        .ok (Tpl.harDoc_0 ++ escapeXml testPlanName ++ Tpl.harDoc_1 ++ nowIso ++ Tpl.harDoc_2
          ++ baseUrl ++ Tpl.harDoc_3 ++ joinSep (("\n").data) tgs ++ Tpl.harDoc_4)

/-- The `summary` object of the generation endpoint's success response
(har-to-jmeter/index.ts lines 183–188, identically in the AI-driven HAR
function): the average divides the total time by the entry count with no guard
for an empty list. -/
structure HarSummary where
  totalRequests : Nat
  uniqueDomains : List Str
  methodsUsed : List Str
  avgResponseTime : JsNum
deriving DecidableEq

/-- Computation of the summary; `new URL` on each entry may throw. -/
def summaryOf (entries : List HarEntry) : Except JsErr HarSummary :=
  match entries.mapM (fun e =>
      match JsUrl.newURL e.request.url with
      | some u => Except.ok u.hostname
      | none => Except.error JsErr.urlError) with
  | .error e => .error e
  | .ok hostnames =>
    .ok { totalRequests := entries.length
          uniqueDomains := jsSetDedup hostnames
          methodsUsed := jsSetDedup (entries.map (·.request.method))
          avgResponseTime :=
            JsNum.jsDiv (JsNum.num (entries.foldl (fun acc e => acc + e.time) 0))
              (JsNum.num (entries.length : ℚ)) }

/-- The fixed fallback analysis of the `catch` block (lines 166–172). -/
def harFallbackAnalysis : Json :=
  .obj [
    ((("correlationFields").data),
      .arr [.str (("JSESSIONID").data), .str (("token").data), .str (("csrf").data)]),
    ((("requestGroups").data),
      .arr [.obj [((("name").data), .str (("All Requests").data)),
                  ((("pattern").data), .str ((".*").data))]]),
    ((("parameterization").data), .arr []),
    ((("scenarios").data),
      .arr [.obj [((("name").data), .str (("Load Test").data)),
                  ((("description").data), .str (("Basic load test scenario").data))]]),
    ((("assertions").data),
      .arr [.obj [((("type").data), .str (("responseCode").data)),
                  ((("values").data), .arr [.num 200, .num 201, .num 202])]])]

/-- `aiText.match(/\{[\s\S]*\}/)`: the span from the first opening brace to
the last closing brace, when the latter comes after the former. -/
def firstLastBrace (s : Str) : Option Str :=
  match findSub [Json.lbrace] s with
  | none => none
  | some i =>
    match findSub [Json.rbrace] s.reverse with
    | none => none
    | some jr =>
      let j := s.length - 1 - jr
      if i < j then some ((s.drop i).take (j - i + 1)) else none

/-- `data.candidates?.[0]?.content?.parts?.[0]?.text` navigation. -/
def googleTextNav (d : Json) : Option Json :=
  (((((d.jGet (("candidates").data)).bind (·.jIdx 0)).bind
    (·.jGet (("content").data))).bind (·.jGet (("parts").data))).bind (·.jIdx 0)).bind
    (·.jGet (("text").data))

/-- `data.choices?.[0]?.message?.content` navigation. -/
def openaiTextNav (d : Json) : Option Json :=
  (((d.jGet (("choices").data)).bind (·.jIdx 0)).bind
    (·.jGet (("message").data))).bind (·.jGet (("content").data))

/-- The analysis-parsing `try`/`catch` of the endpoint (lines 132–173): a
non-success status, a non-JSON response body, or an unparsable extracted JSON
span all land in the `catch` and yield the fixed fallback; a response whose
navigation path is missing or falsy leaves the initial `{}` untouched. -/
def harParseAnalysis (aiProvider : Str) (resp : FetchResponse) : Json :=
  if ¬ resp.ok then harFallbackAnalysis
  else
    match Json.jsonParse resp.bodyText with
    | none => harFallbackAnalysis
    | some analysisData =>
      if aiProvider = ("google").data then
        match googleTextNav analysisData with
        | some v =>
          if v.jsTruthy then
            match v with
            | .str aiText =>
              match firstLastBrace aiText with
              | some jm =>
                match Json.jsonParse jm with
                | some j => j
                | none => harFallbackAnalysis
              | none => Json.obj []
            | _ => harFallbackAnalysis
          else Json.obj []
        | none => Json.obj []
      else
        match openaiTextNav analysisData with
        | some v =>
          if v.jsTruthy then
            match v with
            | .str aiText =>
              match firstLastBrace aiText with
              | some jm =>
                match Json.jsonParse jm with
                | some j => j
                | none => harFallbackAnalysis
              | none =>
                match Json.jsonParse aiText with
                | some j => j
                | none => harFallbackAnalysis
            | _ => harFallbackAnalysis
          else Json.obj []
        | none => Json.obj []

end HarToJmeter

namespace Repair

/-- The replaced closing sequence of the listener insertions. -/
def closePat : Str := ("</hashTree>\n</jmeterTestPlan>").data

/-- The closing text appended after an inserted listener (note the extra
`</hashTree>` level relative to `closePat`). -/
def closeRepl : Str := ("\n    </hashTree>\n  </hashTree>\n</jmeterTestPlan>").data

/-- Guard marker of the summary-listener insertion. -/
def srMarker : Str := ("SummaryReport").data

/-- Guard marker of the detailed-results-listener insertion. -/
def vrtMarker : Str := ("ViewResultsFullVisualizer").data

/-- Guard marker of the cookie-manager insertion. -/
def cookieMarker : Str := ("CookieManager").data

/-- Guard marker of the cache-manager insertion. -/
def cacheMarker : Str := ("CacheManager").data

/-- Guard marker of the CSV-config insertion. -/
def csvMarker : Str := ("CSVDataSet").data

/-- Guard substring of the per-sampler body injection. -/
def pbrMarker : Str := ("postBodyRaw").data

/-- The closing-tag replacement tail of the body injection. -/
def closeIndented : Str := ("\n      </HTTPSamplerProxy>").data

end Repair

namespace HarAI

open JsStr

/-- The raw-body argument block injected for one body (part_000, lines
437–456), with the same five-character escaping as the serializer. -/
def bodyXmlFor (bodyData : Str) : Str := Tpl.insBody_0 ++ escapeXml bodyData ++ Tpl.insBody_1

/-- One iteration of the `entries.forEach` body-injection loop of
`enhanceHarJMeterXML` (part_000, lines 421–464): skip unless the method is
POST/PUT/PATCH with a nonempty literal body; skip if the body's first (up to)
50 characters occur anywhere in the document; otherwise run the global sampler
regex and, in each match without `postBodyRaw`, replace the first closing tag
by the escaped body block followed by the closing tag. -/
def enhanceBodyStep (doc : Str) (entry : HarEntry) : Str :=
  match entry.request.postData with
  | none => doc
  | some pd =>
    if [("POST").data, ("PUT").data, ("PATCH").data].contains entry.request.method
        && !pd.text.isEmpty then
      let bodyData := pd.text
      if jsIncludes doc (bodyData.take (min 50 bodyData.length)) then doc
      else
        JsRegex.samplerReplaceAll entry.request.method
          (fun m =>
            if jsIncludes m Repair.pbrMarker then m
            else jsReplaceFirst m JsRegex.closeSamplerLit (bodyXmlFor bodyData ++ Repair.closeIndented))
          doc
    else doc

/-- `enhanceHarJMeterXML` (part_000, lines 284–467): insert the summary
listener, the detailed-results listener, the cookie manager and the cache
manager when their marker substrings are absent, then run the body-injection
loop over the entries.  (`loadConfig` is a parameter of the source function
but is not read by its body.) -/
def enhanceHarJMeterXML (aiGeneratedXml : Str) (loadConfig : LoadConfig)
    (entries : List HarEntry) : Str :=
  let x1 := if jsIncludes aiGeneratedXml Repair.srMarker then aiGeneratedXml
            else jsReplaceFirst aiGeneratedXml Repair.closePat (Tpl.insSummary_0 ++ Repair.closeRepl)
  let x2 := if jsIncludes x1 Repair.vrtMarker then x1
            else jsReplaceFirst x1 Repair.closePat (Tpl.insVrt_0 ++ Repair.closeRepl)
  let x3 := if jsIncludes x2 Repair.cookieMarker then x2
            else JsRegex.tgInsertAll Tpl.insCookie_0 x2
  let x4 := if jsIncludes x3 Repair.cacheMarker then x3
            else JsRegex.tgInsertAll Tpl.insCache_0 x3
  entries.foldl enhanceBodyStep x4

end HarAI

/-- Property description of a JSON-schema-like object (the fields
`generateSampleData` reads; `itemsExample` stands for `items?.example`). -/
structure SchemaProp where
  type : Option Str
  /-- the `example` field (`example` is a reserved word in Lean). -/
  exampleVal : Option Json
  itemsExample : Option Json

/-- A schema-like object description. -/
structure Schema where
  properties : Option (List (Str × SchemaProp))

/-- One operation object of a contract document (the fields the generators
read; `jsonSchema` stands for `requestBody?.content?.['application/json']?.schema`). -/
structure SwOperation where
  tags : List Str
  jsonSchema : Option Schema

/-- A contract (Swagger/OpenAPI) document: `paths` in document key order;
`serverUrl` stands for `servers?.[0]?.url`. -/
structure SwaggerSpec where
  paths : List (Str × List (Str × SwOperation))
  serverUrl : Option Str

namespace JsStr

/-- JS `a || b` on an optional string (empty string is falsy). -/
def jsOrStr (o : Option Str) (d : Str) : Str :=
  match o with
  | some s => if s = [] then d else s
  | none => d

/-- JS `a || b` on an optional integer (`0` is falsy). -/
def jsOrInt (o : Option Int) (d : Int) : Int :=
  match o with
  | some v => if v = 0 then d else v
  | none => d

end JsStr

namespace SwaggerAI

open JsStr

/-- The `LoadConfig` interface of the swagger AI function (part_001). -/
structure SwLoadConfig where
  testPlanName : Str
  threadCount : Int
  rampUpTime : Int
  duration : Int
  loopCount : Int
  addAssertions : Bool
  addCorrelation : Bool
  addCsvConfig : Bool
  baseUrl : Option Str
deriving DecidableEq

/-- One entry of `aiAnalysis.assertions`. -/
structure SwAssertion where
  type : Str
  threshold : Option Int
  values : Option (List Int)
deriving DecidableEq

/-- The fields of the AI analysis the fallback serializer reads. -/
structure SwAnalysis where
  assertions : Option (List SwAssertion)
  correlations : Option (List Str)
deriving DecidableEq

/-- The methods recognised when grouping endpoints by tag. -/
def swMethods : List Str :=
  [("get").data, ("post").data, ("put").data, ("delete").data, ("patch").data,
   ("head").data, ("options").data]

/-- `endpointGroups` (part_001, lines 785–795): iterate paths and methods in
document order, group by `operation.tags?.[0] || 'Default'`. -/
def endpointGroupsOf (spec : SwaggerSpec) : List (Str × List (Str × Str × SwOperation)) :=
  spec.paths.foldl
    (fun acc pi =>
      pi.2.foldl
        (fun acc2 mi =>
          if swMethods.contains mi.1 then
            let tag := match mi.2.tags with
              | [] => ("Default").data
              | t0 :: _ => if t0 = [] then ("Default").data else t0
            JsObj.pushGroup acc2 tag (pi.1, upperStr mi.1, mi.2)
          else acc2)
        acc)
    []

/-- The `|| '<stringProp name="200">…'` default of the status-code assertion. -/
def swDefaultCodes : Str :=
  ("<stringProp name=\"200\">200</stringProp><stringProp name=\"201\">201</stringProp>").data

/-- The rendered status-code list:
`assertions?.find(a => a.type === 'statusCode')?.values?.map(...).join('') || default`. -/
def statusCodesStr (aiAnalysis : SwAnalysis) : Str :=
  let rendered : Option Str :=
    ((aiAnalysis.assertions.bind (·.find? (fun a => a.type = ("statusCode").data))).bind
      (·.values)).map
      (fun vs => (vs.map fun code =>
        Tpl.swCode_0 ++ intStr code ++ Tpl.swCode_1 ++ intStr code ++ Tpl.swCode_2).flatten)
  match rendered with
  | some r => if r = [] then swDefaultCodes else r
  | none => swDefaultCodes

/-- `assertions?.find(a => a.type === 'responseTime')?.threshold || 5000`. -/
def respTimeThreshold (aiAnalysis : SwAnalysis) : Int :=
  jsOrInt ((aiAnalysis.assertions.bind (·.find? (fun a => a.type = ("responseTime").data))).bind
    (·.threshold)) 5000

/-- `generateHTTPSampler` of the fallback serializer (part_001, lines
798–854). -/
def generateHTTPSampler (loadConfig : SwLoadConfig) (aiAnalysis : SwAnalysis)
    (path method : Str) : Str :=
  let hasBody := [("POST").data, ("PUT").data, ("PATCH").data].contains method
  Tpl.swSampler_0 ++ escapeXml (method ++ (" ").data ++ path) ++ Tpl.swSampler_1
    ++ escapeXml path ++ Tpl.swSampler_2 ++ method ++ Tpl.swSampler_3
    ++ (if hasBody then Tpl.swBody_0 else []) ++ Tpl.swSampler_4
    ++ (if loadConfig.addAssertions then
          Tpl.swAssert_0 ++ statusCodesStr aiAnalysis ++ Tpl.swAssert_1
            ++ intStr (respTimeThreshold aiAnalysis) ++ Tpl.swAssert_2
        else [])
    ++ Tpl.swSampler_5
    ++ (if loadConfig.addCorrelation
          && ((aiAnalysis.correlations.map (·.length)).getD 0 > 0) then
          match aiAnalysis.correlations with
          | some (c0 :: _) =>
            Tpl.swCorr_0 ++ c0 ++ Tpl.swCorr_1 ++ c0 ++ Tpl.swCorr_2
          | _ => []
        else [])
    ++ Tpl.swSampler_6

/-- The `threadGroups +=` accumulation (part_001, lines 856–904). -/
def threadGroupsBlock (spec : SwaggerSpec) (loadConfig : SwLoadConfig)
    (aiAnalysis : SwAnalysis) : Str :=
  (endpointGroupsOf spec).foldl
    (fun acc g =>
      let samplers := (g.2.map fun ep =>
        generateHTTPSampler loadConfig aiAnalysis ep.1 ep.2.1).flatten
      acc ++ Tpl.swTG_0 ++ escapeXml g.1 ++ Tpl.swTG_1 ++ intStr loadConfig.loopCount
        ++ Tpl.swTG_2 ++ intStr loadConfig.threadCount ++ Tpl.swTG_3
        ++ intStr loadConfig.rampUpTime ++ Tpl.swTG_4 ++ intStr loadConfig.duration
        ++ Tpl.swTG_5 ++ (if loadConfig.addCsvConfig then Tpl.swCsv_0 else [])
        ++ Tpl.swTG_6 ++ samplers ++ Tpl.swTG_7)
    []

/-- The `urlParts` record of the fallback serializer. -/
structure SwUrlParts where
  protocol : Str
  host : Str
  port : Str
  path : Str
deriving DecidableEq

/-- Base-URL extraction with the `try`/`catch` defaults (part_001, lines
769–782). -/
def swUrlParts (baseUrl : Str) : SwUrlParts :=
  match JsUrl.newURL baseUrl with
  | some u =>
    { protocol := jsReplaceFirst u.protocol ((":").data) []
      host := u.hostname
      port := if u.port ≠ [] then u.port
              else if u.protocol = ("https:").data then ("443").data else ("80").data
      path := u.pathname }
  | none =>
    { protocol := ("https").data
      host := ("api.example.com").data
      port := ("443").data
      path := [] }

/-- `generateJMeterXML`, the local fallback serializer of the swagger AI
function (part_001, lines 757–979).  Note its listener block appends only the
detailed-results listener — no summary listener.  `nowIso` stands for
`new Date().toISOString()`. -/
def generateJMeterXML (swaggerSpec : SwaggerSpec) (loadConfig : SwLoadConfig)
    (aiAnalysis : SwAnalysis) (nowIso : Str) : Str :=
  let baseUrl := jsOrStr loadConfig.baseUrl
    (jsOrStr swaggerSpec.serverUrl (("https://api.example.com").data))
  let urlParts := swUrlParts baseUrl
  let threadGroups := threadGroupsBlock swaggerSpec loadConfig aiAnalysis
  Tpl.swDoc_0 ++ escapeXml loadConfig.testPlanName ++ Tpl.swDoc_1 ++ nowIso ++ Tpl.swDoc_2
    ++ urlParts.protocol ++ Tpl.swDoc_3 ++ urlParts.host ++ Tpl.swDoc_4 ++ urlParts.port
    ++ Tpl.swDoc_5 ++ threadGroups ++ Tpl.swDoc_6

/-- `enhanceJMeterXML` (part_001, lines 982–1107): insert the summary and
detailed-results listeners when their markers are absent; insert the CSV
config after each thread-group opening when requested and absent. -/
def enhanceJMeterXML (aiGeneratedXml : Str) (loadConfig : SwLoadConfig) : Str :=
  let x1 := if jsIncludes aiGeneratedXml Repair.srMarker then aiGeneratedXml
            else jsReplaceFirst aiGeneratedXml Repair.closePat (Tpl.insSummary_0 ++ Repair.closeRepl)
  let x2 := if jsIncludes x1 Repair.vrtMarker then x1
            else jsReplaceFirst x1 Repair.closePat (Tpl.insVrt_0 ++ Repair.closeRepl)
  if loadConfig.addCsvConfig && !(jsIncludes x2 Repair.csvMarker) then
    JsRegex.tgInsertAll Tpl.insCsv_0 x2
  else x2

end SwaggerAI

namespace AiGen

open JsStr

/-- JS `a || b` on an optional JSON value (falsy examples fall through). -/
def jsOrJson (o : Option Json) (d : Json) : Json :=
  match o with
  | some e => if e.jsTruthy then e else d
  | none => d

/-- The `switch (prop.type)` of `generateSampleData`
(ai-jmeter-generator/index.ts, lines 526–544): `prop.example || default` for
string/integer/number and the default case, `prop.example !== undefined ?
prop.example : true` for booleans, `[prop.items?.example || 'sample_item']`
for arrays. -/
def sampleValue (key : Str) (p : SchemaProp) : Json :=
  match p.type with
  | some ty =>
    if ty = ("string").data then jsOrJson p.exampleVal (.str ((("sample_").data) ++ key))
    else if ty = ("integer").data ∨ ty = ("number").data then jsOrJson p.exampleVal (.num 123)
    else if ty = ("boolean").data then
      (match p.exampleVal with
       | some e => e
       | none => .bool true)
    else if ty = ("array").data then .arr [jsOrJson p.itemsExample (.str (("sample_item").data))]
    else jsOrJson p.exampleVal (.str ((("sample_").data) ++ key))
  | none => jsOrJson p.exampleVal (.str ((("sample_").data) ++ key))

/-- `generateSampleData` (lines 522–547): `'{}'` without a schema or
properties, otherwise `JSON.stringify(sampleData, null, 2)` of the per-property
sample values in property order. -/
def generateSampleData (schema : Option Schema) : Str :=
  match schema with
  | none => [Json.lbrace, Json.rbrace]
  | some sch =>
    match sch.properties with
    | none => [Json.lbrace, Json.rbrace]
    | some props =>
      Json.jsonStringify2 (.obj (props.map fun f => (f.1, sampleValue f.1 f.2)))

/-- One entry of `analysis.parameterization`. -/
structure AiParam where
  parameter : Str
deriving DecidableEq

/-- One entry of `analysis.correlationFields`. -/
structure AiCorrField where
  field : Str
  jsonPath : Str
deriving DecidableEq

/-- One entry of `analysis.performanceAssertions`. -/
structure AiAssertion where
  type : Str
  threshold : Int
deriving DecidableEq

/-- One entry of `analysis.recommendedThreadGroups`. -/
structure AiThreadGroup where
  name : Str
  endpoints : List Str
  recommendedThreads : Option Int
  rampUpTime : Option Int
deriving DecidableEq

/-- The fields of the AI analysis that `generateEnhancedJMeterXml` reads.
(The source reads them off arbitrary parsed JSON; this structure fixes the
documented response shape.) -/
structure AiAnalysis where
  recommendedThreadGroups : Option (List AiThreadGroup)
  parameterization : Option (List AiParam)
  correlationFields : Option (List AiCorrField)
  performanceAssertions : Option (List AiAssertion)
deriving DecidableEq

/-- The fields of `loadConfig` that `generateEnhancedJMeterXml` reads (all
guarded by `||` defaults in the source, hence optional here). -/
structure AiLoadConfig where
  testPlanName : Option Str
  threadCount : Option Int
  rampUpTime : Option Int
  duration : Option Int
  loopCount : Option Int
  baseUrl : Option Str
deriving DecidableEq

/-- `generateCsvConfigs` (lines 256–272). -/
def generateCsvConfigs (analysis : AiAnalysis) : Str :=
  match analysis.parameterization with
  | none => []
  | some ps =>
    if ps.length = 0 then []
    else joinSep (("\n").data) (ps.map fun p =>
      Tpl.aiCsv_0 ++ p.parameter ++ Tpl.aiCsv_1 ++ p.parameter ++ Tpl.aiCsv_2
        ++ p.parameter ++ Tpl.aiCsv_3)

/-- `generateCorrelationExtractors` (lines 275–286). -/
def generateCorrelationExtractors (analysis : AiAnalysis) : Str :=
  match analysis.correlationFields with
  | none => []
  | some fs =>
    if fs.length = 0 then []
    else joinSep (("\n").data) (fs.map fun f =>
      Tpl.aiCorr_0 ++ f.field ++ Tpl.aiCorr_1 ++ f.field ++ Tpl.aiCorr_2 ++ f.jsonPath
        ++ Tpl.aiCorr_3 ++ f.field ++ Tpl.aiCorr_4)

/-- `generatePerformanceAssertions` (lines 289–315). -/
def generatePerformanceAssertions (analysis : AiAnalysis) : Str :=
  match analysis.performanceAssertions with
  | none => []
  | some as_ =>
    if as_.length = 0 then []
    else joinSep (("\n").data) (as_.map fun a =>
      if a.type = ("response_time").data then Tpl.aiDur_0 ++ intStr a.threshold ++ Tpl.aiDur_1
      else Tpl.aiResp_0)

/-- The method keys recognised by `generateHttpSamplers`. -/
def aiMethods : List Str :=
  [("get").data, ("post").data, ("put").data, ("delete").data, ("patch").data]

/-- `generateHttpSamplers` (lines 318–363); `swaggerSpec.paths[path]` for a
path that is absent throws (`Object.keys` of `undefined`). -/
def generateHttpSamplers (spec : SwaggerSpec) (analysis : AiAnalysis)
    (endpoints : List Str) : Except JsErr Str :=
  match endpoints.mapM (fun path =>
    match spec.paths.find? (fun pi => pi.1 = path) with
    | none => Except.error JsErr.undefinedAccess
    | some pi =>
      let methods := pi.2.filter (fun (mi : Str × SwOperation) => aiMethods.contains mi.1)
      Except.ok (joinSep (("\n").data) (methods.map fun (mi : Str × SwOperation) =>
        let requestBody := match mi.2.jsonSchema with
          | some sch => generateSampleData (some sch)
          | none => []
        let hasBody := [("post").data, ("put").data, ("patch").data].contains mi.1
          && !requestBody.isEmpty
        Tpl.aiSampler_0 ++ upperStr mi.1 ++ Tpl.aiSampler_1 ++ path ++ Tpl.aiSampler_2
          ++ path ++ Tpl.aiSampler_3 ++ upperStr mi.1 ++ Tpl.aiSampler_4
          ++ (if hasBody then Tpl.aiBody_0 ++ quotOnlyEscape requestBody ++ Tpl.aiBody_1 else [])
          ++ Tpl.aiSampler_5 ++ generatePerformanceAssertions analysis ++ Tpl.aiSampler_6
          ++ generateCorrelationExtractors analysis ++ Tpl.aiSampler_7))) with
  | .error e => .error e
  | .ok blocks => .ok (joinSep (("\n").data) blocks)

/-- `generateThreadGroups` (lines 366–408). -/
def generateThreadGroups (spec : SwaggerSpec) (loadConfig : AiLoadConfig)
    (analysis : AiAnalysis) : Except JsErr Str :=
  let groupsEmpty := match analysis.recommendedThreadGroups with
    | none => true
    | some gs => gs.length = 0
  if groupsEmpty then
    let allEndpoints := spec.paths.map (·.1)
    match generateHttpSamplers spec analysis allEndpoints with
    | .error e => .error e
    | .ok samplers =>
      .ok (Tpl.aiTGdefault_0 ++ intStr (jsOrInt loadConfig.loopCount 1)
        ++ Tpl.aiTGdefault_1 ++ intStr (jsOrInt loadConfig.threadCount 10)
        ++ Tpl.aiTGdefault_2 ++ intStr (jsOrInt loadConfig.rampUpTime 60)
        ++ Tpl.aiTGdefault_3 ++ intStr (jsOrInt loadConfig.duration 300)
        ++ Tpl.aiTGdefault_4 ++ generateCsvConfigs analysis
        ++ Tpl.aiTGdefault_5 ++ samplers ++ Tpl.aiTGdefault_6)
  else
    match analysis.recommendedThreadGroups with
    | none => .ok []
    | some gs =>
      match gs.mapM (fun g =>
        match generateHttpSamplers spec analysis g.endpoints with
        | .error e => Except.error e
        | .ok samplers =>
          Except.ok (Tpl.aiTG_0 ++ g.name ++ Tpl.aiTG_1 ++ intStr (jsOrInt loadConfig.loopCount 1)
            ++ Tpl.aiTG_2 ++ intStr (jsOrInt g.recommendedThreads (jsOrInt loadConfig.threadCount 10))
            ++ Tpl.aiTG_3 ++ intStr (jsOrInt g.rampUpTime (jsOrInt loadConfig.rampUpTime 60))
            ++ Tpl.aiTG_4 ++ intStr (jsOrInt loadConfig.duration 300)
            ++ Tpl.aiTG_5 ++ generateCsvConfigs analysis
            ++ Tpl.aiTG_6 ++ samplers ++ Tpl.aiTG_7)) with
      | .error e => .error e
      | .ok blocks => .ok (joinSep (("\n").data) blocks)

/-- `parseBaseUrl` inside `generateEnhancedJMeterXml` (lines 239–251). -/
def parseBaseUrl (url : Str) : SwaggerAI.SwUrlParts :=
  match JsUrl.newURL url with
  | some u =>
    { protocol := jsReplaceFirst u.protocol ((":").data) []
      host := u.hostname
      port := if u.port ≠ [] then u.port
              else if u.protocol = ("https:").data then ("443").data else ("80").data
      path := u.pathname }
  | none =>
    { protocol := ("https").data
      host := ("api.example.com").data
      port := ("443").data
      path := [] }

/-- `generateEnhancedJMeterXml` (lines 238–520).  Note the test-plan name and
the sampler paths/test names are interpolated without any escaping, and the
body value is only quote-escaped. -/
def generateEnhancedJMeterXml (spec : SwaggerSpec) (loadConfig : AiLoadConfig)
    (analysis : AiAnalysis) : Except JsErr Str :=
  let baseUrlInfo := parseBaseUrl (jsOrStr loadConfig.baseUrl
    (jsOrStr spec.serverUrl (("https://api.example.com").data)))
  match generateThreadGroups spec loadConfig analysis with
  | .error e => .error e
  | .ok tgs =>
    .ok (Tpl.aiDoc_0 ++ jsOrStr loadConfig.testPlanName (("AI-Enhanced Performance Test").data)
      ++ Tpl.aiDoc_1 ++ baseUrlInfo.protocol ++ Tpl.aiDoc_2 ++ baseUrlInfo.host
      ++ Tpl.aiDoc_3 ++ baseUrlInfo.port ++ Tpl.aiDoc_4 ++ tgs ++ Tpl.aiDoc_5)

/-- `generateFallbackAnalysis` (lines 199–236), as the JSON object literal it
builds. -/
def generateFallbackAnalysis (swaggerSpec : SwaggerSpec) : Json :=
  let endpoints := Json.arr (swaggerSpec.paths.map (fun p => Json.str p.1))
  .obj [
    ((("recommendedThreadGroups").data),
      .arr [.obj [((("name").data), .str (("Default API Group").data)),
                  ((("endpoints").data), endpoints),
                  ((("recommendedThreads").data), .num 10),
                  ((("rampUpTime").data), .num 60),
                  ((("rationale").data), .str (("Default grouping for all endpoints").data))]]),
    ((("parameterization").data),
      .arr [.obj [((("parameter").data), .str (("userId").data)),
                  ((("description").data), .str (("User identifier for testing").data)),
                  ((("sampleValues").data),
                    .arr [.str (("1").data), .str (("2").data), .str (("3").data),
                          .str (("4").data), .str (("5").data)]),
                  ((("strategy").data), .str (("csv").data))]]),
    ((("correlationFields").data),
      .arr [.obj [((("field").data), .str (("id").data)),
                  ((("extractFrom").data), .str (("response_body").data)),
                  ((("useIn").data), endpoints),
                  ((("jsonPath").data), .str (("$.id").data))]]),
    ((("performanceAssertions").data),
      .arr [.obj [((("type").data), .str (("response_time").data)),
                  ((("threshold").data), .num 2000),
                  ((("description").data),
                    .str (("Response time should be under 2 seconds").data))]]),
    ((("loadScenarios").data),
      .arr [.obj [((("name").data), .str (("Normal Load").data)),
                  ((("description").data), .str (("Standard user load simulation").data)),
                  ((("pattern").data), .str (("ramp_up").data)),
                  ((("duration").data), .num 300),
                  ((("users").data), .num 10)]]),
    ((("securityConsiderations").data), .arr [])]

/-- `aiResponse.replace(/```json\n?|\n?```/g, '')`: remove code-fence tokens,
longest alternative first at each position. -/
def stripFences : Str → Str
  | a :: b :: c :: 'j' :: 's' :: 'o' :: 'n' :: '\n' :: t =>
    if a = btickChar ∧ b = btickChar ∧ c = btickChar then stripFences t
    else a :: stripFences (b :: c :: 'j' :: 's' :: 'o' :: 'n' :: '\n' :: t)
  | a :: b :: c :: 'j' :: 's' :: 'o' :: 'n' :: t =>
    if a = btickChar ∧ b = btickChar ∧ c = btickChar then stripFences t
    else a :: stripFences (b :: c :: 'j' :: 's' :: 'o' :: 'n' :: t)
  | '\n' :: a :: b :: c :: t =>
    if a = btickChar ∧ b = btickChar ∧ c = btickChar then stripFences t
    else '\n' :: stripFences (a :: b :: c :: t)
  | a :: b :: c :: t =>
    if a = btickChar ∧ b = btickChar ∧ c = btickChar then stripFences t
    else a :: stripFences (b :: c :: t)
  | c :: t => c :: stripFences t
  | [] => []

/-- `x || ''` applied to the navigated response text, followed by use as a
string: a missing or falsy value gives `''`; a truthy non-string value makes
the subsequent `.replace` call throw. -/
def textOrEmpty (o : Option Json) : Except JsErr Str :=
  match o with
  | none => .ok []
  | some v =>
    match v with
    | .str s => .ok s
    | _ => if v.jsTruthy then .error .typeError else .ok []

/-- `analyzeSwaggerWithAI` (lines 60–197) as a function of the provider
response: a non-success status throws (propagated to the caller — there is no
fallback on HTTP errors); a non-JSON response body throws
(`response.json()`); only a content string that fails to parse as JSON after
fence-stripping falls back to `generateFallbackAnalysis`. -/
def analyzeSwaggerWithAI (swaggerSpec : SwaggerSpec) (aiProvider : Str)
    (resp : FetchResponse) : Except JsErr Json :=
  if ¬ resp.ok then .error (.apiError resp.statusText)
  else
    match Json.jsonParse resp.bodyText with
    | none => .error .jsonError
    | some data =>
      match textOrEmpty (if aiProvider = ("google").data then HarToJmeter.googleTextNav data
                         else HarToJmeter.openaiTextNav data) with
      | .error e => .error e
      | .ok aiResponse =>
        match Json.jsonParse (stripFences aiResponse) with
        | some j => .ok j
        | none => .ok (generateFallbackAnalysis swaggerSpec)

end AiGen

/-! Concrete inputs used by the claim theorems, witnesses and counterexamples. -/

/-- A load configuration with `threadCount = 0` (invalid per the spec). -/
def lcZero : LoadConfig := ⟨0, 0, 0, 0⟩

/-- A benign load configuration. -/
def lcOne : LoadConfig := ⟨1, 1, 1, 1⟩

/-- The empty HAR analysis (no AI fields). -/
def anaEmpty : HarAnalysis := ⟨none, none⟩


/-- A single benign capture entry. -/
def cexEntryA : HarEntry :=
  ⟨⟨("GET").data, ("https://x.com/a").data, [], [], none⟩, ⟨200, []⟩, 1, []⟩

/-- An entry whose URL does not parse. -/
def badUrlEntry : HarEntry :=
  ⟨⟨("GET").data, ("not a url").data, [], [], none⟩, ⟨200, []⟩, 1, []⟩

/-- The document produced by the HAR serializer on a one-entry capture with
`threadCount = 0` and an empty title. -/
def harDocZero : Str :=
  match HarToJmeter.generateJMeterXML [cexEntryA] lcZero [] anaEmpty
      (("2026-01-01T00:00:00.000Z").data) with
  | .ok d => d
  | .error _ => []

/-- Repair-pass counterexample document: all four structural markers occur as
text (so the structural steps skip), one PUT sampler whose content ends in `Z`
and one POST sampler, neither with a body argument. -/
def repairCexDoc : Str :=
  ("SummaryReport ViewResultsFullVisualizer CookieManager CacheManager <HTTPSamplerProxy a testname=\"PUT x\" q>Z</HTTPSamplerProxy><HTTPSamplerProxy a testname=\"POST y\" q>W</HTTPSamplerProxy>").data

/-- Repair-pass counterexample entries: the POST body's 50-character prefix
(`Z</HTTPSamplerProxy>`) occurs in the document (straddling the PUT sampler's
closing tag), the PUT body `QQQ` does not. -/
def repairCexEntries : List HarEntry :=
  [ ⟨⟨("POST").data, ("https://x.com/a").data, [], [],
      some ⟨("application/json").data, ("Z</HTTPSamplerProxy>").data⟩⟩, ⟨200, []⟩, 1, []⟩,
    ⟨⟨("PUT").data, ("https://x.com/b").data, [], [],
      some ⟨("application/json").data, ("QQQ").data⟩⟩, ⟨200, []⟩, 1, []⟩ ]

/-- A swagger load configuration with every optional feature off. -/
def swLcPlain : SwaggerAI.SwLoadConfig := ⟨[], 1, 1, 1, 1, false, false, false, none⟩

/-- A document missing only the summary listener: the detailed-results marker
is present, the summary marker is not, and the document ends with the closing
sequence the repair pass rewrites. -/
def missingSummaryDoc : Str :=
  ("ViewResultsFullVisualizer\n</hashTree>\n</jmeterTestPlan>").data

/-- A contract with a single path whose name contains a raw ampersand. -/
def ampSpec : SwaggerSpec :=
  ⟨[(("/a&b").data, [(("post").data,
      ⟨[], some ⟨some [(("age").data, ⟨some ("integer").data, none, none⟩),
                       (("name").data, ⟨some ("string").data, some (.str ("Ann").data), none⟩)]⟩⟩)])],
   none⟩

/-- An `ai-jmeter-generator` load configuration with no fields set. -/
def aiLcNone : AiGen.AiLoadConfig := ⟨none, none, none, none, none, none⟩

/-- An AI analysis with no fields set. -/
def aiAnaNone : AiGen.AiAnalysis := ⟨none, none, none, none⟩

/-- An empty contract document. -/
def specEmpty : SwaggerSpec := ⟨[], none⟩

/-- A failed provider response. -/
def respErr : FetchResponse := ⟨false, ("Bad Gateway").data, []⟩

/-- A successful provider response whose content text is not JSON. -/
def respGarbage : FetchResponse :=
  ⟨true, [],
   ("\x7b\"candidates\":[\x7b\"content\":\x7b\"parts\":[\x7b\"text\":\"garbage not json\"\x7d]\x7d\x7d]\x7d").data⟩

/-- A successful provider response whose body is not JSON at all. -/
def respBadBody : FetchResponse := ⟨true, [], ("not json").data⟩

/-- The parsed JSON body of `respGarbage`. -/
def respGarbageJson : Json :=
  .obj [((("candidates").data),
    .arr [.obj [((("content").data),
      .obj [((("parts").data),
        .arr [.obj [((("text").data), .str (("garbage not json").data))]])])]])]

/-- Grouping counterexample: recommended groups with a single `API` group. -/
def grpGroups : List ReqGroup := [⟨("API").data, ("/api/").data⟩]

/-- Grouping counterexample entry matching no group. -/
def grpE1 : HarEntry :=
  ⟨⟨("GET").data, ("https://x.com/home").data, [], [], none⟩, ⟨200, []⟩, 1, []⟩

/-- Grouping counterexample entry matching the `API` group. -/
def grpE2 : HarEntry :=
  ⟨⟨("GET").data, ("https://x.com/api/u").data, [], [], none⟩, ⟨200, []⟩, 1, []⟩

/-- Grouping counterexample entries: the first entry matches no group, the
second matches `API`. -/
def grpEntries : List HarEntry := [grpE1, grpE2]

/-- The schema of the C7 example (`age` integer without example, `name` string
with example `Ann`). -/
def c7Schema : Schema :=
  ⟨some [(("age").data, ⟨some ("integer").data, none, none⟩),
         (("name").data, ⟨some ("string").data, some (.str ("Ann").data), none⟩)]⟩

/-- The document produced by the `ai-jmeter-generator` serializer on
`ampSpec`. -/
def aiDocAmp : Str :=
  match AiGen.generateEnhancedJMeterXml ampSpec aiLcNone aiAnaNone with
  | .ok d => d
  | .error _ => []

/-- The constant head of the `ai-jmeter-generator` sampler template up to its
`testname` attribute. -/
def sampler0Head : Str := ("\n          <HTTPSamplerProxy guiclass=\"HttpTestSampleGui\" testclass=\"HTTPSamplerProxy\" ").data

/-- The `ai-jmeter-generator` sampler template after the closing quote of the
`testname` attribute. -/
def sampler2Tail : Str := (" enabled=\"true\">\n            <elementProp name=\"HTTPsampler.Arguments\" elementType=\"Arguments\" guiclass=\"HTTPArgumentsPanel\" testclass=\"Arguments\" enabled=\"true\">\n              <collectionProp name=\"Arguments.arguments\"/>\n            </elementProp>\n            <stringProp name=\"HTTPSampler.domain\">$\x7bHOST\x7d</stringProp>\n            <stringProp name=\"HTTPSampler.port\">$\x7bPORT\x7d</stringProp>\n            <stringProp name=\"HTTPSampler.protocol\">$\x7bPROTOCOL\x7d</stringProp>\n            <stringProp name=\"HTTPSampler.contentEncoding\"></stringProp>\n            <stringProp name=\"HTTPSampler.path\">").data

/-- The quote-escaped sample body for `ampSpec`. -/
def ampBodyQuot : Str := ("\x7b\n  &quot;age&quot;: 123,\n  &quot;name&quot;: &quot;Ann&quot;\n\x7d").data

/-- `aiDocAmp` as an ordered list of segments. -/
def chunksAmp : List Str :=
  [ Tpl.aiDoc_0, ("AI-Enhanced Performance Test").data, Tpl.aiDoc_1, ("https").data,
    Tpl.aiDoc_2, ("api.example.com").data, Tpl.aiDoc_3, ("443").data, Tpl.aiDoc_4,
    Tpl.aiTGdefault_0, ("1").data, Tpl.aiTGdefault_1, ("10").data, Tpl.aiTGdefault_2,
    ("60").data, Tpl.aiTGdefault_3, ("300").data, Tpl.aiTGdefault_4, Tpl.aiTGdefault_5,
    Tpl.aiSampler_0, ("POST").data, Tpl.aiSampler_1, ("/a&b").data, Tpl.aiSampler_2,
    ("/a&b").data, Tpl.aiSampler_3, ("POST").data, Tpl.aiSampler_4,
    Tpl.aiBody_0, ampBodyQuot, Tpl.aiBody_1, Tpl.aiSampler_5, Tpl.aiSampler_6,
    Tpl.aiSampler_7, Tpl.aiTGdefault_6, Tpl.aiDoc_5a, Tpl.aiDoc_5b ]

/-- Split constants for exhibiting substrings of `harDocZero`. -/
def harDoc0Head : Str := ("<?xml version=\"1.0\" encoding=\"UTF-8\"?>\n<jmeterTestPlan version=\"1.2\" properties=\"5.0\" jmeter=\"5.4.1\">\n  <hashTree>\n    <TestPlan guiclass=\"TestPlanGui\" testclass=\"TestPlan\" ").data

def harDoc1Tail : Str := (" enabled=\"true\">\n      <stringProp name=\"TestPlan.comments\">Generated from HAR file using AI analysis on ").data

def tg2Head : Str := ("</stringProp>\n      </elementProp>\n      <stringProp name=").data

def tg3Tail : Str := ("/stringProp>\n      <stringProp name=\"ThreadGroup.ramp_time\">").data

/-- The empty fallback-serializer analysis. -/
def swAnaNone : SwaggerAI.SwAnalysis := ⟨none, none⟩

/-- The fallback swagger serializer's output on an empty contract. -/
def swDocPlain : Str :=
  SwaggerAI.generateJMeterXML specEmpty swLcPlain swAnaNone
    (("2026-01-01T00:00:00.000Z").data)

/-- `swDocPlain` as an ordered list of segments. -/
def chunksSwPlain : List Str :=
  [ Tpl.swDoc_0, Tpl.swDoc_1, ("2026-01-01T00:00:00.000Z").data, Tpl.swDoc_2,
    ("https").data, Tpl.swDoc_3, ("api.example.com").data, Tpl.swDoc_4,
    ("443").data, Tpl.swDoc_5, Tpl.swDoc_6 ]

/-- The summary-listener step of the fallback repair pass (the first `let` of
`enhanceJMeterXML`). -/
def swF1 (d : Str) : Str :=
  if JsStr.jsIncludes d Repair.srMarker then d
  else JsStr.jsReplaceFirst d Repair.closePat (Tpl.insSummary_0 ++ Repair.closeRepl)

/-- The detailed-results-listener step of the fallback repair pass (the second
`let` of `enhanceJMeterXML`). -/
def swF2 (d : Str) : Str :=
  if JsStr.jsIncludes d Repair.vrtMarker then d
  else JsStr.jsReplaceFirst d Repair.closePat (Tpl.insVrt_0 ++ Repair.closeRepl)

/-- The CSV step of the fallback repair pass (the final `if` of
`enhanceJMeterXML`). -/
def swF3 (lc : SwaggerAI.SwLoadConfig) (d : Str) : Str :=
  if lc.addCsvConfig && !(JsStr.jsIncludes d Repair.csvMarker) then
    JsRegex.tgInsertAll Tpl.insCsv_0 d
  else d

/-! ### Basic lemmas about the string primitives -/

namespace JsStr

theorem findSub_isSome_iff (pat : Str) : ∀ s : Str, (findSub pat s).isSome = true ↔ pat <:+: s := by
  intro s
  induction s with
  | nil =>
    simp only [findSub]
    by_cases h : pat.isEmpty
    · rw [if_pos h]
      have hp : pat = [] := List.isEmpty_iff.mp h
      subst hp
      simp
    · rw [if_neg h]
      simp only [Option.isSome_none, Bool.false_eq_true, false_iff]
      intro hinf
      exact h (List.isEmpty_iff.mpr (List.sublist_nil.mp hinf.sublist))
  | cons c t ih =>
    simp only [findSub]
    by_cases h : pat.isPrefixOf (c :: t) = true
    · rw [if_pos h]
      simp only [Option.isSome_some, true_iff]
      exact (List.isPrefixOf_iff_prefix.mp h).isInfix
    · rw [if_neg h]
      have hmap : ((findSub pat t).map (· + 1)).isSome = (findSub pat t).isSome := by
        cases findSub pat t <;> rfl
      rw [hmap, ih, List.infix_cons_iff]
      constructor
      · exact Or.inr
      · rintro (hp | hi)
        · exact absurd (List.isPrefixOf_iff_prefix.mpr hp) h
        · exact hi

theorem findSub_none_iff (pat s : Str) : findSub pat s = none ↔ ¬ pat <:+: s := by
  rw [← findSub_isSome_iff]
  cases findSub pat s <;> simp

theorem jsIncludes_iff (s pat : Str) : jsIncludes s pat = true ↔ pat <:+: s := by
  rw [jsIncludes, findSub_isSome_iff]

theorem jsIncludes_false_iff (s pat : Str) : jsIncludes s pat = false ↔ ¬ pat <:+: s := by
  rw [← jsIncludes_iff]
  cases jsIncludes s pat <;> simp

theorem findSub_decomp (pat : Str) :
    ∀ (s : Str) (i : Nat), findSub pat s = some i →
      s = s.take i ++ pat ++ s.drop (i + pat.length) := by
  intro s
  induction s with
  | nil =>
    intro i h
    simp only [findSub] at h
    by_cases he : pat.isEmpty
    · rw [if_pos he, Option.some_inj] at h
      subst h
      simp [List.isEmpty_iff.mp he]
    · rw [if_neg he] at h
      exact absurd h (by simp)
  | cons c t ih =>
    intro i h
    simp only [findSub] at h
    by_cases hp : pat.isPrefixOf (c :: t) = true
    · rw [if_pos hp, Option.some_inj] at h
      subst h
      obtain ⟨u, hu⟩ := List.isPrefixOf_iff_prefix.mp hp
      conv_lhs => rw [← hu]
      simp [← hu]
    · rw [if_neg hp, Option.map_eq_some'] at h
      obtain ⟨j, hj, rfl⟩ := h
      have := ih j hj
      calc c :: t = c :: (t.take j ++ pat ++ t.drop (j + pat.length)) := by rw [← this]
        _ = (c :: t).take (j + 1) ++ pat ++ (c :: t).drop (j + 1 + pat.length) := by
              simp only [List.take_succ_cons, List.cons_append]
              rw [Nat.add_right_comm]
              rfl

theorem jsReplaceFirst_of_not_infix {pat s : Str} (h : ¬ pat <:+: s) (repl : Str) :
    jsReplaceFirst s pat repl = s := by
  rw [jsReplaceFirst, (findSub_none_iff pat s).mpr h]

theorem noDollar_expand (bef mat aft : Str) :
    ∀ r : Str, '$' ∉ r → jsExpandRepl bef mat aft r = r := by
  intro r
  induction r with
  | nil => intro _; rfl
  | cons c r ih =>
    intro h
    have hc : c ≠ '$' := fun hc => h (hc ▸ List.mem_cons_self c r)
    have hr : '$' ∉ r := fun hr => h (List.mem_cons_of_mem c hr)
    have hstep : jsExpandRepl bef mat aft (c :: r) = c :: jsExpandRepl bef mat aft r := by
      rw [jsExpandRepl.eq_def]; exact if_neg hc
    rw [hstep, ih hr]

end JsStr

/-! ### XML escaping -/

namespace JsStr

theorem isPrefixOf_cons_neq {a c : Char} (l r : Str) (h : a ≠ c) :
    (a :: l).isPrefixOf (c :: r) = false := by
  show (a == c && l.isPrefixOf r) = false
  rw [beq_eq_false_iff_ne.mpr h, Bool.false_and]

theorem escChar_no_special (c x : Char)
    (hx : x = '<' ∨ x = '>' ∨ x = '"' ∨ x = aposChar) : x ∉ escChar c := by
  intro hmem
  rw [escChar] at hmem
  split_ifs at hmem with h1 h2 h3 h4 h5
  · rcases hx with rfl | rfl | rfl | rfl <;> revert hmem <;> decide
  · rcases hx with rfl | rfl | rfl | rfl <;> revert hmem <;> decide
  · rcases hx with rfl | rfl | rfl | rfl <;> revert hmem <;> decide
  · rcases hx with rfl | rfl | rfl | rfl <;> revert hmem <;> decide
  · rcases hx with rfl | rfl | rfl | rfl <;> revert hmem <;> decide
  · have hxc : x = c := List.mem_singleton.mp hmem
    subst hxc
    rcases hx with rfl | rfl | rfl | rfl
    · exact h1 rfl
    · exact h2 rfl
    · exact h5 rfl
    · exact h4 rfl

theorem escapeXml_no_special (s : Str) (x : Char)
    (hx : x = '<' ∨ x = '>' ∨ x = '"' ∨ x = aposChar) : x ∉ escapeXml s := by
  intro hmem
  rw [escapeXml, List.mem_flatten] at hmem
  obtain ⟨l, hl, hxl⟩ := hmem
  rw [List.mem_map] at hl
  obtain ⟨c, _, rfl⟩ := hl
  exact escChar_no_special c x hx hxl

theorem unescape_escChar (c : Char) (r : Str) :
    unescapeXml (escChar c ++ r) = c :: unescapeXml r := by
  by_cases h1 : c = '<'
  · subst h1; rw [show escChar '<' = ('&' :: 'l' :: 't' :: ';' :: []) from rfl]
    rw [unescapeXml.eq_def]; simp [List.isPrefixOf]
  by_cases h2 : c = '>'
  · subst h2; rw [show escChar '>' = ('&' :: 'g' :: 't' :: ';' :: []) from rfl]
    rw [unescapeXml.eq_def]; simp [List.isPrefixOf]
  by_cases h3 : c = '&'
  · subst h3; rw [show escChar '&' = ('&' :: 'a' :: 'm' :: 'p' :: ';' :: []) from rfl]
    rw [unescapeXml.eq_def]; simp [List.isPrefixOf]
  by_cases h4 : c = aposChar
  · subst h4
    rw [show escChar aposChar = ('&' :: 'a' :: 'p' :: 'o' :: 's' :: ';' :: []) from rfl]
    rw [unescapeXml.eq_def]; simp [List.isPrefixOf, aposChar]
  by_cases h5 : c = '"'
  · subst h5; rw [show escChar '"' = ('&' :: 'q' :: 'u' :: 'o' :: 't' :: ';' :: []) from rfl]
    rw [unescapeXml.eq_def]; simp [List.isPrefixOf]
  · have hesc : escChar c = [c] := by
      rw [escChar, if_neg h1, if_neg h2, if_neg h3, if_neg h4, if_neg h5]
    rw [hesc, List.cons_append, List.nil_append, unescapeXml.eq_def]
    have hne : ('&' == c) = false := beq_eq_false_iff_ne.mpr (fun he => h3 he.symm)
    simp [List.isPrefixOf, hne]

theorem unescape_escape (s : Str) : unescapeXml (escapeXml s) = s := by
  induction s with
  | nil =>
    rw [show escapeXml [] = [] from rfl, unescapeXml.eq_def]
  | cons c t ih =>
    have h : escapeXml (c :: t) = escChar c ++ escapeXml t := by simp [escapeXml]
    rw [h, unescape_escChar, ih]

end JsStr

/-! ### Claim C1 -/

/-- C1: the shared `escapeXml` helper of the HAR serializer replaces each of
the five XML special characters by its entity: its output never contains a raw
`<`, `>`, `"` or `'`, and decoding the five entities recovers the original
text exactly (so raw `&` only ever appears as part of an entity it emitted).
This is the escaping guarantee the claim asserts, and it holds wherever
`escapeXml` is actually applied. -/
theorem c1_escapeXml_escapes_specials (s : Str) :
    '<' ∉ JsStr.escapeXml s ∧ '>' ∉ JsStr.escapeXml s ∧ '"' ∉ JsStr.escapeXml s ∧
      JsStr.aposChar ∉ JsStr.escapeXml s ∧
      JsStr.unescapeXml (JsStr.escapeXml s) = s :=
  ⟨JsStr.escapeXml_no_special s '<' (Or.inl rfl),
   JsStr.escapeXml_no_special s '>' (Or.inr (Or.inl rfl)),
   JsStr.escapeXml_no_special s '"' (Or.inr (Or.inr (Or.inl rfl))),
   JsStr.escapeXml_no_special s JsStr.aposChar (Or.inr (Or.inr (Or.inr rfl))),
   JsStr.unescape_escape s⟩

namespace JsStr

theorem countSub_eq_zero_of_lt (pat : Str) :
    ∀ s : Str, s.length < pat.length → countSub pat s = 0 := by
  intro s
  induction s with
  | nil => intro _; rfl
  | cons c t ih =>
    intro h
    have hp : ¬ (pat.isPrefixOf (c :: t) = true) := by
      rw [List.isPrefixOf_iff_prefix]
      intro hpre
      have hle := hpre.length_le
      simp only [List.length_cons] at hle h
      omega
    have ht : t.length < pat.length := by
      simp only [List.length_cons] at h; omega
    show (if pat.isPrefixOf (c :: t) then 1 else 0) + countSub pat t = 0
    rw [if_neg hp, ih ht]

theorem isPrefixOf_eq_of_take_eq {pat s s' : Str}
    (h : s.take pat.length = s'.take pat.length) :
    pat.isPrefixOf s = pat.isPrefixOf s' := by
  apply Bool.eq_iff_iff.mpr
  rw [List.isPrefixOf_iff_prefix, List.isPrefixOf_iff_prefix]
  constructor
  · intro hh
    have h1 : pat <+: s.take pat.length := (List.prefix_take_iff).mpr ⟨hh, le_refl _⟩
    rw [h] at h1
    exact ((List.prefix_take_iff).mp h1).1
  · intro hh
    have h1 : pat <+: s'.take pat.length := (List.prefix_take_iff).mpr ⟨hh, le_refl _⟩
    rw [← h] at h1
    exact ((List.prefix_take_iff).mp h1).1

theorem countSub_append_take (pat : Str) (hpat : pat ≠ []) :
    ∀ (x y : Str), countSub pat (x ++ y)
      = countSub pat (x ++ y.take (pat.length - 1)) + countSub pat y := by
  intro x
  induction x with
  | nil =>
    intro y
    simp only [List.nil_append]
    have hlen : (y.take (pat.length - 1)).length < pat.length := by
      have h1 : (y.take (pat.length - 1)).length ≤ pat.length - 1 := by
        simp [List.length_take]
      have h2 : 0 < pat.length := List.length_pos.mpr hpat
      omega
    rw [countSub_eq_zero_of_lt pat _ hlen, Nat.zero_add]
  | cons c x ih =>
    intro y
    show (if pat.isPrefixOf (c :: (x ++ y)) then 1 else 0) + countSub pat (x ++ y)
      = ((if pat.isPrefixOf (c :: (x ++ y.take (pat.length - 1))) then 1 else 0)
          + countSub pat (x ++ y.take (pat.length - 1))) + countSub pat y
    have hcond : pat.isPrefixOf (c :: (x ++ y))
        = pat.isPrefixOf (c :: (x ++ y.take (pat.length - 1))) := by
      apply isPrefixOf_eq_of_take_eq
      cases hn : pat.length with
      | zero => simp [hn]
      | succ m =>
        simp only [List.take_succ_cons, Nat.add_sub_cancel]
        congr 1
        rw [List.take_append_eq_append_take, List.take_append_eq_append_take]
        congr 1
        rw [List.take_take, Nat.min_eq_left (by omega)]
    rw [hcond, ih y]
    omega

theorem countSub_flatten (pat : Str) (hpat : pat ≠ []) :
    ∀ l : List Str, countSub pat l.flatten = countSubChunks pat l := by
  intro l
  induction l with
  | nil => rfl
  | cons x t ih =>
    show countSub pat (x ++ t.flatten) = _
    rw [countSub_append_take pat hpat x t.flatten, ih]
    rfl

theorem countSub_eq_zero_iff (pat : Str) (hpat : pat ≠ []) :
    ∀ s : Str, countSub pat s = 0 ↔ ¬ pat <:+: s := by
  intro s
  induction s with
  | nil =>
    constructor
    · intro _ hinf
      exact hpat (List.eq_nil_of_infix_nil hinf)
    · intro _; rfl
  | cons c t ih =>
    show ((if pat.isPrefixOf (c :: t) then 1 else 0) + countSub pat t = 0) ↔ _
    rw [List.infix_cons_iff]
    by_cases hp : pat.isPrefixOf (c :: t) = true
    · rw [if_pos hp]
      constructor
      · intro h
        exact absurd h (by omega)
      · intro h
        exact absurd (Or.inl (List.isPrefixOf_iff_prefix.mp hp)) h
    · rw [if_neg hp, Nat.zero_add, ih]
      constructor
      · intro h hor
        rcases hor with hpre | hinf
        · exact hp (List.isPrefixOf_iff_prefix.mpr hpre)
        · exact h hinf
      · intro h hinf
        exact h (Or.inr hinf)

end JsStr

/-- The serializer output on `ampSpec` decomposed into its template segments,
exactly as `generateEnhancedJMeterXml` assembles them. -/
theorem aiDocAmp_decomp :
    aiDocAmp =
      Tpl.aiDoc_0 ++ (("AI-Enhanced Performance Test").data)
        ++ Tpl.aiDoc_1 ++ (("https").data) ++ Tpl.aiDoc_2 ++ (("api.example.com").data)
        ++ Tpl.aiDoc_3 ++ (("443").data) ++ Tpl.aiDoc_4
        ++ (Tpl.aiTGdefault_0 ++ (("1").data) ++ Tpl.aiTGdefault_1 ++ (("10").data)
            ++ Tpl.aiTGdefault_2 ++ (("60").data) ++ Tpl.aiTGdefault_3 ++ (("300").data)
            ++ Tpl.aiTGdefault_4 ++ [] ++ Tpl.aiTGdefault_5
            ++ (Tpl.aiSampler_0 ++ (("POST").data) ++ Tpl.aiSampler_1 ++ (("/a&b").data)
                ++ Tpl.aiSampler_2 ++ (("/a&b").data) ++ Tpl.aiSampler_3 ++ (("POST").data)
                ++ Tpl.aiSampler_4
                ++ (Tpl.aiBody_0 ++ ampBodyQuot ++ Tpl.aiBody_1)
                ++ Tpl.aiSampler_5 ++ [] ++ Tpl.aiSampler_6 ++ [] ++ Tpl.aiSampler_7)
            ++ Tpl.aiTGdefault_6)
        ++ Tpl.aiDoc_5 := rfl

/-- `aiDocAmp` equals the flattening of its segment list. -/
theorem aiDocAmp_chunks : aiDocAmp = chunksAmp.flatten := by
  rw [aiDocAmp_decomp]
  simp only [chunksAmp, Tpl.aiDoc_5, List.flatten_cons, List.flatten_nil,
    List.append_assoc, List.append_nil, List.nil_append]

set_option maxRecDepth 20000 in
/-- No `&amp;` entity occurs anywhere in `aiDocAmp`. -/
theorem aiDocAmp_no_amp_entity : JsStr.countSub (("&amp;").data) aiDocAmp = 0 := by
  rw [aiDocAmp_chunks, JsStr.countSub_flatten _ (by decide)]
  decide

theorem aiSampler_0_split : Tpl.aiSampler_0 = sampler0Head ++ (("testname=\"").data) := rfl

theorem aiSampler_2_split : Tpl.aiSampler_2 = (("\"").data) ++ sampler2Tail := rfl

/-- C1 counterexample: the `ai-jmeter-generator` serializer interpolates the
endpoint path into the sampler `testname` attribute without any escaping: for
a contract with path `/a&b` the generated document contains the raw text
`testname="POST /a&b"` (an unescaped `&` inside attribute content), and no
`&amp;` entity occurs anywhere in the document. -/
theorem c1_cex_ai_generator_path_unescaped :
    AiGen.generateEnhancedJMeterXml ampSpec aiLcNone aiAnaNone = .ok aiDocAmp ∧
    (("testname=\"POST /a&b\"").data) <:+: aiDocAmp ∧
    ¬ (("&amp;").data) <:+: aiDocAmp := by
  refine ⟨rfl, ?_, ?_⟩
  · refine ⟨Tpl.aiDoc_0 ++ (("AI-Enhanced Performance Test").data)
      ++ Tpl.aiDoc_1 ++ (("https").data) ++ Tpl.aiDoc_2 ++ (("api.example.com").data)
      ++ Tpl.aiDoc_3 ++ (("443").data) ++ Tpl.aiDoc_4
      ++ Tpl.aiTGdefault_0 ++ (("1").data) ++ Tpl.aiTGdefault_1 ++ (("10").data)
      ++ Tpl.aiTGdefault_2 ++ (("60").data) ++ Tpl.aiTGdefault_3 ++ (("300").data)
      ++ Tpl.aiTGdefault_4 ++ Tpl.aiTGdefault_5 ++ sampler0Head,
      sampler2Tail ++ (("/a&b").data) ++ Tpl.aiSampler_3 ++ (("POST").data)
      ++ Tpl.aiSampler_4 ++ Tpl.aiBody_0 ++ ampBodyQuot ++ Tpl.aiBody_1
      ++ Tpl.aiSampler_5 ++ Tpl.aiSampler_6 ++ Tpl.aiSampler_7
      ++ Tpl.aiTGdefault_6 ++ Tpl.aiDoc_5, ?_⟩
    rw [aiDocAmp_decomp, aiSampler_0_split, aiSampler_2_split,
      show (("testname=\"POST /a&b\"").data)
        = (("testname=\"").data) ++ (("POST").data) ++ Tpl.aiSampler_1
            ++ (("/a&b").data) ++ (("\"").data) from rfl]
    simp only [List.append_assoc, List.append_nil, List.nil_append]
  · intro hinf
    exact ((JsStr.countSub_eq_zero_iff _ (by decide) aiDocAmp).mp
      aiDocAmp_no_amp_entity) hinf

/-! ### Claim C5 -/

set_option maxRecDepth 40000 in
/-- C5 (amended): the HAR serializer performs no input validation at all — no
`SerializationError` exists in the code: it succeeds on an empty capture and on
a one-entry capture for *every* load configuration (including `threadCount =
0`) and every title (including the empty string); the only failure it can
produce is a URL parse error while sampling an entry whose request URL does
not parse. -/
theorem c5_no_validation :
    (∀ (lc : LoadConfig) (title nowIso : Str),
        (HarToJmeter.generateJMeterXML [] lc title anaEmpty nowIso).isOk = true) ∧
    (∀ (lc : LoadConfig) (title nowIso : Str),
        (HarToJmeter.generateJMeterXML [cexEntryA] lc title anaEmpty nowIso).isOk = true) ∧
    (∀ (lc : LoadConfig) (title nowIso : Str),
        HarToJmeter.generateJMeterXML [badUrlEntry] lc title anaEmpty nowIso
          = .error .urlError) :=
  ⟨fun _ _ _ => rfl, fun _ _ _ => rfl, fun _ _ _ => rfl⟩

/-- `harDocZero` decomposed into its template segments, exactly as
`generateJMeterXML` assembles them for the one-entry capture. -/
theorem harDocZero_decomp :
    harDocZero =
      Tpl.harDoc_0 ++ [] ++ Tpl.harDoc_1 ++ (("2026-01-01T00:00:00.000Z").data)
        ++ Tpl.harDoc_2 ++ (("https://x.com").data) ++ Tpl.harDoc_3
        ++ (Tpl.harTG_0 ++ (("Default").data) ++ Tpl.harTG_1 ++ (("0").data)
            ++ Tpl.harTG_2 ++ (("0").data) ++ Tpl.harTG_3 ++ (("0").data)
            ++ Tpl.harTG_4 ++ (("0").data) ++ Tpl.harTG_5
            ++ (Tpl.harSampler_0 ++ (("GET /a").data) ++ Tpl.harSampler_1 ++ []
                ++ Tpl.harSampler_2 ++ (("x.com").data) ++ Tpl.harSampler_3 ++ (("443").data)
                ++ Tpl.harSampler_4 ++ (("https").data) ++ Tpl.harSampler_5 ++ (("/a").data)
                ++ Tpl.harSampler_6 ++ (("GET").data) ++ Tpl.harSampler_7 ++ []
                ++ Tpl.harSampler_8 ++ [] ++ Tpl.harSampler_9 ++ [] ++ Tpl.harSampler_10)
            ++ Tpl.harTG_6)
        ++ Tpl.harDoc_4 := rfl

theorem harDoc_0_split : Tpl.harDoc_0 = harDoc0Head ++ (("testname=\"").data) := rfl

theorem harDoc_1_split : Tpl.harDoc_1 = (("\"").data) ++ harDoc1Tail := rfl

theorem harTG_2_split :
    Tpl.harTG_2 = tg2Head ++ (("\"ThreadGroup.num_threads\">").data) := rfl

theorem harTG_3_split : Tpl.harTG_3 = (("<").data) ++ tg3Tail := rfl

set_option maxRecDepth 40000 in
/-- C5 counterexample: the serializer *accepts* a `LoadProfile` with
`threadCount = 0` together with an empty title — the precise inputs on which
the claim says it must fail — and emits a document containing
`"ThreadGroup.num_threads">0<` and an empty `testname=""` attribute. -/
theorem c5_cex_invalid_input_accepted :
    HarToJmeter.generateJMeterXML [cexEntryA] lcZero [] anaEmpty
        (("2026-01-01T00:00:00.000Z").data) = .ok harDocZero ∧
    (("\"ThreadGroup.num_threads\">0<").data) <:+: harDocZero ∧
    (("testname=\"\"").data) <:+: harDocZero := by
  refine ⟨rfl, ?_, ?_⟩
  · refine ⟨Tpl.harDoc_0 ++ Tpl.harDoc_1 ++ (("2026-01-01T00:00:00.000Z").data)
      ++ Tpl.harDoc_2 ++ (("https://x.com").data) ++ Tpl.harDoc_3
      ++ Tpl.harTG_0 ++ (("Default").data) ++ Tpl.harTG_1 ++ (("0").data) ++ tg2Head,
      tg3Tail ++ (("0").data)
      ++ Tpl.harTG_4 ++ (("0").data) ++ Tpl.harTG_5
      ++ Tpl.harSampler_0 ++ (("GET /a").data) ++ Tpl.harSampler_1
      ++ Tpl.harSampler_2 ++ (("x.com").data) ++ Tpl.harSampler_3 ++ (("443").data)
      ++ Tpl.harSampler_4 ++ (("https").data) ++ Tpl.harSampler_5 ++ (("/a").data)
      ++ Tpl.harSampler_6 ++ (("GET").data) ++ Tpl.harSampler_7
      ++ Tpl.harSampler_8 ++ Tpl.harSampler_9 ++ Tpl.harSampler_10
      ++ Tpl.harTG_6 ++ Tpl.harDoc_4, ?_⟩
    rw [harDocZero_decomp, harTG_2_split, harTG_3_split,
      show (("\"ThreadGroup.num_threads\">0<").data)
        = (("\"ThreadGroup.num_threads\">").data) ++ (("0").data) ++ (("<").data) from rfl]
    simp only [List.append_assoc, List.append_nil, List.nil_append]
  · refine ⟨harDoc0Head,
      harDoc1Tail ++ (("2026-01-01T00:00:00.000Z").data)
      ++ Tpl.harDoc_2 ++ (("https://x.com").data) ++ Tpl.harDoc_3
      ++ Tpl.harTG_0 ++ (("Default").data) ++ Tpl.harTG_1 ++ (("0").data)
      ++ Tpl.harTG_2 ++ (("0").data) ++ Tpl.harTG_3 ++ (("0").data)
      ++ Tpl.harTG_4 ++ (("0").data) ++ Tpl.harTG_5
      ++ Tpl.harSampler_0 ++ (("GET /a").data) ++ Tpl.harSampler_1
      ++ Tpl.harSampler_2 ++ (("x.com").data) ++ Tpl.harSampler_3 ++ (("443").data)
      ++ Tpl.harSampler_4 ++ (("https").data) ++ Tpl.harSampler_5 ++ (("/a").data)
      ++ Tpl.harSampler_6 ++ (("GET").data) ++ Tpl.harSampler_7
      ++ Tpl.harSampler_8 ++ Tpl.harSampler_9 ++ Tpl.harSampler_10
      ++ Tpl.harTG_6 ++ Tpl.harDoc_4, ?_⟩
    rw [harDocZero_decomp, harDoc_0_split, harDoc_1_split,
      show (("testname=\"\"").data)
        = (("testname=\"").data) ++ (("\"").data) from rfl]
    simp only [List.append_assoc, List.append_nil, List.nil_append]

/-! ### Claim C6 -/

/-- C6 (amended): the two adapters disagree with the claimed fallback
behaviour.  The `ai-jmeter-generator` adapter `analyzeSwaggerWithAI`
*propagates* an HTTP error from the provider (it throws before any fallback
logic runs) and likewise throws when the provider response body is not JSON;
only a successfully transported response whose extracted content text fails to
parse as JSON falls back to `generateFallbackAnalysis`.  The `har-to-jmeter`
endpoint, by contrast, does return its fixed fallback analysis on an HTTP
error or a non-JSON body. -/
theorem c6_adapter_error_paths :
    (∀ (spec : SwaggerSpec) (prov : Str) (resp : FetchResponse),
        resp.ok = false →
        AiGen.analyzeSwaggerWithAI spec prov resp = .error (.apiError resp.statusText)) ∧
    (∀ (spec : SwaggerSpec) (prov : Str) (resp : FetchResponse),
        resp.ok = true → Json.jsonParse resp.bodyText = none →
        AiGen.analyzeSwaggerWithAI spec prov resp = .error .jsonError) ∧
    (∀ (spec : SwaggerSpec) (prov : Str) (resp : FetchResponse) (d : Json) (aiText : Str),
        resp.ok = true → Json.jsonParse resp.bodyText = some d →
        AiGen.textOrEmpty (if prov = ("google").data then HarToJmeter.googleTextNav d
                           else HarToJmeter.openaiTextNav d) = .ok aiText →
        Json.jsonParse (AiGen.stripFences aiText) = none →
        AiGen.analyzeSwaggerWithAI spec prov resp
          = .ok (AiGen.generateFallbackAnalysis spec)) ∧
    (∀ (prov : Str) (resp : FetchResponse),
        resp.ok = false →
        HarToJmeter.harParseAnalysis prov resp = HarToJmeter.harFallbackAnalysis) ∧
    (∀ (prov : Str) (resp : FetchResponse),
        resp.ok = true → Json.jsonParse resp.bodyText = none →
        HarToJmeter.harParseAnalysis prov resp = HarToJmeter.harFallbackAnalysis) := by
  refine ⟨?_, ?_, ?_, ?_, ?_⟩
  · intro spec prov resp h
    rw [AiGen.analyzeSwaggerWithAI, if_pos (by simp [h])]
  · intro spec prov resp h1 h2
    rw [AiGen.analyzeSwaggerWithAI, if_neg (by simp [h1])]
    simp only [h2]
  · intro spec prov resp d aiText h1 h2 h3 h4
    rw [AiGen.analyzeSwaggerWithAI, if_neg (by simp [h1])]
    simp only [h2, h3, h4]
  · intro prov resp h
    rw [HarToJmeter.harParseAnalysis, if_pos (by simp [h])]
  · intro prov resp h1 h2
    rw [HarToJmeter.harParseAnalysis, if_neg (by simp [h1])]
    simp only [h2]

set_option maxRecDepth 40000 in
/-- Closed instances of `c6_adapter_error_paths` at concrete responses. -/
theorem c6_adapter_error_paths_witness :
    AiGen.analyzeSwaggerWithAI specEmpty (("google").data) respErr
        = .error (.apiError respErr.statusText) ∧
    AiGen.analyzeSwaggerWithAI specEmpty (("google").data) respBadBody
        = .error .jsonError ∧
    AiGen.analyzeSwaggerWithAI specEmpty (("google").data) respGarbage
        = .ok (AiGen.generateFallbackAnalysis specEmpty) ∧
    HarToJmeter.harParseAnalysis (("google").data) respErr
        = HarToJmeter.harFallbackAnalysis ∧
    HarToJmeter.harParseAnalysis (("google").data) respBadBody
        = HarToJmeter.harFallbackAnalysis :=
  ⟨c6_adapter_error_paths.1 specEmpty (("google").data) respErr rfl,
   c6_adapter_error_paths.2.1 specEmpty (("google").data) respBadBody rfl rfl,
   c6_adapter_error_paths.2.2.1 specEmpty (("google").data) respGarbage respGarbageJson
     (("garbage not json").data) rfl rfl rfl rfl,
   c6_adapter_error_paths.2.2.2.1 (("google").data) respErr rfl,
   c6_adapter_error_paths.2.2.2.2 (("google").data) respBadBody rfl rfl⟩

/-- C6 counterexample: on an HTTP error (`ok = false`, status text
`Bad Gateway`) the `ai-jmeter-generator` adapter throws an error instead of
returning the fixed fallback analysis. -/
theorem c6_cex_http_error_propagated :
    AiGen.analyzeSwaggerWithAI specEmpty (("google").data) respErr
        = .error (.apiError (("Bad Gateway").data)) ∧
    (AiGen.analyzeSwaggerWithAI specEmpty (("google").data) respErr).isOk = false :=
  ⟨rfl, rfl⟩

/-! ### Claim C7 -/

/-- C7 (amended): the Sample Data Synthesizer uses a *truthy* example value
verbatim for any non-array property type; a boolean example is honoured even
when it is `false` (the source tests `prop.example !== undefined` there), and
the type defaults (`"sample_" + name`, `123`) apply when no example is
present.  On the spec's concrete schema the output is exactly
`{"age": 123, "name": "Ann"}`. -/
theorem c7_example_handling :
    AiGen.generateSampleData (some c7Schema)
        = ("\x7b\n  \"age\": 123,\n  \"name\": \"Ann\"\n\x7d").data ∧
    (∀ (k : Str) (p : SchemaProp) (e : Json),
        p.exampleVal = some e → e.jsTruthy = true →
        p.type ≠ some (("array").data) → AiGen.sampleValue k p = e) ∧
    (∀ (k : Str) (it : Option Json),
        AiGen.sampleValue k ⟨some ("boolean").data, some (.bool false), it⟩
          = .bool false) ∧
    (∀ (k : Str) (it : Option Json),
        AiGen.sampleValue k ⟨some ("string").data, none, it⟩
          = .str ((("sample_").data) ++ k)) ∧
    (∀ (k : Str) (it : Option Json),
        AiGen.sampleValue k ⟨some ("integer").data, none, it⟩ = .num 123) := by
  refine ⟨rfl, ?_, fun _ _ => rfl, fun _ _ => rfl, fun _ _ => rfl⟩
  intro k p e he ht hty
  rcases p with ⟨ty?, ex?, it?⟩
  simp only at he hty
  subst he
  cases ty? with
  | none =>
    show AiGen.jsOrJson (some e) _ = e
    simp [AiGen.jsOrJson, ht]
  | some ty =>
    simp only [AiGen.sampleValue]
    split_ifs with h1 h2 h3 h4
    · simp [AiGen.jsOrJson, ht]
    · simp [AiGen.jsOrJson, ht]
    · rfl
    · exact absurd (by rw [h4]) hty
    · simp [AiGen.jsOrJson, ht]

/-- Closed instance of `c7_example_handling` on a truthy string example. -/
theorem c7_example_handling_witness :
    AiGen.sampleValue (("name").data)
        ⟨some ("string").data, some (.str ("Ann").data), none⟩
      = .str ("Ann").data :=
  c7_example_handling.2.1 (("name").data)
    ⟨some ("string").data, some (.str ("Ann").data), none⟩
    (.str ("Ann").data) rfl rfl (by decide)

/-- C7 counterexample: a falsy example — the integer `0` — is *not* used
verbatim: `prop.example || default` discards it and the type default `123` is
produced instead, contradicting the claim that falsy examples are used
verbatim. -/
theorem c7_cex_falsy_example_dropped :
    AiGen.sampleValue (("age").data)
        ⟨some ("integer").data, some (.num 0), none⟩ = .num 123 ∧
    AiGen.generateSampleData
        (some ⟨some [(("age").data, ⟨some ("integer").data, some (.num 0), none⟩)]⟩)
      = ("\x7b\n  \"age\": 123\n\x7d").data ∧
    AiGen.sampleValue (("s").data)
        ⟨some ("string").data, some (.str []), none⟩
      = .str (("sample_s").data) :=
  ⟨rfl, rfl, rfl⟩

/-! ### Claim C10 -/

/-- C10: on an empty entries list the endpoint's summary computation succeeds
with `totalRequests = 0` and empty domain/method sets, but its
`avgResponseTime` is `0 / 0`, JavaScript `NaN`, which `JSON.stringify`
serialises as `null` — there is no guard for the empty capture. -/
theorem c10_empty_capture_nan_summary :
    HarToJmeter.summaryOf [] = .ok ⟨0, [], [], JsNum.nan⟩ ∧
    JsNum.jsDiv (JsNum.num 0) (JsNum.num 0) = JsNum.nan ∧
    JsNum.jsonOfJsNum JsNum.nan = Json.null :=
  ⟨rfl, rfl, rfl⟩

/-! ### Claim C8 -/

namespace JsStr

theorem jsSetDedupGo_congr :
    ∀ (l s1 s2 : List Str), (∀ x, x ∈ s1 ↔ x ∈ s2) →
      jsSetDedupGo s1 l = jsSetDedupGo s2 l := by
  intro l
  induction l with
  | nil => intro _ _ _; rfl
  | cons x t ih =>
    intro s1 s2 h
    show (if x ∈ s1 then jsSetDedupGo s1 t else x :: jsSetDedupGo (x :: s1) t)
      = (if x ∈ s2 then jsSetDedupGo s2 t else x :: jsSetDedupGo (x :: s2) t)
    by_cases hx : x ∈ s1
    · rw [if_pos hx, if_pos ((h x).mp hx), ih s1 s2 h]
    · rw [if_neg hx, if_neg (fun hc => hx ((h x).mpr hc))]
      rw [ih (x :: s1) (x :: s2) (by intro y; simp [h y])]

end JsStr

namespace JsObj

theorem pushGroup_keys {α : Type} (k : Str) (x : α) :
    ∀ acc : List (Str × List α),
      (pushGroup acc k x).map Prod.fst
        = if k ∈ acc.map Prod.fst then acc.map Prod.fst else acc.map Prod.fst ++ [k] := by
  intro acc
  induction acc with
  | nil => simp [pushGroup]
  | cons p t ih =>
    obtain ⟨k', xs⟩ := p
    show (if k' = k then (k', xs ++ [x]) :: t else (k', xs) :: pushGroup t k x).map Prod.fst = _
    by_cases h : k' = k
    · subst h
      rw [if_pos rfl]
      simp
    · rw [if_neg h]
      by_cases hm : k ∈ t.map Prod.fst
      · have : k ∈ ((k', xs) :: t).map Prod.fst := by simp [hm]
        rw [if_pos this]
        simp only [List.map_cons, ih]
        rw [if_pos hm]
      · have : ¬ k ∈ ((k', xs) :: t).map Prod.fst := by
          simp only [List.map_cons, List.mem_cons]
          rintro (hc | hc)
          · exact h hc.symm
          · exact hm hc
        rw [if_neg this]
        simp only [List.map_cons, ih]
        rw [if_neg hm]
        simp

end JsObj

namespace HarToJmeter

theorem requestGroups_fold_keys (rgs : Option (List ReqGroup)) :
    ∀ (entries : List HarEntry) (acc : List (Str × List HarEntry)) (names : List Str),
      entries.mapM (fun e => groupNameOf rgs e) = .ok names →
      ∃ r, entries.foldlM
            (fun acc e => (groupNameOf rgs e).map (fun n => JsObj.pushGroup acc n e)) acc
          = .ok r ∧
        r.map Prod.fst
          = acc.map Prod.fst ++ JsStr.jsSetDedupGo (acc.map Prod.fst) names := by
  intro entries
  induction entries with
  | nil =>
    intro acc names h
    have h' : (Except.ok ([] : List Str) : Except JsErr (List Str)) = .ok names := h
    have hn : ([] : List Str) = names := Except.ok.inj h'
    subst hn
    exact ⟨acc, rfl, by simp [JsStr.jsSetDedupGo]⟩
  | cons e rest ih =>
    intro acc names h
    rw [List.mapM_cons] at h
    cases hn : groupNameOf rgs e with
    | error err =>
      rw [hn] at h
      exact absurd h (fun hc => Except.noConfusion hc)
    | ok n =>
      rw [hn] at h
      cases hns : rest.mapM (fun e => groupNameOf rgs e) with
      | error err =>
        rw [hns] at h
        exact absurd h (fun hc => Except.noConfusion hc)
      | ok ns =>
        rw [hns] at h
        have h' : (Except.ok (n :: ns) : Except JsErr (List Str)) = .ok names := h
        have hnames : (n :: ns) = names := Except.ok.inj h'
        subst hnames
        rw [List.foldlM_cons, hn]
        obtain ⟨r, hr, hkeys⟩ := ih (JsObj.pushGroup acc n e) ns hns
        refine ⟨r, hr, ?_⟩
        rw [hkeys, JsObj.pushGroup_keys]
        show _ = acc.map Prod.fst
          ++ (if n ∈ acc.map Prod.fst then JsStr.jsSetDedupGo (acc.map Prod.fst) ns
              else n :: JsStr.jsSetDedupGo (n :: acc.map Prod.fst) ns)
        by_cases hm : n ∈ acc.map Prod.fst
        · rw [if_pos hm, if_pos hm]
        · rw [if_neg hm, if_neg hm]
          rw [JsStr.jsSetDedupGo_congr ns (acc.map Prod.fst ++ [n]) (n :: acc.map Prod.fst)
            (by intro y; simp [or_comm])]
          simp

end HarToJmeter

/-- C8 (amended): each operation is tested against the AI groups in order and
the first match wins; an operation matching nothing is assigned the literal
`Default` group name.  But the output group *order* is JavaScript object
insertion order — groups appear in the order in which the first operation was
assigned to them — not with `Default` appended last. -/
theorem c8_grouping_first_match_and_order :
    (∀ (pre post : List ReqGroup) (g : ReqGroup) (e : HarEntry),
        (∀ g' ∈ pre, HarToJmeter.matchesGroup g' e.request.url = .ok false) →
        HarToJmeter.matchesGroup g e.request.url = .ok true →
        HarToJmeter.entryGroupName (pre ++ g :: post) e = .ok g.name) ∧
    (∀ (gs : List ReqGroup) (e : HarEntry),
        (∀ g ∈ gs, HarToJmeter.matchesGroup g e.request.url = .ok false) →
        HarToJmeter.entryGroupName gs e = .ok (("Default").data)) ∧
    (∀ (rgs : Option (List ReqGroup)) (entries : List HarEntry) (names : List Str),
        entries.mapM (fun e => HarToJmeter.groupNameOf rgs e) = .ok names →
        ∃ r, HarToJmeter.requestGroupsOf rgs entries = .ok r ∧
          r.map Prod.fst = JsStr.jsSetDedup names) := by
  refine ⟨?_, ?_, ?_⟩
  · intro pre
    induction pre with
    | nil =>
      intro post g e _ hg
      show (match HarToJmeter.matchesGroup g e.request.url with
            | Except.error err => Except.error err
            | Except.ok true => Except.ok g.name
            | Except.ok false => HarToJmeter.entryGroupName post e) = Except.ok g.name
      rw [hg]
    | cons g' pre ih =>
      intro post g e hpre hg
      show (match HarToJmeter.matchesGroup g' e.request.url with
            | Except.error err => Except.error err
            | Except.ok true => Except.ok g'.name
            | Except.ok false => HarToJmeter.entryGroupName (pre ++ g :: post) e)
          = Except.ok g.name
      rw [hpre g' (List.mem_cons_self g' pre)]
      exact ih post g e (fun g'' hg'' => hpre g'' (List.mem_cons_of_mem g' hg'')) hg
  · intro gs
    induction gs with
    | nil => intro e _; rfl
    | cons g gs ih =>
      intro e h
      show (match HarToJmeter.matchesGroup g e.request.url with
            | Except.error err => Except.error err
            | Except.ok true => Except.ok g.name
            | Except.ok false => HarToJmeter.entryGroupName gs e)
          = Except.ok (("Default").data)
      rw [h g (List.mem_cons_self g gs)]
      exact ih e (fun g' hg' => h g' (List.mem_cons_of_mem g hg'))
  · intro rgs entries names h
    obtain ⟨r, hr, hkeys⟩ := HarToJmeter.requestGroups_fold_keys rgs entries [] names h
    exact ⟨r, hr, by simpa [JsStr.jsSetDedup] using hkeys⟩

/-- Closed instances of `c8_grouping_first_match_and_order` on the concrete
two-entry capture. -/
theorem c8_grouping_witness :
    HarToJmeter.entryGroupName grpGroups grpE2 = .ok (("API").data) ∧
    HarToJmeter.entryGroupName grpGroups grpE1 = .ok (("Default").data) ∧
    (∃ r, HarToJmeter.requestGroupsOf (some grpGroups) grpEntries = .ok r ∧
      r.map Prod.fst = JsStr.jsSetDedup [(("Default").data), (("API").data)]) :=
  ⟨c8_grouping_first_match_and_order.1 [] [] ⟨("API").data, ("/api/").data⟩ grpE2
      (fun g' hg' => absurd hg' (List.not_mem_nil g')) rfl,
   c8_grouping_first_match_and_order.2.1 grpGroups grpE1
      (by
        intro g hg
        simp only [grpGroups, List.mem_singleton] at hg
        subst hg
        rfl),
   c8_grouping_first_match_and_order.2.2 (some grpGroups) grpEntries
      [(("Default").data), (("API").data)] rfl⟩

/-- C8 counterexample: with recommended group `API` (pattern `/api/`) and a
capture whose first entry matches nothing and whose second matches `API`, the
serializer's group order is `Default` first and `API` last — the synthesized
`Default` group is *not* appended last. -/
theorem c8_cex_default_not_last :
    HarToJmeter.requestGroupsOf (some grpGroups) grpEntries
        = .ok [((("Default").data), [grpE1]), ((("API").data), [grpE2])] ∧
    ([((("Default").data), [grpE1]), ((("API").data), [grpE2])].map
        Prod.fst).getLast? = some (("API").data) :=
  ⟨rfl, rfl⟩

/-! ### Claim C2 -/

/-- `swDocPlain` decomposed exactly as the fallback serializer assembles it. -/
theorem swDocPlain_decomp :
    swDocPlain =
      Tpl.swDoc_0 ++ [] ++ Tpl.swDoc_1 ++ (("2026-01-01T00:00:00.000Z").data)
        ++ Tpl.swDoc_2 ++ (("https").data) ++ Tpl.swDoc_3 ++ (("api.example.com").data)
        ++ Tpl.swDoc_4 ++ (("443").data) ++ Tpl.swDoc_5 ++ [] ++ Tpl.swDoc_6 := rfl

/-- `swDocPlain` equals the flattening of its segment list. -/
theorem swDocPlain_chunks : swDocPlain = chunksSwPlain.flatten := by
  rw [swDocPlain_decomp]
  simp only [chunksSwPlain, List.flatten_cons, List.flatten_nil, List.append_assoc,
    List.append_nil, List.nil_append]

set_option maxRecDepth 20000 in
/-- C2 (amended): every successful HAR-serializer output has the shape
`head ++ threadGroups ++ tail` where the tail is the fixed template text after
all thread groups; that tail contains exactly two result-collecting listener
nodes — one detailed-results listener (`ViewResultsFullVisualizer`) and one
summary listener (`SummaryReport`).  The *fallback swagger serializer's* fixed
tail, by contrast, contains exactly one listener node: the detailed-results
listener, and no summary listener. -/
theorem c2_listener_nodes :
    (∀ (entries : List HarEntry) (lc : LoadConfig) (title : Str)
        (analysis : HarAnalysis) (nowIso : Str) (doc : Str),
        HarToJmeter.generateJMeterXML entries lc title analysis nowIso = .ok doc →
        ∃ bu tgsStr,
          doc = Tpl.harDoc_0 ++ JsStr.escapeXml title ++ Tpl.harDoc_1 ++ nowIso
            ++ Tpl.harDoc_2 ++ bu ++ Tpl.harDoc_3 ++ tgsStr ++ Tpl.harDoc_4) ∧
    JsStr.countSub (("<ResultCollector").data) Tpl.harDoc_4 = 2 ∧
    JsStr.countSub Repair.srMarker Tpl.harDoc_4 = 1 ∧
    JsStr.countSub Repair.vrtMarker Tpl.harDoc_4 = 1 ∧
    JsStr.countSub (("<ResultCollector").data) Tpl.swDoc_6 = 1 ∧
    JsStr.countSub Repair.srMarker Tpl.swDoc_6 = 0 ∧
    JsStr.countSub Repair.vrtMarker Tpl.swDoc_6 = 1 := by
  refine ⟨?_, ?_, ?_, ?_, ?_, ?_, ?_⟩
  · intro entries lc title analysis nowIso doc h
    rw [HarToJmeter.generateJMeterXML.eq_def] at h
    split at h
    · exact absurd h (fun hc => Except.noConfusion hc)
    · split at h
      · exact absurd h (fun hc => Except.noConfusion hc)
      · split at h
        · exact absurd h (fun hc => Except.noConfusion hc)
        · exact ⟨_, _, (Except.ok.inj h).symm⟩
  all_goals
    first
    | (rw [show Tpl.harDoc_4 = ([Tpl.harDoc_4a, Tpl.harDoc_4b] : List Str).flatten
          from by simp [Tpl.harDoc_4],
        JsStr.countSub_flatten _ (by decide)]
       decide)
    | decide

set_option maxRecDepth 20000 in
/-- Closed instance of `c2_listener_nodes` on the one-entry capture. -/
theorem c2_listener_nodes_witness :
    ∃ bu tgsStr,
      harDocZero = Tpl.harDoc_0 ++ JsStr.escapeXml [] ++ Tpl.harDoc_1
        ++ (("2026-01-01T00:00:00.000Z").data) ++ Tpl.harDoc_2 ++ bu ++ Tpl.harDoc_3
        ++ tgsStr ++ Tpl.harDoc_4 :=
  c2_listener_nodes.1 [cexEntryA] lcZero [] anaEmpty
    (("2026-01-01T00:00:00.000Z").data) harDocZero rfl

set_option maxRecDepth 20000 in
/-- C2 counterexample: the fallback swagger serializer's document contains a
detailed-results listener but *no* summary listener at all — its listener
count is one, not two. -/
theorem c2_cex_fallback_has_no_summary_listener :
    SwaggerAI.generateJMeterXML specEmpty swLcPlain swAnaNone
        (("2026-01-01T00:00:00.000Z").data) = swDocPlain ∧
    JsStr.countSub Repair.srMarker swDocPlain = 0 ∧
    JsStr.countSub (("<ResultCollector").data) swDocPlain = 1 ∧
    JsStr.countSub Repair.vrtMarker swDocPlain = 1 := by
  refine ⟨rfl, ?_, ?_, ?_⟩
  all_goals
    rw [swDocPlain_chunks, JsStr.countSub_flatten _ (by decide)]
    decide

/-! ### Claim C4 -/

namespace JsStr

theorem jsReplaceFirst_append_self (s pat repl : Str)
    (h : findSub pat (s ++ pat) = some s.length) (hd : '$' ∉ repl) :
    jsReplaceFirst (s ++ pat) pat repl = s ++ repl := by
  rw [jsReplaceFirst, h]
  show List.take s.length (s ++ pat)
      ++ jsExpandRepl (List.take s.length (s ++ pat)) pat
           (List.drop (s.length + pat.length) (s ++ pat)) repl
      ++ List.drop (s.length + pat.length) (s ++ pat) = s ++ repl
  rw [noDollar_expand _ _ _ repl hd, List.take_left, List.drop_append]
  simp only [List.drop_length, List.append_nil]

end JsStr

set_option maxRecDepth 20000 in
/-- C4 (amended): on a document of the form `head ++ "</hashTree>\n</jmeterTestPlan>"`
whose summary marker is absent, whose detailed-results marker is present in
`head`, and whose first closing-sequence occurrence is the final one, the
repair pass inserts exactly one summary-listener node — but it does *not*
leave the rest byte-identical: the original closing sequence is replaced by
`closeRepl`, which prepends an extra indented `</hashTree>` closing level. -/
theorem c4_summary_insertion :
    (∀ (head : Str) (lc : SwaggerAI.SwLoadConfig),
        lc.addCsvConfig = false →
        JsStr.jsIncludes (head ++ Repair.closePat) Repair.srMarker = false →
        JsStr.jsIncludes head Repair.vrtMarker = true →
        JsStr.findSub Repair.closePat (head ++ Repair.closePat) = some head.length →
        SwaggerAI.enhanceJMeterXML (head ++ Repair.closePat) lc
          = head ++ (Tpl.insSummary_0 ++ Repair.closeRepl)) ∧
    JsStr.countSub Repair.srMarker Tpl.insSummary_0 = 1 ∧
    Repair.closeRepl = (("\n    </hashTree>\n  ").data) ++ Repair.closePat ∧
    Repair.closeRepl ≠ Repair.closePat := by
  refine ⟨?_, by decide, rfl, by decide⟩
  intro head lc hcsv hsr hvrt hfind
  have hx1 : JsStr.jsReplaceFirst (head ++ Repair.closePat) Repair.closePat
      (Tpl.insSummary_0 ++ Repair.closeRepl)
      = head ++ (Tpl.insSummary_0 ++ Repair.closeRepl) :=
    JsStr.jsReplaceFirst_append_self _ _ _ hfind (by decide)
  have hvrt1 : JsStr.jsIncludes (head ++ (Tpl.insSummary_0 ++ Repair.closeRepl))
      Repair.vrtMarker = true := by
    rw [JsStr.jsIncludes_iff] at hvrt ⊢
    exact hvrt.trans (List.prefix_append _ _).isInfix
  simp only [SwaggerAI.enhanceJMeterXML, hsr, Bool.false_eq_true, if_false, hx1,
    hvrt1, if_true, hcsv, Bool.false_and]

set_option maxRecDepth 20000 in
/-- Closed instance of `c4_summary_insertion` on `missingSummaryDoc`. -/
theorem c4_summary_insertion_witness :
    SwaggerAI.enhanceJMeterXML
        ((("ViewResultsFullVisualizer\n").data) ++ Repair.closePat) swLcPlain
      = (("ViewResultsFullVisualizer\n").data)
          ++ (Tpl.insSummary_0 ++ Repair.closeRepl) :=
  c4_summary_insertion.1 (("ViewResultsFullVisualizer\n").data) swLcPlain
    rfl (by decide) (by decide) (by decide)

set_option maxRecDepth 20000 in
/-- C4 counterexample: on the document missing only the summary listener the
repair pass inserts the summary listener once, but the remainder is *not*
byte-identical: the document's single `</hashTree>` closing tag becomes two
(an extra closing level is introduced), so a node outside the inserted
listener changed. -/
theorem c4_cex_extra_closing_level :
    SwaggerAI.enhanceJMeterXML missingSummaryDoc swLcPlain
        = (("ViewResultsFullVisualizer\n").data)
            ++ (Tpl.insSummary_0 ++ Repair.closeRepl) ∧
    JsStr.countSub (("</hashTree>").data) missingSummaryDoc = 1 ∧
    JsStr.countSub (("</hashTree>").data)
        ((("ViewResultsFullVisualizer\n").data)
          ++ (Tpl.insSummary_0 ++ Repair.closeRepl)) = 2 ∧
    JsStr.countSub Repair.srMarker
        ((("ViewResultsFullVisualizer\n").data)
          ++ (Tpl.insSummary_0 ++ Repair.closeRepl)) = 1 := by
  refine ⟨?_, by decide, ?_, ?_⟩
  · have hx1 : JsStr.jsReplaceFirst
        ((("ViewResultsFullVisualizer\n").data) ++ Repair.closePat) Repair.closePat
        (Tpl.insSummary_0 ++ Repair.closeRepl)
        = (("ViewResultsFullVisualizer\n").data)
            ++ (Tpl.insSummary_0 ++ Repair.closeRepl) :=
      JsStr.jsReplaceFirst_append_self _ _ _ (by decide) (by decide)
    have hvrt1 : JsStr.jsIncludes
        ((("ViewResultsFullVisualizer\n").data) ++ (Tpl.insSummary_0 ++ Repair.closeRepl))
        Repair.vrtMarker = true := by decide
    rw [show missingSummaryDoc
        = (("ViewResultsFullVisualizer\n").data) ++ Repair.closePat from rfl]
    simp only [SwaggerAI.enhanceJMeterXML, show JsStr.jsIncludes
        ((("ViewResultsFullVisualizer\n").data) ++ Repair.closePat) Repair.srMarker
        = false from by decide, Bool.false_eq_true, if_false, hx1, hvrt1, if_true,
      show swLcPlain.addCsvConfig = false from rfl, Bool.false_and]
  · rw [show ((("ViewResultsFullVisualizer\n").data)
        ++ (Tpl.insSummary_0 ++ Repair.closeRepl))
        = ([("ViewResultsFullVisualizer\n").data, Tpl.insSummary_0,
            Repair.closeRepl] : List Str).flatten from by
          simp [List.flatten_cons, List.append_assoc],
      JsStr.countSub_flatten _ (by decide)]
    decide
  · rw [show ((("ViewResultsFullVisualizer\n").data)
        ++ (Tpl.insSummary_0 ++ Repair.closeRepl))
        = ([("ViewResultsFullVisualizer\n").data, Tpl.insSummary_0,
            Repair.closeRepl] : List Str).flatten from by
          simp [List.flatten_cons, List.append_assoc],
      JsStr.countSub_flatten _ (by decide)]
    decide

/-! ### Claim C9 -/

namespace JsStr

theorem prefix_append_drop {u l : Str} (h : u <+: l) : u ++ l.drop u.length = l := by
  obtain ⟨t, rfl⟩ := h
  rw [List.drop_left]

theorem isPrefixOf_append_drop {pat s : Str} (h : pat.isPrefixOf s = true) :
    pat ++ s.drop pat.length = s :=
  prefix_append_drop (List.isPrefixOf_iff_prefix.mp h)

theorem expand_cons {bef mat aft : Str} {c : Char} (r : Str) (hc : c ≠ '$') :
    jsExpandRepl bef mat aft (c :: r) = c :: jsExpandRepl bef mat aft r := by
  rw [jsExpandRepl.eq_def]; exact if_neg hc

theorem expand_dd {bef mat aft : Str} (r : Str) :
    jsExpandRepl bef mat aft ('$' :: '$' :: r) = '$' :: jsExpandRepl bef mat aft r := by
  rw [jsExpandRepl.eq_def]; simp

theorem expand_amp {bef mat aft : Str} (r : Str) :
    jsExpandRepl bef mat aft ('$' :: '&' :: r) = mat ++ jsExpandRepl bef mat aft r := by
  rw [jsExpandRepl.eq_def]; simp

theorem expand_btick {bef mat aft : Str} (r : Str) :
    jsExpandRepl bef mat aft ('$' :: btickChar :: r) = bef ++ jsExpandRepl bef mat aft r := by
  rw [jsExpandRepl.eq_def]; simp [btickChar, aposChar]

theorem expand_apos {bef mat aft : Str} (r : Str) :
    jsExpandRepl bef mat aft ('$' :: aposChar :: r) = aft ++ jsExpandRepl bef mat aft r := by
  rw [jsExpandRepl.eq_def]; simp [btickChar, aposChar]

theorem expand_other {bef mat aft : Str} {c2 : Char} (r : Str) (h2 : c2 ≠ '$')
    (h3 : c2 ≠ '&') (h4 : c2 ≠ btickChar) (h5 : c2 ≠ aposChar) :
    jsExpandRepl bef mat aft ('$' :: c2 :: r)
      = '$' :: jsExpandRepl bef mat aft (c2 :: r) := by
  rw [jsExpandRepl.eq_def]
  simp [h2, h3, h4, h5]

theorem expand_keeps_tail (bef mat aft v : Str) (hv : '$' ∉ v)
    (hhead : ∀ c, v.head? = some c → c ≠ '&' ∧ c ≠ btickChar ∧ c ≠ aposChar) :
    ∀ (n : Nat) (u : Str), u.length ≤ n →
      ∃ u', jsExpandRepl bef mat aft (u ++ v) = u' ++ v := by
  intro n
  induction n with
  | zero =>
    intro u hu
    have hnil : u = [] := List.eq_nil_of_length_eq_zero (Nat.le_zero.mp hu)
    subst hnil
    exact ⟨[], noDollar_expand _ _ _ v hv⟩
  | succ n ih =>
    intro u hu
    match u with
    | [] =>
      exact ⟨[], noDollar_expand _ _ _ v hv⟩
    | c :: u2 =>
      by_cases hc : c = '$'
      · subst hc
        match u2 with
        | [] =>
          match hv2 : v with
          | [] => exact ⟨['$'], rfl⟩
          | c2 :: v2 =>
            have hc2ne : c2 ≠ '$' := fun he => hv (he ▸ List.mem_cons_self c2 v2)
            have hsp := hhead c2 rfl
            refine ⟨['$'], ?_⟩
            show jsExpandRepl bef mat aft ('$' :: (c2 :: v2)) = '$' :: (c2 :: v2)
            rw [expand_other (v2) hc2ne hsp.1 hsp.2.1 hsp.2.2,
              noDollar_expand _ _ _ _ hv]
        | c2 :: u3 =>
          have hu3 : u3.length ≤ n := by
            simp only [List.length_cons] at hu; omega
          have hu2 : (c2 :: u3).length ≤ n := by
            simp only [List.length_cons] at hu ⊢; omega
          by_cases h2 : c2 = '$'
          · subst h2
            obtain ⟨u', hu'⟩ := ih u3 hu3
            exact ⟨'$' :: u', by
              show jsExpandRepl bef mat aft ('$' :: '$' :: (u3 ++ v)) = _
              rw [expand_dd, hu']; rfl⟩
          · by_cases h3 : c2 = '&'
            · subst h3
              obtain ⟨u', hu'⟩ := ih u3 hu3
              exact ⟨mat ++ u', by
                show jsExpandRepl bef mat aft ('$' :: '&' :: (u3 ++ v)) = _
                rw [expand_amp, hu', List.append_assoc]⟩
            · by_cases h4 : c2 = btickChar
              · subst h4
                obtain ⟨u', hu'⟩ := ih u3 hu3
                exact ⟨bef ++ u', by
                  show jsExpandRepl bef mat aft ('$' :: btickChar :: (u3 ++ v)) = _
                  rw [expand_btick, hu', List.append_assoc]⟩
              · by_cases h5 : c2 = aposChar
                · subst h5
                  obtain ⟨u', hu'⟩ := ih u3 hu3
                  exact ⟨aft ++ u', by
                    show jsExpandRepl bef mat aft ('$' :: aposChar :: (u3 ++ v)) = _
                    rw [expand_apos, hu', List.append_assoc]⟩
                · obtain ⟨u', hu'⟩ := ih (c2 :: u3) hu2
                  exact ⟨'$' :: u', by
                    show jsExpandRepl bef mat aft ('$' :: c2 :: (u3 ++ v)) = _
                    rw [expand_other (u3 ++ v) h2 h3 h4 h5,
                      show (c2 :: (u3 ++ v)) = (c2 :: u3) ++ v from rfl, hu']
                    rfl⟩
      · obtain ⟨u', hu'⟩ := ih u2 (by simp only [List.length_cons] at hu; omega)
        refine ⟨c :: u', ?_⟩
        rw [List.cons_append, expand_cons _ hc, hu', List.cons_append]

theorem jsReplaceFirst_sublist (s pat repl : Str)
    (h : ∀ bef aft : Str, pat.Sublist (jsExpandRepl bef pat aft repl)) :
    s.Sublist (jsReplaceFirst s pat repl) := by
  rw [jsReplaceFirst]
  cases hf : findSub pat s with
  | none => exact List.Sublist.refl s
  | some i =>
    show s.Sublist (s.take i ++ jsExpandRepl (s.take i) pat (s.drop (i + pat.length)) repl
      ++ s.drop (i + pat.length))
    conv_lhs => rw [findSub_decomp pat s i hf]
    exact ((List.Sublist.refl _).append (h _ _)).append (List.Sublist.refl _)

end JsStr

namespace JsRegex

open JsStr

theorem tryMatchTG_append {s m rest : Str} (h : tryMatchTG s = some (m, rest)) :
    m ++ rest = s := by
  simp only [tryMatchTG] at h
  split at h
  case isFalse => exact absurd h (by simp)
  case isTrue hpre =>
    split at h
    case h_2 => exact absurd h (by simp)
    case h_1 r3 heq =>
      split at h
      case isFalse => exact absurd h (by simp)
      case isTrue hpre2 =>
        rw [Option.some_inj, Prod.mk.injEq] at h
        obtain ⟨hm, hrest⟩ := h
        subst hm hrest
        have h1 := isPrefixOf_append_drop (List.isPrefixOf_iff_prefix.mpr
          (List.isPrefixOf_iff_prefix.mp hpre))
        have h2 := prefix_append_drop
          (List.takeWhile_prefix (l := s.drop tgLit1.length) (fun c => decide (c ≠ '>')))
        have h3 := prefix_append_drop (List.takeWhile_prefix (l := r3) isWsJs)
        have h4 := isPrefixOf_append_drop hpre2
        simp only [List.append_assoc, List.cons_append]
        rw [h4, h3, ← heq, h2, h1]

theorem tryMatchSampler_append {method s m rest : Str}
    (h : tryMatchSampler method s = some (m, rest)) : m ++ rest = s := by
  simp only [tryMatchSampler] at h
  split at h
  case isFalse => exact absurd h (by simp)
  case isTrue hpre =>
    obtain ⟨a, _, ha⟩ := List.exists_of_findSome?_eq_some h
    split at ha
    case isFalse => exact absurd ha (by simp)
    case isTrue hpre2 =>
      obtain ⟨b, _, hb⟩ := List.exists_of_findSome?_eq_some ha
      split at hb
      case isFalse => exact absurd hb (by simp)
      case isTrue hpre3 =>
        obtain ⟨cc, _, hcc⟩ := List.exists_of_findSome?_eq_some hb
        split at hcc
        case h_2 => exact absurd hcc (by simp)
        case h_1 x heqx =>
          obtain ⟨d, _, hd⟩ := List.exists_of_findSome?_eq_some hcc
          split at hd
          case h_2 => exact absurd hd (by simp)
          case h_1 y heqy =>
            split at hd
            case h_2 => exact absurd hd (by simp)
            case h_1 k heqk =>
              rw [Option.some_inj, Prod.mk.injEq] at hd
              obtain ⟨hm, hrest⟩ := hd
              subst hm hrest
              exact List.take_append_drop _ s

theorem tgInsertAllF_sublist (ins : Str) :
    ∀ (fuel : Nat) (s : Str), s.length < fuel → s.Sublist (tgInsertAllF ins fuel s) := by
  intro fuel
  induction fuel with
  | zero => intro s h; exact absurd h (Nat.not_lt_zero _)
  | succ fuel ih =>
    intro s h
    match s with
    | [] => exact List.nil_sublist _
    | c :: t =>
      have ht : t.length < fuel := by
        simp only [List.length_cons] at h; omega
      cases hm : tryMatchTG (c :: t) with
      | none =>
        have hstep : tgInsertAllF ins (fuel + 1) (c :: t)
            = c :: tgInsertAllF ins fuel t := by
          simp [tgInsertAllF, hm]
        rw [hstep]
        exact (ih t ht).cons₂ c
      | some mr =>
        obtain ⟨m, rest⟩ := mr
        have hmr := tryMatchTG_append hm
        by_cases hg : rest.length < t.length + 1
        · have hstep : tgInsertAllF ins (fuel + 1) (c :: t)
              = m ++ ins ++ tgInsertAllF ins fuel rest := by
            simp [tgInsertAllF, hm, hg]
          rw [hstep, List.append_assoc, ← hmr]
          exact (List.Sublist.refl m).append
            ((ih rest (by omega)).trans (List.sublist_append_right _ _))
        · have hstep : tgInsertAllF ins (fuel + 1) (c :: t)
              = c :: tgInsertAllF ins fuel t := by
            simp [tgInsertAllF, hm, hg]
          rw [hstep]
          exact (ih t ht).cons₂ c

theorem tgInsertAll_sublist (ins s : Str) : s.Sublist (tgInsertAll ins s) :=
  tgInsertAllF_sublist ins (s.length + 1) s (Nat.lt_succ_self _)

theorem samplerReplaceAllF_sublist (method : Str) (f : Str → Str)
    (hf : ∀ m : Str, m.Sublist (f m)) :
    ∀ (fuel : Nat) (s : Str), s.length < fuel →
      s.Sublist (samplerReplaceAllF method f fuel s) := by
  intro fuel
  induction fuel with
  | zero => intro s h; exact absurd h (Nat.not_lt_zero _)
  | succ fuel ih =>
    intro s h
    match s with
    | [] => exact List.nil_sublist _
    | c :: t =>
      have ht : t.length < fuel := by
        simp only [List.length_cons] at h; omega
      cases hm : tryMatchSampler method (c :: t) with
      | none =>
        have hstep : samplerReplaceAllF method f (fuel + 1) (c :: t)
            = c :: samplerReplaceAllF method f fuel t := by
          simp [samplerReplaceAllF, hm]
        rw [hstep]
        exact (ih t ht).cons₂ c
      | some mr =>
        obtain ⟨m, rest⟩ := mr
        have hmr := tryMatchSampler_append hm
        by_cases hg : rest.length < t.length + 1
        · have hstep : samplerReplaceAllF method f (fuel + 1) (c :: t)
              = f m ++ samplerReplaceAllF method f fuel rest := by
            simp [samplerReplaceAllF, hm, hg]
          rw [hstep, ← hmr]
          exact (hf m).append (ih rest (by omega))
        · have hstep : samplerReplaceAllF method f (fuel + 1) (c :: t)
              = c :: samplerReplaceAllF method f fuel t := by
            simp [samplerReplaceAllF, hm, hg]
          rw [hstep]
          exact (ih t ht).cons₂ c

theorem samplerReplaceAll_sublist (method : Str) (f : Str → Str)
    (hf : ∀ m : Str, m.Sublist (f m)) (s : Str) :
    s.Sublist (samplerReplaceAll method f s) :=
  samplerReplaceAllF_sublist method f hf (s.length + 1) s (Nat.lt_succ_self _)

theorem tryMatchSampler_none {method s : Str} (h : httpLit.isPrefixOf s = false) :
    tryMatchSampler method s = none := by
  rw [tryMatchSampler, if_neg (by rw [h]; exact Bool.false_ne_true)]

theorem samplerReplaceAllF_id (method : Str) (f : Str → Str) :
    ∀ (fuel : Nat) (s : Str), s.length < fuel →
      jsIncludes s httpLit = false → samplerReplaceAllF method f fuel s = s := by
  intro fuel
  induction fuel with
  | zero => intro s h; exact absurd h (Nat.not_lt_zero _)
  | succ fuel ih =>
    intro s h hinc
    match s with
    | [] => rfl
    | c :: t =>
      have hninf := (jsIncludes_false_iff (c :: t) httpLit).mp hinc
      have hpre : httpLit.isPrefixOf (c :: t) = false := by
        cases hb : httpLit.isPrefixOf (c :: t) with
        | false => rfl
        | true =>
          exact absurd ((List.isPrefixOf_iff_prefix.mp hb).isInfix) hninf
      have htinc : jsIncludes t httpLit = false := by
        rw [jsIncludes_false_iff]
        intro hinf
        exact hninf (List.infix_cons_iff.mpr (Or.inr hinf))
      have hstep : samplerReplaceAllF method f (fuel + 1) (c :: t)
          = c :: samplerReplaceAllF method f fuel t := by
        simp [samplerReplaceAllF, tryMatchSampler_none hpre]
      rw [hstep, ih t (by simp only [List.length_cons] at h; omega) htinc]

theorem samplerReplaceAll_id (method : Str) (f : Str → Str) (s : Str)
    (h : jsIncludes s httpLit = false) : samplerReplaceAll method f s = s :=
  samplerReplaceAllF_id method f (s.length + 1) s (Nat.lt_succ_self _) h

end JsRegex

namespace HarAI

open JsStr

theorem bodyInjector_sublist (bodyData : Str) (m : Str) :
    m.Sublist (if jsIncludes m Repair.pbrMarker then m
               else jsReplaceFirst m JsRegex.closeSamplerLit
                      (bodyXmlFor bodyData ++ Repair.closeIndented)) := by
  split
  · exact List.Sublist.refl m
  · apply jsReplaceFirst_sublist
    intro bef aft
    obtain ⟨u', hu'⟩ := expand_keeps_tail bef JsRegex.closeSamplerLit aft
      Repair.closeIndented (by decide)
      (by
        intro c hc
        rw [show Repair.closeIndented.head? = some '\n' from rfl, Option.some_inj] at hc
        subst hc
        decide)
      (bodyXmlFor bodyData).length (bodyXmlFor bodyData) (le_refl _)
    rw [hu']
    exact (show JsRegex.closeSamplerLit.Sublist Repair.closeIndented by decide).trans
      (List.sublist_append_right _ _)

theorem enhanceBodyStep_sublist (d : Str) (e : HarEntry) :
    d.Sublist (enhanceBodyStep d e) := by
  cases hpd : e.request.postData with
  | none => simp [enhanceBodyStep, hpd]
  | some pd =>
    simp only [enhanceBodyStep, hpd]
    split
    · split
      · exact List.Sublist.refl d
      · exact JsRegex.samplerReplaceAll_sublist _ _ (bodyInjector_sublist pd.text) d
    · exact List.Sublist.refl d

theorem foldl_bodyStep_sublist :
    ∀ (es : List HarEntry) (d : Str), d.Sublist (es.foldl enhanceBodyStep d) := by
  intro es
  induction es with
  | nil => intro d; exact List.Sublist.refl d
  | cons e rest ih =>
    intro d
    exact (enhanceBodyStep_sublist d e).trans (ih (enhanceBodyStep d e))

set_option maxRecDepth 20000 in
theorem listenerIns_sublist (ins : Str) (hins : '$' ∉ ins)
    (hsub : Repair.closePat.Sublist (ins ++ Repair.closeRepl)) (marker d : Str) :
    d.Sublist (if jsIncludes d marker then d
               else jsReplaceFirst d Repair.closePat (ins ++ Repair.closeRepl)) := by
  split
  · exact List.Sublist.refl d
  · apply jsReplaceFirst_sublist
    intro bef aft
    rw [noDollar_expand _ _ _ _ (by
      intro hmem
      rcases List.mem_append.mp hmem with hm | hm
      · exact hins hm
      · exact absurd hm (by decide))]
    exact hsub

theorem tgIns_sublist (ins marker d : Str) :
    d.Sublist (if jsIncludes d marker then d else JsRegex.tgInsertAll ins d) := by
  split
  · exact List.Sublist.refl d
  · exact JsRegex.tgInsertAll_sublist ins d

end HarAI

set_option maxRecDepth 20000 in
/-- C9: the HAR repair pass is a total function that only ever *inserts* text:
its input is always a subsequence of its output (so it either adds the missing
structural elements or returns the document unchanged, and never raises).  An
entry without a body, or whose body already occurs in the document, leaves the
document untouched, and the sampler-matching scan leaves any document with no
sampler node unchanged (the unmatched operation is silently skipped). -/
theorem c9_repair_insert_only :
    (∀ (doc : Str) (lc : LoadConfig) (entries : List HarEntry),
        doc.Sublist (HarAI.enhanceHarJMeterXML doc lc entries)) ∧
    (∀ (doc : Str) (e : HarEntry), e.request.postData = none →
        HarAI.enhanceBodyStep doc e = doc) ∧
    (∀ (doc : Str) (e : HarEntry) (pd : HarPostData), e.request.postData = some pd →
        JsStr.jsIncludes doc (pd.text.take (min 50 pd.text.length)) = true →
        HarAI.enhanceBodyStep doc e = doc) ∧
    (∀ (method : Str) (f : Str → Str) (s : Str),
        JsStr.jsIncludes s JsRegex.httpLit = false →
        JsRegex.samplerReplaceAll method f s = s) := by
  refine ⟨?_, ?_, ?_, JsRegex.samplerReplaceAll_id⟩
  · intro doc lc entries
    simp only [HarAI.enhanceHarJMeterXML]
    have hsfx : Repair.closePat.Sublist Repair.closeRepl :=
      (show Repair.closePat <:+ Repair.closeRepl from by decide).sublist
    exact ((((HarAI.listenerIns_sublist Tpl.insSummary_0 (by decide)
        (hsfx.trans (List.sublist_append_right _ _)) Repair.srMarker doc).trans
      (HarAI.listenerIns_sublist Tpl.insVrt_0 (by decide)
        (hsfx.trans (List.sublist_append_right _ _)) Repair.vrtMarker _)).trans
      (HarAI.tgIns_sublist Tpl.insCookie_0 Repair.cookieMarker _)).trans
      (HarAI.tgIns_sublist Tpl.insCache_0 Repair.cacheMarker _)).trans
      (HarAI.foldl_bodyStep_sublist entries _)
  · intro doc e hpd
    simp [HarAI.enhanceBodyStep, hpd]
  · intro doc e pd hpd hinc
    simp only [HarAI.enhanceBodyStep, hpd, hinc, if_true]
    split <;> rfl

set_option maxRecDepth 20000 in
/-- Closed instances of `c9_repair_insert_only`. -/
theorem c9_repair_insert_only_witness :
    HarAI.enhanceBodyStep (("x").data) cexEntryA = ("x").data ∧
    HarAI.enhanceBodyStep (("Z</HTTPSamplerProxy>").data)
        ⟨⟨("POST").data, ("https://x.com/a").data, [], [],
          some ⟨("application/json").data, ("Z</HTTPSamplerProxy>").data⟩⟩,
         ⟨200, []⟩, 1, []⟩
      = ("Z</HTTPSamplerProxy>").data ∧
    JsRegex.samplerReplaceAll (("POST").data) id (("hello").data) = ("hello").data :=
  ⟨c9_repair_insert_only.2.1 (("x").data) cexEntryA rfl,
   c9_repair_insert_only.2.2.1 (("Z</HTTPSamplerProxy>").data)
     ⟨⟨("POST").data, ("https://x.com/a").data, [], [],
       some ⟨("application/json").data, ("Z</HTTPSamplerProxy>").data⟩⟩,
      ⟨200, []⟩, 1, []⟩
     ⟨("application/json").data, ("Z</HTTPSamplerProxy>").data⟩ rfl (by decide),
   c9_repair_insert_only.2.2.2 (("POST").data) id (("hello").data) (by decide)⟩

/-! ### Claim C3 -/

namespace JsStr

theorem findSub_le (pat : Str) :
    ∀ (s : Str) (i : Nat), findSub pat s = some i → i + pat.length ≤ s.length := by
  intro s
  induction s with
  | nil =>
    intro i h
    simp only [findSub] at h
    by_cases he : pat.isEmpty
    · rw [if_pos he, Option.some_inj] at h
      subst h
      simp [List.isEmpty_iff.mp he]
    · rw [if_neg he] at h
      exact absurd h (by simp)
  | cons c t ih =>
    intro i h
    simp only [findSub] at h
    by_cases hp : pat.isPrefixOf (c :: t) = true
    · rw [if_pos hp, Option.some_inj] at h
      subst h
      simpa using (List.isPrefixOf_iff_prefix.mp hp).length_le
    · rw [if_neg hp, Option.map_eq_some'] at h
      obtain ⟨j, hj, rfl⟩ := h
      have := ih j hj
      simp only [List.length_cons]
      omega

theorem jsReplaceFirst_repl_infix {s pat : Str} {i : Nat} (repl : Str)
    (hf : findSub pat s = some i) (hd : '$' ∉ repl) :
    repl <:+: jsReplaceFirst s pat repl := by
  rw [jsReplaceFirst, hf]
  show repl <:+: s.take i ++ jsExpandRepl (s.take i) pat (s.drop (i + pat.length)) repl
    ++ s.drop (i + pat.length)
  rw [noDollar_expand _ _ _ repl hd]
  exact ⟨s.take i, s.drop (i + pat.length), rfl⟩

theorem drop_of_middle {pre x post s : Str} (hs : pre ++ x ++ post = s) {n : Nat}
    (h1 : pre.length ≤ n) (h2 : n ≤ pre.length + x.length) :
    s.drop n = x.drop (n - pre.length) ++ post := by
  rw [← hs, List.append_assoc, List.drop_append_eq_append_drop,
    List.drop_eq_nil_iff.mpr (by simpa using h1), List.nil_append,
    List.drop_append_eq_append_drop,
    Nat.sub_eq_zero_of_le (by omega : n - pre.length ≤ x.length), List.drop_zero]

theorem drop_at_match {s pat : Str} {i : Nat} (hf : findSub pat s = some i) :
    s.drop i = pat ++ s.drop (i + pat.length) := by
  have hdec := findSub_decomp pat s i hf
  have hlen : (s.take i).length = i := by
    rw [List.length_take]
    have := findSub_le pat s i hf
    omega
  conv_lhs => rw [hdec]
  rw [List.append_assoc, List.drop_append_eq_append_drop, hlen,
    Nat.sub_self, List.drop_zero, List.drop_eq_nil_iff.mpr (by omega), List.nil_append]

theorem head_mem_of_drop {x : Str} {k : Nat} {c : Char} {r : Str}
    (h : x.drop k = c :: r) : c ∈ x :=
  (List.drop_sublist k x).mem (h ▸ List.mem_cons_self c r)

theorem replaceFirst_keeps_infix {x s pat : Str} (repl : Str) (hx : x <:+: s)
    (hxne : x ≠ []) (hpne : pat ≠ [])
    (hpat_head : ∀ c, pat.head? = some c → c ∉ x)
    (hx_head : ∀ c, x.head? = some c → c ∉ pat) :
    x <:+: jsReplaceFirst s pat repl := by
  rw [jsReplaceFirst]
  cases hf : findSub pat s with
  | none => exact hx
  | some i =>
    show x <:+: s.take i ++ jsExpandRepl (s.take i) pat (s.drop (i + pat.length)) repl
      ++ s.drop (i + pat.length)
    obtain ⟨pre, post, hs⟩ := hx
    have hxlen : 0 < x.length := List.length_pos.mpr hxne
    have hplen : 0 < pat.length := List.length_pos.mpr hpne
    rcases Nat.lt_or_ge i (pre.length + x.length) with hq2 | hq2
    · rcases Nat.lt_or_ge pre.length (i + pat.length) with hq1 | hq1
      · -- the ranges intersect: contradiction
        exfalso
        rcases Nat.lt_or_ge i pre.length with hq3 | hq3
        · -- pat starts strictly before x; x starts inside the pat segment
          have e1 : s.drop pre.length = x ++ post := by
            simpa using drop_of_middle hs (le_refl _) (by omega)
          have e2 : s.drop pre.length
              = pat.drop (pre.length - i) ++ s.drop (i + pat.length) := by
            have := drop_at_match hf
            have e := congrArg (List.drop (pre.length - i)) this
            rw [List.drop_drop] at e
            rw [show i + (pre.length - i) = pre.length from by omega] at e
            rw [e, List.drop_append_eq_append_drop,
              Nat.sub_eq_zero_of_le (by omega : pre.length - i ≤ pat.length),
              List.drop_zero]
          cases hxc : x with
          | nil => exact hxne hxc
          | cons xc xr =>
            cases hpd : pat.drop (pre.length - i) with
            | nil =>
              have : pat.length ≤ pre.length - i := by
                simpa [List.drop_eq_nil_iff] using hpd
              omega
            | cons pc pr =>
              rw [e1, hxc] at e2
              rw [hpd] at e2
              have hheads : xc = pc := by
                have := congrArg List.head? e2
                simpa using this
              exact hx_head xc (by rw [hxc]; rfl)
                (by rw [hheads]; exact head_mem_of_drop hpd)
        · -- x starts at or after the pat start, inside the pat segment
          have e1 : s.drop i = pat ++ s.drop (i + pat.length) := drop_at_match hf
          have e2 : s.drop i = x.drop (i - pre.length) ++ post :=
            drop_of_middle hs hq3 (by omega)
          cases hpat : pat with
          | nil => exact hpne hpat
          | cons pc pr =>
            cases hxd : x.drop (i - pre.length) with
            | nil =>
              have : x.length ≤ i - pre.length := by
                simpa [List.drop_eq_nil_iff] using hxd
              omega
            | cons xc xr =>
              rw [e2, hxd] at e1
              rw [hpat] at e1
              have hheads : xc = pc := by
                have := congrArg List.head? e1
                simpa using this
              exact hpat_head pc (by rw [hpat]; rfl)
                (by rw [← hheads]; exact head_mem_of_drop hxd)
      · -- the replaced segment lies entirely before x
        have hsub : x <:+: s.drop (i + pat.length) := by
          refine ⟨pre.drop (i + pat.length), post, ?_⟩
          conv_rhs => rw [← hs, List.append_assoc, List.drop_append_eq_append_drop]
          rw [Nat.sub_eq_zero_of_le (by omega : i + pat.length ≤ pre.length), List.drop_zero,
            List.append_assoc]
        exact hsub.trans ⟨s.take i ++ jsExpandRepl (s.take i) pat (s.drop (i + pat.length)) repl,
          [], by simp [List.append_assoc]⟩
    · -- x lies entirely before the replaced segment
      have hsub : x <:+: s.take i := by
        refine ⟨pre, post.take (i - pre.length - x.length), ?_⟩
        conv_rhs => rw [← hs, List.append_assoc, List.take_append_eq_append_take,
          List.take_append_eq_append_take]
        rw [List.take_of_length_le (by omega : pre.length ≤ i),
          List.take_of_length_le (by omega : x.length ≤ i - pre.length),
          List.append_assoc]
      exact hsub.trans ⟨[], jsExpandRepl (s.take i) pat (s.drop (i + pat.length)) repl
        ++ s.drop (i + pat.length), by simp [List.append_assoc]⟩

theorem prefix_cut {u v z : Str} (h : u <+: v ++ z) (hl : u.length ≤ v.length) :
    u <+: v := by
  obtain ⟨w, hw⟩ := h
  have ht := congrArg (List.take u.length) hw
  rw [List.take_left, List.take_append_eq_append_take,
    Nat.sub_eq_zero_of_le hl, List.take_zero, List.append_nil] at ht
  exact ht ▸ List.take_prefix u.length v

theorem infix_of_take {pre x post s : Str} (hs : pre ++ x ++ post = s) {n : Nat}
    (h : pre.length + x.length ≤ n) : x <:+: s.take n := by
  refine ⟨pre, post.take (n - pre.length - x.length), ?_⟩
  conv_rhs => rw [← hs, List.append_assoc, List.take_append_eq_append_take,
    List.take_append_eq_append_take]
  rw [List.take_of_length_le (by omega : pre.length ≤ n),
    List.take_of_length_le (by omega : x.length ≤ n - pre.length),
    List.append_assoc]

theorem infix_of_drop {pre x post s : Str} (hs : pre ++ x ++ post = s) {n : Nat}
    (h : n ≤ pre.length) : x <:+: s.drop n := by
  refine ⟨pre.drop n, post, ?_⟩
  conv_rhs => rw [← hs, List.append_assoc, List.drop_append_eq_append_drop]
  rw [Nat.sub_eq_zero_of_le h, List.drop_zero, List.append_assoc]

end JsStr

namespace JsRegex

open JsStr

theorem tg_match_split (X Y Z : Str) :
    X ++ Y ++ '>' :: (Z ++ hashTreeLit)
      = (X ++ Y ++ '>' :: (Z ++ ("<hashTree").data)) ++ ('>' :: []) := by
  have hh : hashTreeLit = ("<hashTree").data ++ ('>' :: []) := rfl
  rw [hh]
  simp [List.append_assoc]

theorem tryMatchTG_last_gt {s m rest : Str} (h : tryMatchTG s = some (m, rest)) :
    ∃ m' : Str, m = m' ++ ('>' :: []) := by
  simp only [tryMatchTG] at h
  split at h
  case isFalse => exact absurd h (by simp)
  case isTrue hpre =>
    split at h
    case h_2 => exact absurd h (by simp)
    case h_1 r3 heq =>
      split at h
      case isFalse => exact absurd h (by simp)
      case isTrue hpre2 =>
        rw [Option.some_inj, Prod.mk.injEq] at h
        obtain ⟨hm, hrest⟩ := h
        exact ⟨_, hm ▸ tg_match_split _ _ _⟩

theorem tryMatchTG_mem_gt {s m rest : Str} (h : tryMatchTG s = some (m, rest)) :
    '>' ∈ m := by
  obtain ⟨m', hm'⟩ := tryMatchTG_last_gt h
  rw [hm']
  simp

theorem tryMatchTG_rest_lt {c : Char} {t m rest : Str}
    (h : tryMatchTG (c :: t) = some (m, rest)) : rest.length < t.length + 1 := by
  have hmr := tryMatchTG_append h
  obtain ⟨m', hm'⟩ := tryMatchTG_last_gt h
  have hl := congrArg List.length hmr
  have hl2 := congrArg List.length hm'
  simp only [List.length_append, List.length_cons, List.length_nil] at hl hl2
  omega

theorem tgInsertAllF_keeps_front (ins : Str) :
    ∀ (fuel : Nat) (s x : Str), s.length < fuel → '>' ∉ x → x <+: s →
      x <+: tgInsertAllF ins fuel s := by
  intro fuel
  induction fuel with
  | zero => intro s x h; exact absurd h (Nat.not_lt_zero _)
  | succ fuel ih =>
    intro s x h hgt hpre
    match s with
    | [] =>
      rw [List.prefix_nil.mp hpre]
      exact List.nil_prefix
    | c :: t =>
      have ht : t.length < fuel := by simp only [List.length_cons] at h; omega
      cases hm : tryMatchTG (c :: t) with
      | none =>
        have hstep : tgInsertAllF ins (fuel + 1) (c :: t) = c :: tgInsertAllF ins fuel t := by
          simp [tgInsertAllF, hm]
        rw [hstep]
        match x, hpre with
        | [], _ => exact List.nil_prefix
        | xc :: xr, hpre =>
          obtain ⟨w, hw⟩ := hpre
          rw [List.cons_append] at hw
          injection hw with hc hw'
          subst hc
          have hgt' : '>' ∉ xr := fun hmem => hgt (List.mem_cons_of_mem _ hmem)
          obtain ⟨w2, hw2⟩ := ih t xr ht hgt' ⟨w, hw'⟩
          exact ⟨w2, by rw [List.cons_append, hw2]⟩
      | some mr =>
        obtain ⟨m, rest⟩ := mr
        have hmr := tryMatchTG_append hm
        have hg := tryMatchTG_rest_lt hm
        have hstep : tgInsertAllF ins (fuel + 1) (c :: t)
            = m ++ ins ++ tgInsertAllF ins fuel rest := by
          simp [tgInsertAllF, hm, hg]
        rw [hstep]
        rcases le_or_lt x.length m.length with hlen | hlen
        · have hpre2 : x <+: m ++ rest := by rw [hmr]; exact hpre
          have hxm : x <+: m := prefix_cut hpre2 hlen
          exact (hxm.trans (List.prefix_append m ins)).trans (List.prefix_append _ _)
        · exfalso
          obtain ⟨w, hw⟩ := hpre
          rw [← hmr] at hw
          have ht' := congrArg (List.take m.length) hw
          rw [List.take_append_eq_append_take,
            Nat.sub_eq_zero_of_le (le_of_lt hlen), List.take_zero, List.append_nil,
            List.take_left] at ht'
          have hmem := tryMatchTG_mem_gt hm
          rw [← ht'] at hmem
          exact hgt (List.take_subset m.length x hmem)

theorem tgInsertAllF_keeps_infix (ins x : Str) (hgt : '>' ∉ x) :
    ∀ (fuel : Nat) (s : Str), s.length < fuel → x <:+: s →
      x <:+: tgInsertAllF ins fuel s := by
  intro fuel
  induction fuel with
  | zero => intro s h; exact absurd h (Nat.not_lt_zero _)
  | succ fuel ih =>
    intro s h hinf
    match s with
    | [] => exact hinf
    | c :: t =>
      have ht : t.length < fuel := by simp only [List.length_cons] at h; omega
      cases hm : tryMatchTG (c :: t) with
      | none =>
        have hstep : tgInsertAllF ins (fuel + 1) (c :: t) = c :: tgInsertAllF ins fuel t := by
          simp [tgInsertAllF, hm]
        rcases List.infix_cons_iff.mp hinf with hpre | hinf'
        · exact (tgInsertAllF_keeps_front ins (fuel + 1) (c :: t) x h hgt hpre).isInfix
        · rw [hstep]
          exact List.infix_cons_iff.mpr (Or.inr (ih t ht hinf'))
      | some mr =>
        obtain ⟨m, rest⟩ := mr
        have hmr := tryMatchTG_append hm
        have hg := tryMatchTG_rest_lt hm
        have hstep : tgInsertAllF ins (fuel + 1) (c :: t)
            = m ++ ins ++ tgInsertAllF ins fuel rest := by
          simp [tgInsertAllF, hm, hg]
        rw [hstep]
        obtain ⟨pre, post, hs⟩ := hinf
        rw [← hmr] at hs
        rcases le_or_lt (pre.length + x.length) m.length with h1 | h1
        · have hxm : x <:+: m := by
            have hi := infix_of_take hs h1
            rwa [List.take_left] at hi
          exact hxm.trans ((List.prefix_append m ins).trans
            (List.prefix_append (m ++ ins) _)).isInfix
        · rcases le_or_lt m.length pre.length with h2 | h2
          · have hxr : x <:+: rest := by
              have hi := infix_of_drop hs h2
              rwa [List.drop_left] at hi
            exact (ih rest (by omega) hxr).trans
              (List.suffix_append (m ++ ins) _).isInfix
          · exfalso
            obtain ⟨m', hm'⟩ := tryMatchTG_last_gt hm
            have hlm : m.length = m'.length + 1 := by
              have := congrArg List.length hm'
              simpa using this
            have e1 : (m ++ rest).drop m'.length = '>' :: rest := by
              rw [hm', List.append_assoc, List.drop_left, List.singleton_append]
            have e2 := drop_of_middle hs (n := m'.length) (by omega) (by omega)
            rw [e1] at e2
            cases hxd : x.drop (m'.length - pre.length) with
            | nil =>
              have hxk : x.length ≤ m'.length - pre.length := by
                simpa [List.drop_eq_nil_iff] using hxd
              omega
            | cons xc xr =>
              rw [hxd] at e2
              have hxc : '>' = xc := by
                have := congrArg List.head? e2
                simpa using this
              exact hgt (hxc ▸ head_mem_of_drop hxd)

theorem tgInsertAll_keeps_infix (ins x s : Str) (hgt : '>' ∉ x) (h : x <:+: s) :
    x <:+: tgInsertAll ins s :=
  tgInsertAllF_keeps_infix ins x hgt (s.length + 1) s (Nat.lt_succ_self _) h

theorem tgInsertAllF_id_or_contains (ins : Str) :
    ∀ (fuel : Nat) (s : Str), s.length < fuel →
      tgInsertAllF ins fuel s = s ∨ ins <:+: tgInsertAllF ins fuel s := by
  intro fuel
  induction fuel with
  | zero => intro s h; exact absurd h (Nat.not_lt_zero _)
  | succ fuel ih =>
    intro s h
    match s with
    | [] => exact Or.inl rfl
    | c :: t =>
      have ht : t.length < fuel := by simp only [List.length_cons] at h; omega
      cases hm : tryMatchTG (c :: t) with
      | none =>
        have hstep : tgInsertAllF ins (fuel + 1) (c :: t) = c :: tgInsertAllF ins fuel t := by
          simp [tgInsertAllF, hm]
        rw [hstep]
        rcases ih t ht with hid | hcon
        · exact Or.inl (by rw [hid])
        · exact Or.inr (List.infix_cons_iff.mpr (Or.inr hcon))
      | some mr =>
        obtain ⟨m, rest⟩ := mr
        have hg := tryMatchTG_rest_lt hm
        have hstep : tgInsertAllF ins (fuel + 1) (c :: t)
            = m ++ ins ++ tgInsertAllF ins fuel rest := by
          simp [tgInsertAllF, hm, hg]
        rw [hstep]
        exact Or.inr ⟨m, tgInsertAllF ins fuel rest, rfl⟩

theorem tgInsertAll_id_or_contains (ins s : Str) :
    tgInsertAll ins s = s ∨ ins <:+: tgInsertAll ins s :=
  tgInsertAllF_id_or_contains ins (s.length + 1) s (Nat.lt_succ_self _)

theorem tgInsertAllF_prefix_reflect (pat ins : Str)
    (hS0 : pat.length ≤ ins.length)
    (hS2 : ∀ k, k < pat.length → (k + 1 < pat.length →
      (pat.drop k).head? = some '>' → ¬ pat.drop (k + 1) <+: ins)) :
    ∀ (fuel : Nat) (s : Str) (j : Nat), s.length < fuel → j < pat.length →
      pat.drop j <+: tgInsertAllF ins fuel s → pat.drop j <+: s := by
  intro fuel
  induction fuel with
  | zero => intro s j h; exact absurd h (Nat.not_lt_zero _)
  | succ fuel ih =>
    intro s j h hj hpre
    match s with
    | [] => exact hpre
    | c :: t =>
      have ht : t.length < fuel := by simp only [List.length_cons] at h; omega
      cases hm : tryMatchTG (c :: t) with
      | none =>
        have hstep : tgInsertAllF ins (fuel + 1) (c :: t) = c :: tgInsertAllF ins fuel t := by
          simp [tgInsertAllF, hm]
        rw [hstep] at hpre
        cases hpd : pat.drop j with
        | nil => exact List.nil_prefix
        | cons pj pr =>
          have hpr : pr = pat.drop (j + 1) := by
            have hd := congrArg (List.drop 1) hpd
            rw [List.drop_drop] at hd
            simpa using hd.symm
          rw [hpd] at hpre
          obtain ⟨w, hw⟩ := hpre
          rw [List.cons_append] at hw
          injection hw with hc hw'
          by_cases hj1 : j + 1 < pat.length
          · have hrec := ih t (j + 1) ht hj1 (by rw [← hpr]; exact ⟨w, hw'⟩)
            obtain ⟨w2, hw2⟩ := hrec
            rw [← hpr] at hw2
            exact ⟨w2, by rw [List.cons_append, hw2, hc]⟩
          · have hprnil : pr = [] := by
              rw [hpr, List.drop_eq_nil_iff]
              omega
            rw [hprnil, hc]
            exact ⟨t, rfl⟩
      | some mr =>
        obtain ⟨m, rest⟩ := mr
        have hmr := tryMatchTG_append hm
        have hg := tryMatchTG_rest_lt hm
        have hstep : tgInsertAllF ins (fuel + 1) (c :: t)
            = m ++ ins ++ tgInsertAllF ins fuel rest := by
          simp [tgInsertAllF, hm, hg]
        rw [hstep] at hpre
        rcases le_or_lt (pat.drop j).length m.length with hlen | hlen
        · have hpre2 : pat.drop j <+: m ++ (ins ++ tgInsertAllF ins fuel rest) := by
            rw [← List.append_assoc]
            exact hpre
          have h1 : pat.drop j <+: m := prefix_cut hpre2 hlen
          rw [← hmr]
          exact h1.trans (List.prefix_append m rest)
        · exfalso
          obtain ⟨m', hm'⟩ := tryMatchTG_last_gt hm
          obtain ⟨w, hw⟩ := hpre
          have hmp : m <+: pat.drop j := by
            have hco := congrArg (List.take m.length) hw
            rw [List.take_append_eq_append_take,
              Nat.sub_eq_zero_of_le (le_of_lt hlen), List.take_zero, List.append_nil,
              List.append_assoc, List.take_left] at hco
            exact hco ▸ List.take_prefix m.length (pat.drop j)
          obtain ⟨u, hu⟩ := hmp
          have hune : u ≠ [] := by
            intro hnil
            rw [hnil, List.append_nil] at hu
            rw [← hu] at hlen
            exact lt_irrefl _ hlen
          have hlm : m.length = m'.length + 1 := by
            have := congrArg List.length hm'
            simpa using this
          have hlu := congrArg List.length hu
          rw [List.length_append, List.length_drop] at hlu
          have hupos : 0 < u.length := List.length_pos.mpr hune
          have hpdk : pat.drop (j + m'.length) = ('>' :: []) ++ u := by
            have hd := congrArg (List.drop m'.length) hu
            rw [hm', List.append_assoc, List.drop_left, List.drop_drop] at hd
            exact hd.symm
          have hhead : (pat.drop (j + m'.length)).head? = some '>' := by
            rw [hpdk]; rfl
          have hdrop : pat.drop (j + m'.length + 1) = u := by
            rw [← List.drop_drop, hpdk]
            rfl
          have hupre : u <+: ins := by
            have he := hw
            rw [← hu, List.append_assoc, List.append_assoc] at he
            have he2 := congrArg (List.drop m.length) he
            rw [List.drop_left, List.drop_left] at he2
            exact prefix_cut ⟨w, he2⟩ (by omega)
          exact hS2 (j + m'.length) (by omega) (by omega) hhead (by rw [hdrop]; exact hupre)

theorem tgInsertAllF_no_new (pat ins : Str)
    (hS0 : pat.length ≤ ins.length)
    (hS1 : ¬ pat <:+: ins)
    (hS2 : ∀ k, k < pat.length → (k + 1 < pat.length →
      (pat.drop k).head? = some '>' → ¬ pat.drop (k + 1) <+: ins))
    (hS3 : ∀ k, k < pat.length → (0 < k → ¬ pat.take k <:+ ins)) :
    ∀ (fuel : Nat) (s : Str), s.length < fuel → ¬ pat <:+: s →
      ¬ pat <:+: tgInsertAllF ins fuel s := by
  intro fuel
  induction fuel with
  | zero => intro s h; exact absurd h (Nat.not_lt_zero _)
  | succ fuel ih =>
    intro s h hnot
    by_cases hpat0 : pat = []
    · exact absurd (by rw [hpat0]; exact List.nil_infix) hnot
    cases s with
    | nil =>
      intro hbad
      exact hnot (by simpa [tgInsertAllF] using hbad)
    | cons c t =>
      have ht : t.length < fuel := by simp only [List.length_cons] at h; omega
      cases hm : tryMatchTG (c :: t) with
      | none =>
        have hstep : tgInsertAllF ins (fuel + 1) (c :: t) = c :: tgInsertAllF ins fuel t := by
          simp [tgInsertAllF, hm]
        rw [hstep]
        intro hbad
        rcases List.infix_cons_iff.mp hbad with hpre | hinf
        · have hp := tgInsertAllF_prefix_reflect pat ins hS0 hS2 (fuel + 1) (c :: t) 0 h
            (List.length_pos.mpr hpat0) (by rw [List.drop_zero, hstep]; exact hpre)
          rw [List.drop_zero] at hp
          exact hnot hp.isInfix
        · exact ih t ht (fun hx => hnot (List.infix_cons_iff.mpr (Or.inr hx))) hinf
      | some mr =>
        obtain ⟨m, rest⟩ := mr
        have hmr := tryMatchTG_append hm
        have hg := tryMatchTG_rest_lt hm
        have hstep : tgInsertAllF ins (fuel + 1) (c :: t)
            = m ++ ins ++ tgInsertAllF ins fuel rest := by
          simp [tgInsertAllF, hm, hg]
        rw [hstep]
        intro hbad
        obtain ⟨pre, post, hs⟩ := hbad
        rcases le_or_lt (pre.length + pat.length) m.length with h1 | h1
        · -- occurrence wholly inside the matched text: it already occurred in s
          have hxm : pat <:+: m := by
            have hi := infix_of_take hs (n := m.length) h1
            rwa [List.append_assoc, List.take_left] at hi
          exact hnot (hxm.trans ⟨[], rest, by simpa using hmr⟩)
        · rcases le_or_lt (m.length + ins.length) pre.length with h2 | h2
          · -- occurrence wholly inside the processed remainder
            have hxf : pat <:+: tgInsertAllF ins fuel rest := by
              have hi := infix_of_drop hs (n := m.length + ins.length) h2
              rwa [← List.length_append, List.drop_left] at hi
            exact ih rest (by omega)
              (fun hx => hnot (by
                rw [← hmr]
                exact hx.trans (List.suffix_append m rest).isInfix)) hxf
          · rcases le_or_lt m.length pre.length with h3 | h3
            · -- occurrence starts inside the inserted block
              have hdec : pre.drop m.length ++ pat ++ post
                  = ins ++ tgInsertAllF ins fuel rest := by
                have hd := congrArg (List.drop m.length) hs
                rw [List.append_assoc pre pat post, List.drop_append_eq_append_drop,
                  Nat.sub_eq_zero_of_le h3, List.drop_zero, List.append_assoc m ins,
                  List.drop_left, ← List.append_assoc] at hd
                exact hd
              have hplen : (pre.drop m.length).length = pre.length - m.length :=
                List.length_drop _ _
              rcases le_or_lt (pre.length + pat.length) (m.length + ins.length)
                  with h4 | h4
              · -- wholly inside the inserted block
                have hin : pat <:+: ins := by
                  have hi := infix_of_take hdec (n := ins.length) (by omega)
                  rwa [List.take_left] at hi
                exact hS1 hin
              · -- straddles the end of the inserted block: a pattern prefix would
                -- have to be a suffix of the inserted block
                have hdec2 : pat ++ post = ins.drop (pre.length - m.length)
                    ++ tgInsertAllF ins fuel rest := by
                  have hd := congrArg (List.drop (pre.drop m.length).length) hdec
                  rw [List.append_assoc, List.drop_left,
                    List.drop_append_eq_append_drop, hplen,
                    Nat.sub_eq_zero_of_le
                      (by omega : pre.length - m.length ≤ ins.length),
                    List.drop_zero] at hd
                  exact hd
                have hko := congrArg
                  (List.take (ins.length - (pre.length - m.length))) hdec2
                have e1 : (ins.drop (pre.length - m.length)).length
                    = ins.length - (pre.length - m.length) := List.length_drop _ _
                rw [List.take_append_eq_append_take, List.take_append_eq_append_take,
                  Nat.sub_eq_zero_of_le (by omega :
                    ins.length - (pre.length - m.length) ≤ pat.length),
                  List.take_zero, List.append_nil,
                  List.take_of_length_le (le_of_eq e1),
                  show ins.length - (pre.length - m.length)
                      - (ins.drop (pre.length - m.length)).length = 0 from by omega,
                  List.take_zero, List.append_nil] at hko
                have hsuf : pat.take (ins.length - (pre.length - m.length)) <:+ ins := by
                  rw [hko]
                  exact List.drop_suffix _ _
                exact hS3 _ (by omega) (by omega) hsuf
            · -- straddles the end of the matched text, whose last character is '>'
              obtain ⟨m', hm'⟩ := tryMatchTG_last_gt hm
              have hlm : m.length = m'.length + 1 := by
                have := congrArg List.length hm'
                simpa using this
              have e1 : ((m ++ ins) ++ tgInsertAllF ins fuel rest).drop m'.length
                  = '>' :: (ins ++ tgInsertAllF ins fuel rest) := by
                rw [hm', List.append_assoc, List.append_assoc, List.drop_left,
                  List.singleton_append]
              have e2 := drop_of_middle hs (n := m'.length) (by omega) (by omega)
              rw [e1] at e2
              cases hpd : pat.drop (m'.length - pre.length) with
              | nil =>
                have : pat.length ≤ m'.length - pre.length := by
                  simpa [List.drop_eq_nil_iff] using hpd
                omega
              | cons pc u =>
                rw [hpd] at e2
                have hpc : '>' = pc := by
                  have := congrArg List.head? e2
                  simpa using this
                have htail : ins ++ tgInsertAllF ins fuel rest = u ++ post := by
                  have := congrArg List.tail e2
                  simpa using this
                have hu2 : u = pat.drop (m'.length - pre.length + 1) := by
                  have hd := congrArg (List.drop 1) hpd
                  rw [List.drop_drop] at hd
                  simpa using hd.symm
                have hupre : pat.drop (m'.length - pre.length + 1) <+: ins := by
                  rw [← hu2]
                  refine prefix_cut ⟨post, htail.symm⟩ ?_
                  have hlu := congrArg List.length hu2
                  rw [List.length_drop] at hlu
                  omega
                refine hS2 (m'.length - pre.length) (by omega) (by omega) ?_ hupre
                rw [hpd, ← hpc]
                rfl

theorem tgInsertAll_no_new (pat ins s : Str)
    (hS0 : pat.length ≤ ins.length)
    (hS1 : ¬ pat <:+: ins)
    (hS2 : ∀ k, k < pat.length → (k + 1 < pat.length →
      (pat.drop k).head? = some '>' → ¬ pat.drop (k + 1) <+: ins))
    (hS3 : ∀ k, k < pat.length → (0 < k → ¬ pat.take k <:+ ins))
    (h : ¬ pat <:+: s) : ¬ pat <:+: tgInsertAll ins s :=
  tgInsertAllF_no_new pat ins hS0 hS1 hS2 hS3 (s.length + 1) s (Nat.lt_succ_self _) h

end JsRegex

theorem swF1_of_marker {d : Str} (h : JsStr.jsIncludes d Repair.srMarker = true) :
    swF1 d = d := by
  rw [swF1, if_pos h]

theorem swF2_of_marker {d : Str} (h : JsStr.jsIncludes d Repair.vrtMarker = true) :
    swF2 d = d := by
  rw [swF2, if_pos h]

theorem swF2_of_nofind {d : Str} (h : JsStr.findSub Repair.closePat d = none) :
    swF2 d = d := by
  rw [swF2]
  split
  · rfl
  · rw [JsStr.jsReplaceFirst, h]

theorem swF1_of_noclose {d : Str} (h : ¬ Repair.closePat <:+: d) : swF1 d = d := by
  rw [swF1]
  split
  · rfl
  · exact JsStr.jsReplaceFirst_of_not_infix h _

theorem swF2_of_noclose {d : Str} (h : ¬ Repair.closePat <:+: d) : swF2 d = d :=
  swF2_of_nofind ((JsStr.findSub_none_iff _ _).mpr h)

/-- The summary marker, once present, survives the detailed-results insertion:
its occurrences cannot intersect a `closePat` occurrence (`closePat` starts
with `<`, which does not occur in the marker, and the marker starts with `S`,
which does not occur in `closePat`). -/
theorem sr_survives_swF2 {d : Str} (h : Repair.srMarker <:+: d) :
    Repair.srMarker <:+: swF2 d := by
  rw [swF2]
  split
  · exact h
  · refine JsStr.replaceFirst_keeps_infix _ h (by decide) (by decide) ?_ ?_
    · intro c hc
      rw [show Repair.closePat.head? = some '<' from rfl, Option.some_inj] at hc
      subst hc
      decide
    · intro c hc
      rw [show Repair.srMarker.head? = some 'S' from rfl, Option.some_inj] at hc
      subst hc
      decide

/-- The summary marker occurs in the inserted summary block. -/
theorem sr_in_insSummary : Repair.srMarker <:+: (Tpl.insSummary_0 ++ Repair.closeRepl) := by
  have h1 : Repair.srMarker <:+: Tpl.insSummary_0 :=
    ⟨Tpl.insSummary_0a, Tpl.insSummary_0b, rfl⟩
  exact h1.trans (List.prefix_append _ _).isInfix

/-- The detailed-results marker occurs in the inserted block. -/
theorem vrt_in_insVrt : Repair.vrtMarker <:+: (Tpl.insVrt_0 ++ Repair.closeRepl) := by
  have h1 : Repair.vrtMarker <:+: Tpl.insVrt_0 :=
    ⟨Tpl.insVrt_0a, Tpl.insVrt_0b, rfl⟩
  exact h1.trans (List.prefix_append _ _).isInfix

/-- The CSV marker occurs in the inserted CSV block. -/
theorem csv_in_insCsv : Repair.csvMarker <:+: Tpl.insCsv_0 :=
  ⟨Tpl.insCsv_0a, Tpl.insCsv_0b, rfl⟩

set_option maxRecDepth 20000 in
/-- After one pass, a further summary step is the identity. -/
theorem swF1_idem_after (d : Str) : swF1 (swF2 (swF1 d)) = swF2 (swF1 d) := by
  by_cases h1 : JsStr.jsIncludes d Repair.srMarker = true
  · rw [swF1_of_marker h1]
    exact swF1_of_marker ((JsStr.jsIncludes_iff _ _).mpr
      (sr_survives_swF2 ((JsStr.jsIncludes_iff _ _).mp h1)))
  · cases hf : JsStr.findSub Repair.closePat d with
    | none =>
      have hd : swF1 d = d := by
        rw [swF1]
        split
        · rfl
        · rw [JsStr.jsReplaceFirst, hf]
      rw [hd, swF2_of_nofind hf, hd]
    | some i =>
      have hins : Repair.srMarker <:+: swF1 d := by
        rw [swF1, if_neg h1]
        exact sr_in_insSummary.trans
          (JsStr.jsReplaceFirst_repl_infix _ hf (by decide))
      exact swF1_of_marker ((JsStr.jsIncludes_iff _ _).mpr (sr_survives_swF2 hins))

set_option maxRecDepth 20000 in
/-- The detailed-results step is idempotent. -/
theorem swF2_idem (y : Str) : swF2 (swF2 y) = swF2 y := by
  by_cases h1 : JsStr.jsIncludes y Repair.vrtMarker = true
  · rw [swF2_of_marker h1, swF2_of_marker h1]
  · cases hf : JsStr.findSub Repair.closePat y with
    | none =>
      have hd : swF2 y = y := swF2_of_nofind hf
      rw [hd, hd]
    | some i =>
      have hins : Repair.vrtMarker <:+: swF2 y := by
        rw [swF2, if_neg h1]
        exact vrt_in_insVrt.trans (JsStr.jsReplaceFirst_repl_infix _ hf (by decide))
      exact swF2_of_marker ((JsStr.jsIncludes_iff _ _).mpr hins)

set_option maxRecDepth 20000 in
/-- The closing-tag pattern does not occur in the CSV block. -/
theorem closePat_notin_insCsv : ¬ Repair.closePat <:+: Tpl.insCsv_0 :=
  (JsStr.countSub_eq_zero_iff Repair.closePat (by decide) Tpl.insCsv_0).mp
    (by decide)

set_option maxRecDepth 20000 in
/-- The CSV insertion can create no new occurrence of the closing-tag pattern:
the pattern does not occur inside the inserted block, every insertion point
sits right after a `>` (the matched text ends with `<hashTree>`), the only
proper pattern prefix ending in `>` is not continued by the block's head, and
no proper pattern prefix is a suffix of the block. -/
theorem closePat_not_new_csv {s : Str} (h : ¬ Repair.closePat <:+: s) :
    ¬ Repair.closePat <:+: JsRegex.tgInsertAll Tpl.insCsv_0 s :=
  JsRegex.tgInsertAll_no_new Repair.closePat Tpl.insCsv_0 s (by decide)
    closePat_notin_insCsv (by decide) (by decide) h

set_option maxRecDepth 20000 in
/-- After the summary step, the document carries the summary marker or is
unchanged with no closing-tag pattern to rewrite. -/
theorem swF1_sr_or_noclose (d : Str) :
    Repair.srMarker <:+: swF1 d ∨ (swF1 d = d ∧ ¬ Repair.closePat <:+: d) := by
  by_cases h1 : JsStr.jsIncludes d Repair.srMarker = true
  · exact Or.inl (by rw [swF1_of_marker h1]; exact (JsStr.jsIncludes_iff _ _).mp h1)
  · cases hf : JsStr.findSub Repair.closePat d with
    | none =>
      refine Or.inr ⟨?_, (JsStr.findSub_none_iff _ _).mp hf⟩
      rw [swF1]
      split
      · rfl
      · rw [JsStr.jsReplaceFirst, hf]
    | some i =>
      refine Or.inl ?_
      rw [swF1, if_neg h1]
      exact sr_in_insSummary.trans (JsStr.jsReplaceFirst_repl_infix _ hf (by decide))

set_option maxRecDepth 20000 in
/-- After the detailed-results step, the document carries the results marker or
is unchanged with no closing-tag pattern to rewrite. -/
theorem swF2_vrt_or_noclose (y : Str) :
    Repair.vrtMarker <:+: swF2 y ∨ (swF2 y = y ∧ ¬ Repair.closePat <:+: y) := by
  by_cases h1 : JsStr.jsIncludes y Repair.vrtMarker = true
  · exact Or.inl (by rw [swF2_of_marker h1]; exact (JsStr.jsIncludes_iff _ _).mp h1)
  · cases hf : JsStr.findSub Repair.closePat y with
    | none => exact Or.inr ⟨swF2_of_nofind hf, (JsStr.findSub_none_iff _ _).mp hf⟩
    | some i =>
      refine Or.inl ?_
      rw [swF2, if_neg h1]
      exact vrt_in_insVrt.trans (JsStr.jsReplaceFirst_repl_infix _ hf (by decide))

/-- After both listener steps, the summary marker is present or the closing-tag
pattern is absent. -/
theorem swx_sr_or_noclose (d : Str) :
    Repair.srMarker <:+: swF2 (swF1 d) ∨ ¬ Repair.closePat <:+: swF2 (swF1 d) := by
  rcases swF1_sr_or_noclose d with h | ⟨he, hnc⟩
  · exact Or.inl (sr_survives_swF2 h)
  · rw [he, swF2_of_noclose hnc]
    exact Or.inr hnc

/-- After both listener steps, the results marker is present or the closing-tag
pattern is absent. -/
theorem swx_vrt_or_noclose (d : Str) :
    Repair.vrtMarker <:+: swF2 (swF1 d) ∨ ¬ Repair.closePat <:+: swF2 (swF1 d) := by
  rcases swF2_vrt_or_noclose (swF1 d) with h | ⟨he, hnc⟩
  · exact Or.inl h
  · rw [he]
    exact Or.inr hnc

theorem swF3_of_marker {lc : SwaggerAI.SwLoadConfig} {d : Str}
    (h : JsStr.jsIncludes d Repair.csvMarker = true) : swF3 lc d = d := by
  simp [swF3, h]

/-- The full repair pass is the composition of the three steps. -/
theorem sw_enhance_eq (d : Str) (lc : SwaggerAI.SwLoadConfig) :
    SwaggerAI.enhanceJMeterXML d lc = swF3 lc (swF2 (swF1 d)) := rfl

/-- C3 (amended): the repair pass of the swagger AI function
(`enhanceJMeterXML`) is idempotent for every load configuration: each listener
insertion is guarded by a marker its inserted block contains, and the CSV
insertion is guarded by the `CSVDataSet` marker its block contains, creates no
new closing-tag pattern, and preserves the listener markers, so a second pass
changes nothing. -/
theorem c3_swagger_repair_idempotent :
    ∀ (doc : Str) (lc : SwaggerAI.SwLoadConfig),
      SwaggerAI.enhanceJMeterXML (SwaggerAI.enhanceJMeterXML doc lc) lc
        = SwaggerAI.enhanceJMeterXML doc lc := by
  intro doc lc
  rw [sw_enhance_eq doc lc, sw_enhance_eq _ lc]
  have hX1 : swF1 (swF2 (swF1 doc)) = swF2 (swF1 doc) := swF1_idem_after doc
  have hX2 : swF2 (swF2 (swF1 doc)) = swF2 (swF1 doc) := swF2_idem (swF1 doc)
  have hXsr := swx_sr_or_noclose doc
  have hXvrt := swx_vrt_or_noclose doc
  generalize hX : swF2 (swF1 doc) = X at hX1 hX2 hXsr hXvrt ⊢
  by_cases hc : (lc.addCsvConfig && !(JsStr.jsIncludes X Repair.csvMarker)) = true
  · have h3 : swF3 lc X = JsRegex.tgInsertAll Tpl.insCsv_0 X := by
      rw [swF3, if_pos hc]
    rcases JsRegex.tgInsertAll_id_or_contains Tpl.insCsv_0 X with hid | hcon
    · have h3id : swF3 lc X = X := by rw [h3, hid]
      rw [h3id, hX1, hX2, h3id]
    · rw [h3]
      have hcsvY : JsStr.jsIncludes (JsRegex.tgInsertAll Tpl.insCsv_0 X)
          Repair.csvMarker = true :=
        (JsStr.jsIncludes_iff _ _).mpr (csv_in_insCsv.trans hcon)
      have h1Y : swF1 (JsRegex.tgInsertAll Tpl.insCsv_0 X)
          = JsRegex.tgInsertAll Tpl.insCsv_0 X := by
        rcases hXsr with hsr | hnc
        · exact swF1_of_marker ((JsStr.jsIncludes_iff _ _).mpr
            (JsRegex.tgInsertAll_keeps_infix _ _ _ (by decide) hsr))
        · exact swF1_of_noclose (closePat_not_new_csv hnc)
      have h2Y : swF2 (JsRegex.tgInsertAll Tpl.insCsv_0 X)
          = JsRegex.tgInsertAll Tpl.insCsv_0 X := by
        rcases hXvrt with hvrt | hnc
        · exact swF2_of_marker ((JsStr.jsIncludes_iff _ _).mpr
            (JsRegex.tgInsertAll_keeps_infix _ _ _ (by decide) hvrt))
        · exact swF2_of_noclose (closePat_not_new_csv hnc)
      rw [h1Y, h2Y]
      exact swF3_of_marker hcsvY
  · have h3 : swF3 lc X = X := by rw [swF3, if_neg hc]
    rw [h3, hX1, hX2, h3]

set_option maxRecDepth 40000 in
/-- C3 counterexample: the HAR repair pass `enhanceHarJMeterXML` is *not*
idempotent.  On a document whose structural markers are all present (so the
structural steps are skipped) with one PUT and one POST sampler, the PUT body
injection destroys the 50-character prefix guard of the POST body (which
straddles the PUT sampler's closing tag), so the second pass injects the POST
body again: the second pass output differs from the first. -/
theorem c3_cex_har_repair_not_idempotent :
    HarAI.enhanceHarJMeterXML
        (HarAI.enhanceHarJMeterXML repairCexDoc lcOne repairCexEntries)
        lcOne repairCexEntries
      ≠ HarAI.enhanceHarJMeterXML repairCexDoc lcOne repairCexEntries := by
  decide
